import Mathlib

/-! NEORV32 processor check (`sw/example/processor_check/main.c`)

A shallow embedding of the test program.  The program is a straight-line
script of test cases; every case talks to the hardware and then records one
verdict in the global counters `cnt_test`, `cnt_ok`, `cnt_fail`.

The hardware and the NEORV32 library are external.  They are represented by

* `Build`    : the preprocessor symbols the source tests with `#ifdef`,
* `Neorv32H` : the constants of `neorv32.h` that the source names,
* `Caps`     : the answers of the capability queries,
* `Resp`     : one field for every value the program obtains from the
               hardware (read-back values, return codes, handler dispatch),

and the program state `State` carries the global variables of `main.c`
together with a trace of every hardware access in program order.
`PRINT_STANDARD` output is optional in the source (it expands to nothing
under `SUPPRESS_OPTIONAL_UART_PRINT`) and is not part of the trace;
`PRINT_CRITICAL` output is.
-/

namespace ProcessorCheck

/-! ## External parameters -/

/-- Preprocessor symbols tested by `main.c`. -/
structure Build where
  /-- Symbol `RUN_CHECK` is defined. -/
  RUN_CHECK : Bool
  /-- Symbol `__riscv_atomic` is defined (the compiler targets the A extension). -/
  riscv_atomic : Bool
  /-- Symbol `SUPPRESS_OPTIONAL_UART_PRINT` is defined. -/
  SUPPRESS_OPTIONAL_UART_PRINT : Bool
  deriving DecidableEq, Repr

/-- Constants of `neorv32.h` used by `main.c`.  The header is not part of the
sources at hand, so every constant is a parameter.  `NEORV32_RTE_NUM_TRAPS`
bounds a loop whose counter is a `uint8_t`; it is taken below 256. -/
structure Neorv32H where
  TRAP_CODE_I_MISALIGNED : Nat
  TRAP_CODE_I_ACCESS : Nat
  TRAP_CODE_I_ILLEGAL : Nat
  TRAP_CODE_BREAKPOINT : Nat
  TRAP_CODE_L_MISALIGNED : Nat
  TRAP_CODE_L_ACCESS : Nat
  TRAP_CODE_S_MISALIGNED : Nat
  TRAP_CODE_S_ACCESS : Nat
  TRAP_CODE_UENV_CALL : Nat
  TRAP_CODE_MENV_CALL : Nat
  TRAP_CODE_NMI : Nat
  TRAP_CODE_MSI : Nat
  TRAP_CODE_MTI : Nat
  TRAP_CODE_MEI : Nat
  TRAP_CODE_FIRQ_0 : Nat
  TRAP_CODE_FIRQ_2 : Nat
  TRAP_CODE_FIRQ_3 : Nat
  TRAP_CODE_FIRQ_4 : Nat
  TRAP_CODE_FIRQ_5 : Nat
  TRAP_CODE_FIRQ_6 : Nat
  TRAP_CODE_FIRQ_7 : Nat
  TRAP_CODE_FIRQ_8 : Nat
  TRAP_CODE_FIRQ_10 : Nat
  TRAP_CODE_FIRQ_11 : Nat
  CSR_MISA_A : Nat
  CSR_MISA_C : Nat
  CSR_MISA_U : Nat
  CSR_MCOUNTINHIBIT_CY : Nat
  CSR_MCOUNTINHIBIT_IR : Nat
  CSR_MCOUNTEREN_CY : Nat
  CSR_MSTATUS_TW : Nat
  CSR_MSTATUS_MPP_L : Nat
  CSR_MSTATUS_MPP_H : Nat
  CSR_MIE_MSIE : Nat
  CSR_MIE_MTIE : Nat
  CSR_MIE_MEIE : Nat
  CSR_MIE_FIRQ0E : Nat
  CSR_MIE_FIRQ2E : Nat
  CSR_MIE_FIRQ3E : Nat
  CSR_MIE_FIRQ4E : Nat
  CSR_MIE_FIRQ5E : Nat
  CSR_MIE_FIRQ6E : Nat
  CSR_MIE_FIRQ7E : Nat
  CSR_MIE_FIRQ10E : Nat
  CSR_MIE_FIRQ11E : Nat
  SYSINFO_FEATURES_MEM_EXT : Nat
  HPMCNT_EVENT_CIR : Nat
  HPMCNT_EVENT_WAIT_IF : Nat
  HPMCNT_EVENT_WAIT_II : Nat
  HPMCNT_EVENT_WAIT_MC : Nat
  HPMCNT_EVENT_LOAD : Nat
  HPMCNT_EVENT_STORE : Nat
  HPMCNT_EVENT_WAIT_LS : Nat
  HPMCNT_EVENT_JUMP : Nat
  HPMCNT_EVENT_BRANCH : Nat
  HPMCNT_EVENT_TBRANCH : Nat
  HPMCNT_EVENT_TRAP : Nat
  HPMCNT_EVENT_ILLEGAL : Nat
  UART_CT_EN : Nat
  UART_CT_SIM_MODE : Nat
  CLK_PRSC_2 : Nat
  CLK_PRSC_4096 : Nat
  PARITY_NONE : Nat
  FLOW_CONTROL_NONE : Nat
  IO_BASE_ADDRESS : Nat
  RTE_TRAP_I_ILLEGAL : Nat
  NEORV32_RTE_NUM_TRAPS : Fin 256
  /-- Link-time address of the global `atomic_access_addr`. -/
  addr_atomic_access_addr : Nat
  /-- Link-time address of the static array `dummy_sub_program_ci`. -/
  addr_dummy_sub_program_ci : Nat
  /-- Link-time address of the static array `dummy_ext_program`. -/
  addr_dummy_ext_program : Nat
  deriving DecidableEq, Repr

/-- Answers of the capability queries.  The source repeats a query wherever
it needs the answer; the answers are those of one fixed machine, so every
repetition of a query returns the same value.  C truth values: non-zero is
true. -/
structure Caps where
  /-- Answer of `neorv32_cpu_csr_read(CSR_MISA)` in machine mode. -/
  misa : Nat
  /-- Answer of `neorv32_cpu_hpm_get_counters()`. -/
  hpm_get_counters : Nat
  /-- The register `SYSINFO_FEATURES`. -/
  SYSINFO_FEATURES : Nat
  /-- The register `SYSINFO_DSPACE_BASE`. -/
  SYSINFO_DSPACE_BASE : Nat
  wdt_available : Nat
  uart0_available : Nat
  uart1_available : Nat
  spi_available : Nat
  twi_available : Nat
  xirq_available : Nat
  slink_available : Nat
  /-- Answer of `neorv32_cpu_pmp_get_num_regions()`. -/
  pmp_get_num_regions : Nat
  /-- Answer of `neorv32_cpu_pmp_get_granularity()`. -/
  pmp_get_granularity : Nat
  deriving DecidableEq, Repr

/-! ## Trace vocabulary -/

/-- Control and status registers named in `main.c`. -/
inductive Csr where
  | MCYCLEH | MCYCLE | MINSTRETH | MINSTRET | MCOUNTINHIBIT | MCOUNTEREN
  | MCAUSE | MISA | MSTATUS | MSCRATCH | MTVAL | MIP
  | CYCLE | TIME | INSTRET | INSTRETH
  | PMPCFG0 | PMPADDR0
  | MHPMCOUNTER (n : Nat)
  | MHPMEVENT (n : Nat)
  /-- A CSR given by its number, as in `neorv32_cpu_csr_read(0xfff)`. -/
  | raw (n : Nat)
  deriving DecidableEq, Repr

/-- Memory-mapped registers accessed by name. -/
inductive IoReg where
  | UART0_CT | UART1_CT | WDT_CT | XIRQ_IER | XIRQ_IPR
  | SYSINFO_FEATURES | SYSINFO_DSPACE_BASE
  deriving DecidableEq, Repr

/-- Functions whose address `main.c` hands to the run-time environment. -/
inductive Handler where
  | global_trap_handler | xirq_trap_handler0 | xirq_trap_handler1
  deriving DecidableEq, Repr

/-- Inline assembly statements of `main.c`. -/
inductive Instr where
  | nop
  | fence_i
  | ecall
  | ebreak
  | wfi
  /-- Instruction `csrci addr, imm`. -/
  | csrci (csr : Csr) (imm : Nat)
  /-- Instruction `csrrs zero, time, zero`. -/
  | csrrs_zero_time_zero
  /-- Instruction `csrrw zero, 0xfff, zero`. -/
  | csrrw_zero_fff_zero
  /-- Instruction `jalr ra, reg` with the register holding `target`. -/
  | jalr_ra (target : Nat)
  /-- Instruction `sw zero, imm(zero)`. -/
  | sw_zero (imm : Nat)
  deriving DecidableEq, Repr

/-- Library functions of the NEORV32 software framework called by `main.c`
(the `neorv32_` prefix of the C name is dropped). -/
inductive LibFn where
  | uart0_setup | uart0_disable | uart0_available | uart1_available
  | uart0_tx_busy | uart1_tx_busy | uart0_putc | uart1_putc
  | rte_setup | rte_check_isa | rte_print_logo | rte_print_credits
  | rte_print_hw_config | rte_exception_uninstall
  | mtime_set_time | mtime_set_timecmp | mtime_get_time
  | cpu_irq_enable | cpu_irq_disable | cpu_eint | cpu_dint
  | cpu_set_mcycle | cpu_set_minstret | cpu_hpm_get_counters
  | cpu_goto_user_mode
  | cpu_load_unsigned_word | cpu_store_unsigned_word
  | cpu_load_reservate_word | cpu_store_conditional
  | cpu_pmp_get_num_regions | cpu_pmp_get_granularity
  | cpu_pmp_configure_region
  | wdt_available | wdt_setup | wdt_force | wdt_disable
  | spi_available | spi_setup | spi_trans | spi_busy | spi_disable
  | twi_available | twi_setup | twi_generate_start | twi_trans
  | twi_generate_stop | twi_disable
  | xirq_available | xirq_setup | xirq_global_enable | xirq_global_disable
  | gpio_port_set
  | slink_available | slink_enable | slink_disable
  | slink_tx0_nonblocking | slink_rx0_nonblocking
  deriving DecidableEq, Repr

/-- The test cases of `main`, one for every `cnt_test++` in the source, in
source order. -/
inductive CaseId where
  | cycle | instret | mcountinhibit_cy | mcounteren_cy | hpm_events
  | ext_mem | fence_i | csr_nonexistent | csr_ro_write | csr_ro_no_write
  | pending_irq | i_align | i_acc | i_illeg | ci_illeg | break_instr
  | l_align | l_acc | s_align | s_acc | ecall_m | ecall_u
  | mti | msi | mei | nmi
  | firq0 | firq2 | firq3 | firq4 | firq5 | firq6 | firq7 | firq8
  | firq10_11 | wfi | csr_user | rte_debug
  | pmp_create | pmp_execute | pmp_read | pmp_write | pmp_lock
  | lrsc_ok | lrsc_fail1 | lrsc_fail2
  deriving DecidableEq, Repr

/-- Texts written with `PRINT_CRITICAL`. -/
inductive CritMsg where
  /-- Text "ERROR! processor_check has not been compiled." -/
  | not_compiled
  /-- Text "RTE install error (%i)!" -/
  | rte_install_error (install_err : Int)
  /-- Text "<SECURITY FAILURE>" -/
  | security_failure
  /-- Text "[FAIL]" -/
  | fail
  /-- Text "Test results: PASS: %i/%i FAIL: %i/%i" with its four arguments. -/
  | test_results (ok total_ok failed total_failed : Nat)
  deriving DecidableEq, Repr

/-- One entry of the trace. -/
inductive Event where
  | call (f : LibFn) (args : List Nat)
  /-- A loop `while (f());` polling a busy flag until it clears. -/
  | wait_while (f : LibFn)
  | csr_write (csr : Csr) (v : Nat)
  | csr_read (csr : Csr)
  | io_write (reg : IoReg) (v : Nat)
  | io_read (reg : IoReg)
  /-- Statement `*(IO_REG32 (addr)) = v`. -/
  | io_store32 (addr v : Nat)
  | asm (i : Instr)
  /-- A call through a function pointer made from a constant address. -/
  | call_address (addr : Nat)
  /-- Statement `memcpy(dst, src, n)`. -/
  | memcpy (dst src n : Nat)
  | rte_exception_install (id : Nat) (h : Handler)
  | xirq_install (ch : Nat) (h : Handler)
  | print_critical (m : CritMsg)
  /-- Not a hardware access: marks the `cnt_test++` of a case. -/
  | count (c : CaseId)
  deriving DecidableEq, Repr

/-! ## Program state -/

/-- Global variables of `main.c` and the trace.  The counters are C `int`s
that start at 0 and are incremented at most once per case, so they are
modelled by natural numbers. -/
structure State where
  cnt_fail : Nat
  cnt_ok : Nat
  cnt_test : Nat
  num_hpm_cnts_global : Nat
  xirq_trap_handler_ack : Nat
  trace : List Event
  deriving DecidableEq, Repr

/-- State at program start: the initialisers of the globals. -/
def State.init : State :=
  { cnt_fail := 0, cnt_ok := 0, cnt_test := 0, num_hpm_cnts_global := 0,
    xirq_trap_handler_ack := 0, trace := [] }

/-- Append an entry to the trace. -/
def emit (e : Event) (s : State) : State :=
  { s with trace := s.trace ++ [e] }

/-- The statement `cnt_test++;` of case `c`. -/
def count (c : CaseId) (s : State) : State :=
  emit (Event.count c) { s with cnt_test := s.cnt_test + 1 }

/-- Conversion to `uint32_t`. -/
def u32 (x : Nat) : Nat := x % 2 ^ 32

/-- Conversion to `uint64_t`. -/
def u64 (x : Nat) : Nat := x % 2 ^ 64

/-- Bitwise complement as a `uint32_t`. -/
def not32 (x : Nat) : Nat := 2 ^ 32 - 1 - u32 x

/-- Result of an `int` addition kept in a 32-bit register (two's
complement). -/
def wrap_int32 (x : Int) : Int := (x + 2 ^ 31) % 2 ^ 32 - 2 ^ 31

/-- Source function `test_ok`: `cnt_ok++` (its print is `PRINT_STANDARD`). -/
def test_ok (s : State) : State :=
  { s with cnt_ok := s.cnt_ok + 1 }

/-- Source function `test_fail`: prints "[FAIL]" with `PRINT_CRITICAL`, then
`cnt_fail++`. -/
def test_fail (s : State) : State :=
  let s := emit (Event.print_critical CritMsg.fail) s
  { s with cnt_fail := s.cnt_fail + 1 }

/-- Source function `sim_irq_trigger`: one store to the trigger register of
the testbench. -/
def sim_irq_trigger (sel : Nat) (s : State) : State :=
  emit (Event.io_store32 0xFF000000 sel) s

/-- Source function `xirq_trap_handler0`: `xirq_trap_handler_ack += 2`. -/
def xirq_trap_handler0 (s : State) : State :=
  { s with xirq_trap_handler_ack := u32 (s.xirq_trap_handler_ack + 2) }

/-- Source function `xirq_trap_handler1`: `xirq_trap_handler_ack *= 2`. -/
def xirq_trap_handler1 (s : State) : State :=
  { s with xirq_trap_handler_ack := u32 (s.xirq_trap_handler_ack * 2) }

/-- Call `neorv32_cpu_csr_write(csr, v)`. -/
def csr_write (csr : Csr) (v : Nat) (s : State) : State :=
  emit (Event.csr_write csr v) s

/-- Call `neorv32_cpu_csr_read(csr)`; the value read is a field of `Resp` or of
`Caps`. -/
def csr_read (csr : Csr) (s : State) : State :=
  emit (Event.csr_read csr) s

/-- A call of a library function. -/
def call (f : LibFn) (args : List Nat) (s : State) : State :=
  emit (Event.call f args) s

/-- An inline assembly statement. -/
def asm (i : Instr) (s : State) : State :=
  emit (Event.asm i) s

/-- Call `neorv32_cpu_goto_user_mode()`. -/
def goto_user_mode (s : State) : State :=
  call LibFn.cpu_goto_user_mode [] s

/-- Values the program obtains from the hardware, one field per place of
`main.c` where a value is obtained.  A field named `..._mcause` is the value
returned by the read of `CSR_MCAUSE` on which the verdict of that case
depends. -/
structure Resp where
  /-- Value of `UART0_CT` when it is copied to `UART1_CT` at start-up. -/
  init_uart0_ct : Nat
  /-- Return code of `neorv32_rte_exception_install(id, ...)` in the
  configuration loop, for each `id`. -/
  install_rc : Nat → Int
  cycle_mcycleh : Nat
  cycle_mcause : Nat
  instret_instreth : Nat
  instret_mcause : Nat
  mcountinhibit_rd : Nat
  mcountinhibit_cycle_a : Nat
  mcountinhibit_cycle_b : Nat
  mcountinhibit_mcause : Nat
  mcountinhibit_rd2 : Nat
  mcounteren_rd : Nat
  /-- Value of `tmp_a` after the user-mode read of `CSR_CYCLE`. -/
  mcounteren_cycle : Nat
  mcounteren_mcause : Nat
  mcounteren_rd2 : Nat
  hpm_mcause : Nat
  ext_mem_mcause : Nat
  ext_mem_mscratch : Nat
  fence_i_mcause : Nat
  /-- Value of `tmp_a` after the read of CSR `0xfff`. -/
  csr_nonexistent_tmp_a : Nat
  csr_nonexistent_mcause : Nat
  csr_ro_write_mcause : Nat
  csr_ro_no_write_mcause : Nat
  pending_irq_mcause : Nat
  i_align_mcause : Nat
  i_acc_mcause : Nat
  i_illeg_mcause : Nat
  i_illeg_mtval : Nat
  ci_illeg_mcause : Nat
  break_mcause : Nat
  l_align_mcause : Nat
  l_acc_mcause : Nat
  s_align_mcause : Nat
  s_acc_mcause : Nat
  ecall_m_mcause : Nat
  ecall_u_mcause : Nat
  mti_mcause : Nat
  msi_mcause : Nat
  mei_mcause : Nat
  nmi_mcause : Nat
  firq0_mcause : Nat
  firq2_uart0_ct : Nat
  firq2_uart0_ct_b : Nat
  firq2_uart0_ct_c : Nat
  firq2_mcause : Nat
  firq3_uart0_ct : Nat
  firq3_uart0_ct_b : Nat
  firq3_uart0_ct_c : Nat
  firq3_mcause : Nat
  firq4_uart1_ct : Nat
  firq4_uart1_ct_b : Nat
  firq4_uart1_ct_c : Nat
  firq4_mcause : Nat
  firq5_uart1_ct : Nat
  firq5_uart1_ct_b : Nat
  firq5_uart1_ct_c : Nat
  firq5_mcause : Nat
  firq6_mcause : Nat
  firq7_mcause : Nat
  /-- Return code of `neorv32_xirq_setup()`. -/
  firq8_setup_rc : Int
  /-- Return code of `neorv32_xirq_install(0, xirq_trap_handler0)`. -/
  firq8_install0_rc : Int
  /-- Return code of `neorv32_xirq_install(1, xirq_trap_handler1)`. -/
  firq8_install1_rc : Int
  /-- The XIRQ handlers the hardware dispatches between the reset of
  `xirq_trap_handler_ack` and its read, in the order of dispatch. -/
  firq8_dispatch : List Handler
  firq8_mcause : Nat
  /-- Return value of `neorv32_slink_tx0_nonblocking(0xA1B2C3D4)`. -/
  slink_tx_rc : Nat
  /-- Return value of `neorv32_slink_rx0_nonblocking(&slink_rx_data)`. -/
  slink_rx_rc : Nat
  /-- Value of `slink_rx_data` after the receive call. -/
  slink_rx_data : Nat
  slink_mcause : Nat
  /-- Return value of `neorv32_mtime_get_time()`. -/
  wfi_mtime : Nat
  wfi_mstatus : Nat
  wfi_mcause : Nat
  /-- Value of `tmp_a` after the user-mode read of `CSR_MISA`. -/
  csr_user_tmp_a : Nat
  csr_user_mcause : Nat
  rte_debug_mcause : Nat
  /-- Return code of `neorv32_cpu_pmp_configure_region`. -/
  pmp_create_rc : Int
  pmp_create_mcause : Nat
  pmp_execute_mcause : Nat
  /-- Value of `tmp_b` after the user-mode load from the protected region. -/
  pmp_read_tmp_b : Nat
  pmp_read_mcause : Nat
  pmp_write_mcause : Nat
  /-- Value of `CSR_PMPCFG0` read before the rewrite attempt. -/
  pmp_lock_cfg_before : Nat
  /-- Value of `CSR_PMPADDR0` read before the rewrite attempt. -/
  pmp_lock_addr_before : Nat
  pmp_lock_cfg_after : Nat
  pmp_lock_addr_after : Nat
  pmp_lock_mcause : Nat
  /-- Value of `tmp_a`, the value returned by the reserving load. -/
  lrsc_ok_lr : Nat
  /-- Value of `tmp_b`, the status returned by the conditional store. -/
  lrsc_ok_sc : Nat
  /-- The word loaded from `atomic_access_addr` afterwards. -/
  lrsc_ok_readback : Nat
  lrsc_ok_mcause : Nat
  lrsc_fail1_lr : Nat
  lrsc_fail1_sc : Nat
  lrsc_fail1_readback : Nat
  lrsc_fail2_lr : Nat
  lrsc_fail2_sc : Nat
  lrsc_fail2_readback : Nat

/-! ## Constants defined in `main.c` -/

/-- Source: `#define BAUD_RATE (19200)`. -/
def BAUD_RATE : Nat := 19200

/-- Source: `#define ADDR_UNALIGNED (0x00000002)`. -/
def ADDR_UNALIGNED : Nat := 0x00000002

/-- Source: `#define ADDR_UNREACHABLE (IO_BASE_ADDRESS-4)`. -/
def ADDR_UNREACHABLE (h : Neorv32H) : Nat := u32 (h.IO_BASE_ADDRESS + 2 ^ 32 - 4)

/-- Source: `#define EXT_MEM_BASE (0xF0000000)`. -/
def EXT_MEM_BASE : Nat := 0xF0000000

/-- The value `-1` passed as a `uint64_t`. -/
def minus_one_u64 : Nat := 2 ^ 64 - 1

/-- The value `-1` stored to a 32-bit register. -/
def minus_one_u32 : Nat := 2 ^ 32 - 1


/-! ## The test cases of `main`, in source order

Every definition below is one block of `main` between two comment banners.
`h`, `caps` and `r` are the external parameters, `s` the state on entry. -/

/-- Test standard RISC-V performance counter [m]cycle[h]. -/
def case_cycle (h : Neorv32H) (r : Resp) (s : State) : State :=
  let s := csr_write Csr.MCAUSE 0 s
  let s := count CaseId.cycle s
  let s := asm (Instr.csrci Csr.MCOUNTINHIBIT (1 <<< h.CSR_MCOUNTINHIBIT_CY)) s
  let s := call LibFn.cpu_set_mcycle [0x00000000FFFFFFFF] s
  let s := csr_read Csr.MCYCLEH s
  let tmp_a := r.cycle_mcycleh
  if tmp_a = 1 then
    let s := csr_read Csr.MCAUSE s
    if r.cycle_mcause = 0 then test_ok s else test_fail s
  else test_fail s

/-- Test standard RISC-V performance counter [m]instret[h]. -/
def case_instret (h : Neorv32H) (r : Resp) (s : State) : State :=
  let s := csr_write Csr.MCAUSE 0 s
  let s := count CaseId.instret s
  let s := asm (Instr.csrci Csr.MCOUNTINHIBIT (1 <<< h.CSR_MCOUNTINHIBIT_IR)) s
  let s := call LibFn.cpu_set_minstret [0x00000000FFFFFFFF] s
  let s := csr_read Csr.INSTRETH s
  let tmp_a := r.instret_instreth
  if tmp_a = 1 then
    let s := csr_read Csr.MCAUSE s
    if r.instret_mcause = 0 then test_ok s else test_fail s
  else test_fail s

/-- Test mcountinhibt: inhibit auto-inc of [m]cycle. -/
def case_mcountinhibit_cy (h : Neorv32H) (r : Resp) (s : State) : State :=
  let s := csr_write Csr.MCAUSE 0 s
  let s := count CaseId.mcountinhibit_cy s
  let s := csr_read Csr.MCOUNTINHIBIT s
  let tmp_a := r.mcountinhibit_rd
  let tmp_a := u32 (tmp_a ||| (1 <<< h.CSR_MCOUNTINHIBIT_CY))
  let s := csr_write Csr.MCOUNTINHIBIT tmp_a s
  let s := csr_read Csr.CYCLE s
  let tmp_a := r.mcountinhibit_cycle_a
  let s := asm Instr.nop s
  let s := asm Instr.nop s
  let s := csr_read Csr.CYCLE s
  let tmp_b := r.mcountinhibit_cycle_b
  let s :=
    if tmp_a = tmp_b ∧ tmp_a ≠ 0 then
      let s := csr_read Csr.MCAUSE s
      if r.mcountinhibit_mcause = 0 then test_ok s else test_fail s
    else test_fail s
  let s := csr_read Csr.MCOUNTINHIBIT s
  let tmp_a := r.mcountinhibit_rd2
  let tmp_a := tmp_a &&& not32 (1 <<< h.CSR_MCOUNTINHIBIT_CY)
  csr_write Csr.MCOUNTINHIBIT tmp_a s

/-- Test mcounteren: do not allow cycle[h] access from user-mode.  The
re-allow statements after the `if` belong to the block and run in both
branches. -/
def case_mcounteren_cy (h : Neorv32H) (caps : Caps) (r : Resp) (s : State) : State :=
  let s := csr_write Csr.MCAUSE 0 s
  let s := csr_read Csr.MISA s
  let s :=
    if caps.misa &&& (1 <<< h.CSR_MISA_U) ≠ 0 then
      let s := count CaseId.mcounteren_cy s
      let s := csr_read Csr.MCOUNTEREN s
      let tmp_a := r.mcounteren_rd
      let tmp_a := tmp_a &&& not32 (1 <<< h.CSR_MCOUNTEREN_CY)
      let s := csr_write Csr.MCOUNTEREN tmp_a s
      let s := goto_user_mode s
      let s := csr_read Csr.CYCLE s
      let tmp_a := r.mcounteren_cycle
      let s := csr_read Csr.MCAUSE s
      if r.mcounteren_mcause = h.TRAP_CODE_I_ILLEGAL then
        if tmp_a = 0 then test_ok s else test_fail s
      else test_fail s
    else s
  let s := csr_read Csr.MCOUNTEREN s
  let tmp_a := r.mcounteren_rd2
  let tmp_a := u32 (tmp_a ||| (1 <<< h.CSR_MCOUNTEREN_CY))
  csr_write Csr.MCOUNTEREN tmp_a s

/-- The twelve event/counter pairs configured by the HPM case, as (counter
number, event bit) in source order. -/
def hpm_events (h : Neorv32H) : List (Nat × Nat) :=
  [(3, h.HPMCNT_EVENT_CIR), (4, h.HPMCNT_EVENT_WAIT_IF),
   (5, h.HPMCNT_EVENT_WAIT_II), (6, h.HPMCNT_EVENT_WAIT_MC),
   (7, h.HPMCNT_EVENT_LOAD), (8, h.HPMCNT_EVENT_STORE),
   (9, h.HPMCNT_EVENT_WAIT_LS), (10, h.HPMCNT_EVENT_JUMP),
   (11, h.HPMCNT_EVENT_BRANCH), (12, h.HPMCNT_EVENT_TBRANCH),
   (13, h.HPMCNT_EVENT_TRAP), (14, h.HPMCNT_EVENT_ILLEGAL)]

/-- One line of the HPM configuration:
`csr_write(CSR_MHPMCOUNTERn, 0); csr_write(CSR_MHPMEVENTn, 1 << ev);`. -/
def hpm_configure (s : State) (p : Nat × Nat) : State :=
  let s := csr_write (Csr.MHPMCOUNTER p.1) 0 s
  csr_write (Csr.MHPMEVENT p.1) (1 <<< p.2) s

/-- Test performance counter: setup as many events and counter as feasible. -/
def case_hpm_events (h : Neorv32H) (caps : Caps) (r : Resp) (s : State) : State :=
  let s := csr_write Csr.MCAUSE 0 s
  let s := call LibFn.cpu_hpm_get_counters [] s
  let s := { s with num_hpm_cnts_global := caps.hpm_get_counters }
  if s.num_hpm_cnts_global ≠ 0 then
    let s := count CaseId.hpm_events s
    let s := (hpm_events h).foldl hpm_configure s
    let s := csr_write Csr.MCOUNTINHIBIT 0 s
    let s := csr_read Csr.MCAUSE s
    if r.hpm_mcause = 0 then test_ok s else test_fail s
  else s

/-- External memory interface test.  `memcpy` returns its first argument,
which the source compares with `NULL`. -/
def case_ext_mem (h : Neorv32H) (caps : Caps) (r : Resp) (s : State) : State :=
  let s := csr_write Csr.MCAUSE 0 s
  let s := emit (Event.io_read IoReg.SYSINFO_FEATURES) s
  if caps.SYSINFO_FEATURES &&& (1 <<< h.SYSINFO_FEATURES_MEM_EXT) ≠ 0 then
    let s := count CaseId.ext_mem s
    let s := emit (Event.memcpy EXT_MEM_BASE h.addr_dummy_ext_program 8) s
    let memcpy_ret := EXT_MEM_BASE
    if memcpy_ret = 0 then test_fail s
    else
      let tmp_a := EXT_MEM_BASE
      let s := asm (Instr.jalr_ra tmp_a) s
      let s := csr_read Csr.MCAUSE s
      if r.ext_mem_mcause = 0 then
        let s := csr_read Csr.MSCRATCH s
        if r.ext_mem_mscratch = 15 then test_ok s else test_fail s
      else test_fail s
  else s

/-- Test FENCE.I instruction. -/
def case_fence_i (r : Resp) (s : State) : State :=
  let s := csr_write Csr.MCAUSE 0 s
  let s := count CaseId.fence_i s
  let s := asm Instr.fence_i s
  let s := csr_read Csr.MCAUSE s
  if r.fence_i_mcause = 0 then test_ok s else test_fail s

/-- Illegal CSR access (CSR not implemented). -/
def case_csr_nonexistent (h : Neorv32H) (r : Resp) (s : State) : State :=
  let s := csr_write Csr.MCAUSE 0 s
  let s := count CaseId.csr_nonexistent s
  let s := csr_read (Csr.raw 0xfff) s
  let tmp_a := r.csr_nonexistent_tmp_a
  let s :=
    if tmp_a ≠ 0 then emit (Event.print_critical CritMsg.security_failure) s
    else s
  let s := csr_read Csr.MCAUSE s
  if r.csr_nonexistent_mcause = h.TRAP_CODE_I_ILLEGAL then test_ok s
  else test_fail s

/-- Write-access to read-only CSR. -/
def case_csr_ro_write (h : Neorv32H) (r : Resp) (s : State) : State :=
  let s := csr_write Csr.MCAUSE 0 s
  let s := count CaseId.csr_ro_write s
  let s := csr_write Csr.TIME 0 s
  let s := csr_read Csr.MCAUSE s
  if r.csr_ro_write_mcause = h.TRAP_CODE_I_ILLEGAL then test_ok s
  else test_fail s

/-- No "real" CSR write access (because rs1 = r0). -/
def case_csr_ro_no_write (r : Resp) (s : State) : State :=
  let s := csr_write Csr.MCAUSE 0 s
  let s := count CaseId.csr_ro_no_write s
  let s := asm Instr.csrrs_zero_time_zero s
  let s := csr_read Csr.MCAUSE s
  if r.csr_ro_no_write_mcause = 0 then test_ok s else test_fail s

/-- Test pending interrupt. -/
def case_pending_irq (h : Neorv32H) (r : Resp) (s : State) : State :=
  let s := csr_write Csr.MCAUSE 0 s
  let s := count CaseId.pending_irq s
  let s := call LibFn.cpu_dint [] s
  let s := call LibFn.mtime_set_time [0x00000000FFFFFFF8] s
  let s := call LibFn.mtime_set_timecmp [0x0000000100000000] s
  let s := asm Instr.nop s
  let s := asm Instr.nop s
  let s := call LibFn.mtime_set_timecmp [minus_one_u64] s
  let s := call LibFn.cpu_eint [] s
  let s := csr_read Csr.MCAUSE s
  if r.pending_irq_mcause = h.TRAP_CODE_MTI then test_ok s else test_fail s

/-- Unaligned instruction address.  This case updates `cnt_ok` and
`cnt_fail` itself and prints with `PRINT_STANDARD` only. -/
def case_i_align (h : Neorv32H) (caps : Caps) (r : Resp) (s : State) : State :=
  let s := csr_write Csr.MCAUSE 0 s
  let s := csr_read Csr.MISA s
  if caps.misa &&& (1 <<< h.CSR_MISA_C) = 0 then
    let s := count CaseId.i_align s
    let s := emit (Event.call_address ADDR_UNALIGNED) s
    let s := csr_read Csr.MCAUSE s
    if r.i_align_mcause = h.TRAP_CODE_I_MISALIGNED then
      { s with cnt_ok := s.cnt_ok + 1 }
    else
      { s with cnt_fail := s.cnt_fail + 1 }
  else s

/-- Instruction access fault. -/
def case_i_acc (h : Neorv32H) (r : Resp) (s : State) : State :=
  let s := csr_write Csr.MCAUSE 0 s
  let s := count CaseId.i_acc s
  let s := emit (Event.call_address (ADDR_UNREACHABLE h)) s
  let s := csr_read Csr.MCAUSE s
  if r.i_acc_mcause = h.TRAP_CODE_I_ACCESS then test_ok s else test_fail s

/-- Illegal instruction. -/
def case_i_illeg (h : Neorv32H) (r : Resp) (s : State) : State :=
  let s := csr_write Csr.MCAUSE 0 s
  let s := count CaseId.i_illeg s
  let s := asm Instr.csrrw_zero_fff_zero s
  let s := csr_read Csr.MCAUSE s
  if r.i_illeg_mcause = h.TRAP_CODE_I_ILLEGAL then
    let s := csr_read Csr.MTVAL s
    if r.i_illeg_mtval = 0xfff01073 then test_ok s else test_fail s
  else test_fail s

/-- Illegal compressed instruction. -/
def case_ci_illeg (h : Neorv32H) (caps : Caps) (r : Resp) (s : State) : State :=
  let s := csr_write Csr.MCAUSE 0 s
  let s := csr_read Csr.MISA s
  if caps.misa &&& (1 <<< h.CSR_MISA_C) ≠ 0 then
    let s := count CaseId.ci_illeg s
    let tmp_a := h.addr_dummy_sub_program_ci
    let s := asm (Instr.jalr_ra tmp_a) s
    let s := csr_read Csr.MCAUSE s
    if r.ci_illeg_mcause = h.TRAP_CODE_I_ILLEGAL then test_ok s
    else test_fail s
  else s

/-- Breakpoint instruction. -/
def case_break (h : Neorv32H) (r : Resp) (s : State) : State :=
  let s := csr_write Csr.MCAUSE 0 s
  let s := count CaseId.break_instr s
  let s := asm Instr.ebreak s
  let s := csr_read Csr.MCAUSE s
  if r.break_mcause = h.TRAP_CODE_BREAKPOINT then test_ok s else test_fail s

/-- Unaligned load address. -/
def case_l_align (h : Neorv32H) (r : Resp) (s : State) : State :=
  let s := csr_write Csr.MCAUSE 0 s
  let s := count CaseId.l_align s
  let s := call LibFn.cpu_load_unsigned_word [ADDR_UNALIGNED] s
  let s := csr_read Csr.MCAUSE s
  if r.l_align_mcause = h.TRAP_CODE_L_MISALIGNED then test_ok s
  else test_fail s

/-- Load access fault. -/
def case_l_acc (h : Neorv32H) (r : Resp) (s : State) : State :=
  let s := csr_write Csr.MCAUSE 0 s
  let s := count CaseId.l_acc s
  let s := call LibFn.cpu_load_unsigned_word [ADDR_UNREACHABLE h] s
  let s := csr_read Csr.MCAUSE s
  if r.l_acc_mcause = h.TRAP_CODE_L_ACCESS then test_ok s else test_fail s

/-- Unaligned store address. -/
def case_s_align (h : Neorv32H) (r : Resp) (s : State) : State :=
  let s := csr_write Csr.MCAUSE 0 s
  let s := count CaseId.s_align s
  let s := asm (Instr.sw_zero ADDR_UNALIGNED) s
  let s := csr_read Csr.MCAUSE s
  if r.s_align_mcause = h.TRAP_CODE_S_MISALIGNED then test_ok s
  else test_fail s

/-- Store access fault. -/
def case_s_acc (h : Neorv32H) (r : Resp) (s : State) : State :=
  let s := csr_write Csr.MCAUSE 0 s
  let s := count CaseId.s_acc s
  let s := call LibFn.cpu_store_unsigned_word [ADDR_UNREACHABLE h, 0] s
  let s := csr_read Csr.MCAUSE s
  if r.s_acc_mcause = h.TRAP_CODE_S_ACCESS then test_ok s else test_fail s

/-- Environment call from M-mode. -/
def case_ecall_m (h : Neorv32H) (r : Resp) (s : State) : State :=
  let s := csr_write Csr.MCAUSE 0 s
  let s := count CaseId.ecall_m s
  let s := asm Instr.ecall s
  let s := csr_read Csr.MCAUSE s
  if r.ecall_m_mcause = h.TRAP_CODE_MENV_CALL then test_ok s else test_fail s

/-- Environment call from U-mode. -/
def case_ecall_u (h : Neorv32H) (caps : Caps) (r : Resp) (s : State) : State :=
  let s := csr_write Csr.MCAUSE 0 s
  let s := csr_read Csr.MISA s
  if caps.misa &&& (1 <<< h.CSR_MISA_U) ≠ 0 then
    let s := count CaseId.ecall_u s
    let s := goto_user_mode s
    let s := asm Instr.ecall s
    let s := csr_read Csr.MCAUSE s
    if r.ecall_u_mcause = h.TRAP_CODE_UENV_CALL then test_ok s
    else test_fail s
  else s

/-- Machine timer interrupt (MTIME). -/
def case_mti (h : Neorv32H) (r : Resp) (s : State) : State :=
  let s := csr_write Csr.MCAUSE 0 s
  let s := count CaseId.mti s
  let s := call LibFn.mtime_set_timecmp [minus_one_u64] s
  let s := call LibFn.mtime_set_time [0] s
  let s := csr_write Csr.MIP 0 s
  let s := call LibFn.mtime_set_timecmp [0x0000000100000000] s
  let s := call LibFn.mtime_set_time [0x00000000FFFFFFFE] s
  let s := asm Instr.nop s
  let s := asm Instr.nop s
  let s := asm Instr.nop s
  let s := asm Instr.nop s
  let s := csr_read Csr.MCAUSE s
  let s := if r.mti_mcause = h.TRAP_CODE_MTI then test_ok s else test_fail s
  call LibFn.mtime_set_timecmp [minus_one_u64] s

/-- Machine software interrupt (MSI) via testbench. -/
def case_msi (h : Neorv32H) (r : Resp) (s : State) : State :=
  let s := csr_write Csr.MCAUSE 0 s
  let s := count CaseId.msi s
  let s := sim_irq_trigger (u32 (1 <<< h.CSR_MIE_MSIE)) s
  let s := asm Instr.nop s
  let s := asm Instr.nop s
  let s := csr_read Csr.MCAUSE s
  if r.msi_mcause = h.TRAP_CODE_MSI then test_ok s else test_fail s

/-- Machine external interrupt (MEI) via testbench. -/
def case_mei (h : Neorv32H) (r : Resp) (s : State) : State :=
  let s := csr_write Csr.MCAUSE 0 s
  let s := count CaseId.mei s
  let s := sim_irq_trigger (u32 (1 <<< h.CSR_MIE_MEIE)) s
  let s := asm Instr.nop s
  let s := asm Instr.nop s
  let s := csr_read Csr.MCAUSE s
  if r.mei_mcause = h.TRAP_CODE_MEI then test_ok s else test_fail s

/-- Non-maskable interrupt (NMI) via testbench. -/
def case_nmi (h : Neorv32H) (r : Resp) (s : State) : State :=
  let s := csr_write Csr.MCAUSE 0 s
  let s := count CaseId.nmi s
  let s := sim_irq_trigger (u32 (1 <<< 0)) s
  let s := asm Instr.nop s
  let s := asm Instr.nop s
  let s := csr_read Csr.MCAUSE s
  if r.nmi_mcause = h.TRAP_CODE_NMI then test_ok s else test_fail s

/-- Fast interrupt channel 0 (WDT). -/
def case_firq0 (h : Neorv32H) (caps : Caps) (r : Resp) (s : State) : State :=
  let s := call LibFn.wdt_available [] s
  if caps.wdt_available ≠ 0 then
    let s := csr_write Csr.MCAUSE 0 s
    let s := count CaseId.firq0 s
    let s := call LibFn.cpu_irq_enable [h.CSR_MIE_FIRQ0E] s
    let s := call LibFn.wdt_setup [h.CLK_PRSC_4096, 0, 1] s
    let s := emit (Event.io_write IoReg.WDT_CT 0) s
    let s := call LibFn.wdt_force [] s
    let s := asm Instr.nop s
    let s := asm Instr.nop s
    let s := csr_read Csr.MCAUSE s
    let s := if r.firq0_mcause = h.TRAP_CODE_FIRQ_0 then test_ok s else test_fail s
    let s := call LibFn.wdt_disable [] s
    call LibFn.cpu_irq_disable [h.CSR_MIE_FIRQ0E] s
  else s

/-- The statement `REG |= (1 << bit);` on a memory-mapped register whose
current value is `cur`. -/
def io_set_bit (reg : IoReg) (cur bit : Nat) (s : State) : State :=
  let s := emit (Event.io_read reg) s
  emit (Event.io_write reg (u32 (cur ||| (1 <<< bit)))) s

/-- The statement `REG &= ~(1 << bit);` on a memory-mapped register whose
current value is `cur`. -/
def io_clear_bit (reg : IoReg) (cur bit : Nat) (s : State) : State :=
  let s := emit (Event.io_read reg) s
  emit (Event.io_write reg (cur &&& not32 (1 <<< bit))) s

/-- Fast interrupt channel 2 (UART0.RX).  The guard in the source is
`neorv32_uart1_available()`. -/
def case_firq2 (h : Neorv32H) (caps : Caps) (r : Resp) (s : State) : State :=
  let s := call LibFn.uart1_available [] s
  if caps.uart1_available ≠ 0 then
    let s := csr_write Csr.MCAUSE 0 s
    let s := count CaseId.firq2 s
    let s := call LibFn.cpu_irq_enable [h.CSR_MIE_FIRQ2E] s
    let s := emit (Event.wait_while LibFn.uart0_tx_busy) s
    let s := emit (Event.io_read IoReg.UART0_CT) s
    let tmp_a := r.firq2_uart0_ct
    let s := io_set_bit IoReg.UART0_CT r.firq2_uart0_ct_b h.UART_CT_EN s
    let s := io_clear_bit IoReg.UART0_CT r.firq2_uart0_ct_c h.UART_CT_SIM_MODE s
    let s := call LibFn.uart0_putc [0] s
    let s := emit (Event.wait_while LibFn.uart0_tx_busy) s
    let s := asm Instr.nop s
    let s := asm Instr.nop s
    let s := emit (Event.io_write IoReg.UART0_CT tmp_a) s
    let s := call LibFn.cpu_irq_disable [h.CSR_MIE_FIRQ2E] s
    let s := csr_read Csr.MCAUSE s
    if r.firq2_mcause = h.TRAP_CODE_FIRQ_2 then test_ok s else test_fail s
  else s

/-- Fast interrupt channel 3 (UART0.TX). -/
def case_firq3 (h : Neorv32H) (caps : Caps) (r : Resp) (s : State) : State :=
  let s := call LibFn.uart0_available [] s
  if caps.uart0_available ≠ 0 then
    let s := csr_write Csr.MCAUSE 0 s
    let s := count CaseId.firq3 s
    let s := call LibFn.cpu_irq_enable [h.CSR_MIE_FIRQ3E] s
    let s := emit (Event.wait_while LibFn.uart0_tx_busy) s
    let s := emit (Event.io_read IoReg.UART0_CT) s
    let tmp_a := r.firq3_uart0_ct
    let s := io_set_bit IoReg.UART0_CT r.firq3_uart0_ct_b h.UART_CT_EN s
    let s := io_clear_bit IoReg.UART0_CT r.firq3_uart0_ct_c h.UART_CT_SIM_MODE s
    let s := call LibFn.uart0_putc [0] s
    let s := emit (Event.wait_while LibFn.uart0_tx_busy) s
    let s := asm Instr.nop s
    let s := asm Instr.nop s
    let s := emit (Event.io_write IoReg.UART0_CT tmp_a) s
    let s := call LibFn.cpu_irq_disable [h.CSR_MIE_FIRQ3E] s
    let s := csr_read Csr.MCAUSE s
    if r.firq3_mcause = h.TRAP_CODE_FIRQ_3 then test_ok s else test_fail s
  else s

/-- Fast interrupt channel 4 (UART1.RX). -/
def case_firq4 (h : Neorv32H) (caps : Caps) (r : Resp) (s : State) : State :=
  let s := call LibFn.uart1_available [] s
  if caps.uart1_available ≠ 0 then
    let s := csr_write Csr.MCAUSE 0 s
    let s := count CaseId.firq4 s
    let s := call LibFn.cpu_irq_enable [h.CSR_MIE_FIRQ4E] s
    let s := emit (Event.io_read IoReg.UART1_CT) s
    let tmp_a := r.firq4_uart1_ct
    let s := io_set_bit IoReg.UART1_CT r.firq4_uart1_ct_b h.UART_CT_EN s
    let s := io_clear_bit IoReg.UART1_CT r.firq4_uart1_ct_c h.UART_CT_SIM_MODE s
    let s := call LibFn.uart1_putc [0] s
    let s := emit (Event.wait_while LibFn.uart1_tx_busy) s
    let s := asm Instr.nop s
    let s := asm Instr.nop s
    let s := emit (Event.io_write IoReg.UART1_CT tmp_a) s
    let s := call LibFn.cpu_irq_disable [h.CSR_MIE_FIRQ4E] s
    let s := csr_read Csr.MCAUSE s
    if r.firq4_mcause = h.TRAP_CODE_FIRQ_4 then test_ok s else test_fail s
  else s

/-- Fast interrupt channel 5 (UART1.TX). -/
def case_firq5 (h : Neorv32H) (caps : Caps) (r : Resp) (s : State) : State :=
  let s := call LibFn.uart1_available [] s
  if caps.uart1_available ≠ 0 then
    let s := csr_write Csr.MCAUSE 0 s
    let s := count CaseId.firq5 s
    let s := call LibFn.cpu_irq_enable [h.CSR_MIE_FIRQ5E] s
    let s := emit (Event.io_read IoReg.UART1_CT) s
    let tmp_a := r.firq5_uart1_ct
    let s := io_set_bit IoReg.UART1_CT r.firq5_uart1_ct_b h.UART_CT_EN s
    let s := io_clear_bit IoReg.UART1_CT r.firq5_uart1_ct_c h.UART_CT_SIM_MODE s
    let s := call LibFn.uart1_putc [0] s
    let s := emit (Event.wait_while LibFn.uart1_tx_busy) s
    let s := asm Instr.nop s
    let s := asm Instr.nop s
    let s := emit (Event.io_write IoReg.UART1_CT tmp_a) s
    let s := call LibFn.cpu_irq_disable [h.CSR_MIE_FIRQ5E] s
    let s := csr_read Csr.MCAUSE s
    if r.firq5_mcause = h.TRAP_CODE_FIRQ_5 then test_ok s else test_fail s
  else s

/-- Fast interrupt channel 6 (SPI). -/
def case_firq6 (h : Neorv32H) (caps : Caps) (r : Resp) (s : State) : State :=
  let s := call LibFn.spi_available [] s
  if caps.spi_available ≠ 0 then
    let s := csr_write Csr.MCAUSE 0 s
    let s := count CaseId.firq6 s
    let s := call LibFn.cpu_irq_enable [h.CSR_MIE_FIRQ6E] s
    let s := call LibFn.spi_setup [h.CLK_PRSC_2, 0, 0] s
    let s := call LibFn.spi_trans [0] s
    let s := emit (Event.wait_while LibFn.spi_busy) s
    let s := asm Instr.nop s
    let s := asm Instr.nop s
    let s := csr_read Csr.MCAUSE s
    let s := if r.firq6_mcause = h.TRAP_CODE_FIRQ_6 then test_ok s else test_fail s
    let s := call LibFn.spi_disable [] s
    call LibFn.cpu_irq_disable [h.CSR_MIE_FIRQ6E] s
  else s

/-- Fast interrupt channel 7 (TWI). -/
def case_firq7 (h : Neorv32H) (caps : Caps) (r : Resp) (s : State) : State :=
  let s := call LibFn.twi_available [] s
  if caps.twi_available ≠ 0 then
    let s := csr_write Csr.MCAUSE 0 s
    let s := count CaseId.firq7 s
    let s := call LibFn.twi_setup [h.CLK_PRSC_2, 0] s
    let s := call LibFn.cpu_irq_enable [h.CSR_MIE_FIRQ7E] s
    let s := call LibFn.twi_generate_start [] s
    let s := call LibFn.twi_trans [0] s
    let s := call LibFn.twi_generate_stop [] s
    let s := asm Instr.nop s
    let s := asm Instr.nop s
    let s := csr_read Csr.MCAUSE s
    let s := if r.firq7_mcause = h.TRAP_CODE_FIRQ_7 then test_ok s else test_fail s
    let s := call LibFn.twi_disable [] s
    call LibFn.cpu_irq_disable [h.CSR_MIE_FIRQ7E] s
  else s

/-- Run one handler the hardware dispatches.  `global_trap_handler` only
sets bits of the hardware register `mstatus`; it touches no variable of the
program. -/
def run_handler (s : State) (f : Handler) : State :=
  match f with
  | Handler.global_trap_handler => s
  | Handler.xirq_trap_handler0 => xirq_trap_handler0 s
  | Handler.xirq_trap_handler1 => xirq_trap_handler1 s

/-- Fast interrupt channel 8 (XIRQ).  The handlers the hardware dispatches
after `neorv32_gpio_port_set(3)` run before the verdict is taken. -/
def case_firq8 (h : Neorv32H) (caps : Caps) (r : Resp) (s : State) : State :=
  let s := csr_write Csr.MCAUSE 0 s
  let s := call LibFn.xirq_available [] s
  if caps.xirq_available ≠ 0 then
    let s := count CaseId.firq8 s
    let xirq_err_cnt : Int := 0
    let s := { s with xirq_trap_handler_ack := 0 }
    let s := call LibFn.xirq_setup [] s
    let xirq_err_cnt := wrap_int32 (xirq_err_cnt + r.firq8_setup_rc)
    let s := emit (Event.xirq_install 0 Handler.xirq_trap_handler0) s
    let xirq_err_cnt := wrap_int32 (xirq_err_cnt + r.firq8_install0_rc)
    let s := emit (Event.xirq_install 1 Handler.xirq_trap_handler1) s
    let xirq_err_cnt := wrap_int32 (xirq_err_cnt + r.firq8_install1_rc)
    let s := call LibFn.xirq_global_enable [] s
    let s := call LibFn.gpio_port_set [3] s
    let s := asm Instr.nop s
    let s := asm Instr.nop s
    let s := asm Instr.nop s
    let s := r.firq8_dispatch.foldl run_handler s
    let s := csr_read Csr.MCAUSE s
    let s :=
      if r.firq8_mcause = h.TRAP_CODE_FIRQ_8 ∧ xirq_err_cnt = 0 ∧
          s.xirq_trap_handler_ack = 4 then test_ok s
      else test_fail s
    let s := call LibFn.xirq_global_disable [] s
    let s := emit (Event.io_write IoReg.XIRQ_IER 0) s
    emit (Event.io_write IoReg.XIRQ_IPR minus_one_u32) s
  else s

/-- Fast interrupt channel 10 & 11 (SLINK). -/
def case_firq10_11 (h : Neorv32H) (caps : Caps) (r : Resp) (s : State) : State :=
  let s := call LibFn.slink_available [] s
  if caps.slink_available ≠ 0 then
    let s := csr_write Csr.MCAUSE 0 s
    let s := count CaseId.firq10_11 s
    let s := call LibFn.slink_enable [] s
    let s := call LibFn.cpu_irq_enable [h.CSR_MIE_FIRQ10E] s
    let s := call LibFn.cpu_irq_enable [h.CSR_MIE_FIRQ11E] s
    let tmp_a := 0
    let s := call LibFn.slink_tx0_nonblocking [0xA1B2C3D4] s
    let tmp_a := if r.slink_tx_rc ≠ 0 then u32 (tmp_a + 1) else tmp_a
    let s := call LibFn.slink_rx0_nonblocking [] s
    let tmp_a := if r.slink_rx_rc ≠ 0 then u32 (tmp_a + 1) else tmp_a
    let s := asm Instr.nop s
    let s := asm Instr.nop s
    let s := csr_read Csr.MCAUSE s
    let tmp_b := r.slink_mcause
    let s :=
      if (tmp_b = h.TRAP_CODE_FIRQ_10 ∨ tmp_b = h.TRAP_CODE_FIRQ_11) ∧
          tmp_a = 0 ∧ r.slink_rx_data = 0xA1B2C3D4 then test_ok s
      else test_fail s
    call LibFn.slink_disable [] s
  else s

/-- Test WFI ("sleep") instructions, wakeup via MTIME.  The block has no
applicability check. -/
def case_wfi (h : Neorv32H) (r : Resp) (s : State) : State :=
  let s := csr_write Csr.MCAUSE 0 s
  let s := count CaseId.wfi s
  let s := call LibFn.mtime_get_time [] s
  let s := call LibFn.mtime_set_timecmp [u64 (r.wfi_mtime + 1000)] s
  let s := csr_read Csr.MSTATUS s
  let tmp_a := r.wfi_mstatus
  let tmp_a := tmp_a &&& not32 (1 <<< h.CSR_MSTATUS_TW)
  let s := csr_write Csr.MSTATUS tmp_a s
  let s := goto_user_mode s
  let s := asm Instr.wfi s
  let s := csr_read Csr.MCAUSE s
  let s := if r.wfi_mcause ≠ h.TRAP_CODE_MTI then test_fail s else test_ok s
  call LibFn.mtime_set_timecmp [minus_one_u64] s

/-- Test invalid CSR access in user mode. -/
def case_csr_user (h : Neorv32H) (caps : Caps) (r : Resp) (s : State) : State :=
  let s := csr_write Csr.MCAUSE 0 s
  let s := csr_read Csr.MISA s
  if caps.misa &&& (1 <<< h.CSR_MISA_U) ≠ 0 then
    let s := count CaseId.csr_user s
    let s := goto_user_mode s
    let s := csr_read Csr.MISA s
    let tmp_a := r.csr_user_tmp_a
    let s :=
      if tmp_a ≠ 0 then emit (Event.print_critical CritMsg.security_failure) s
      else s
    let s := csr_read Csr.MCAUSE s
    if r.csr_user_mcause = h.TRAP_CODE_I_ILLEGAL then test_ok s
    else test_fail s
  else s

/-- Test RTE debug trap handler.  The second read of `CSR_MCAUSE` is an
argument of `PRINT_STANDARD` and is compiled only when that prints. -/
def case_rte_debug (b : Build) (h : Neorv32H) (r : Resp) (s : State) : State :=
  let s := csr_write Csr.MCAUSE 0 s
  let s := count CaseId.rte_debug s
  let s := call LibFn.rte_exception_uninstall [h.RTE_TRAP_I_ILLEGAL] s
  let s := csr_read (Csr.raw 0xfff) s
  let s := csr_read Csr.MCAUSE s
  let s :=
    if r.rte_debug_mcause ≠ 0 then test_ok s
    else
      let s := test_fail s
      if b.SUPPRESS_OPTIONAL_UART_PRINT then s else csr_read Csr.MCAUSE s
  emit (Event.rte_exception_install h.RTE_TRAP_I_ILLEGAL Handler.global_trap_handler) s

/-- PMP: create the protected region.  Returns the state and the locals
`tmp_a` (base address of the region) and `tmp_b` (granularity), which the
following PMP cases use. -/
def case_pmp_create (caps : Caps) (r : Resp) (s : State) : State × Nat × Nat :=
  let s := csr_write Csr.MCAUSE 0 s
  let s := count CaseId.pmp_create s
  let s := call LibFn.cpu_pmp_get_granularity [] s
  let tmp_b := caps.pmp_get_granularity
  let s := emit (Event.io_read IoReg.SYSINFO_DSPACE_BASE) s
  let tmp_a := caps.SYSINFO_DSPACE_BASE
  let s := call LibFn.cpu_pmp_configure_region [0, tmp_a, tmp_b, 0b00011000] s
  let pmp_return := r.pmp_create_rc
  let s :=
    if pmp_return = 0 then
      let s := csr_read Csr.MCAUSE s
      if r.pmp_create_mcause = 0 then test_ok s else test_fail s
    else test_fail s
  (s, tmp_a, tmp_b)

/-- PMP: U-mode execute, should fail. -/
def case_pmp_execute (r : Resp) (tmp_a : Nat) (s : State) : State :=
  let s := count CaseId.pmp_execute s
  let s := csr_write Csr.MCAUSE 0 s
  let s := goto_user_mode s
  let s := asm (Instr.jalr_ra tmp_a) s
  let s := csr_read Csr.MCAUSE s
  if r.pmp_execute_mcause = 0 then
    let s := asm Instr.ecall s
    test_fail s
  else
    let s := asm Instr.ecall s
    test_ok s

/-- PMP: U-mode read, should fail. -/
def case_pmp_read (h : Neorv32H) (r : Resp) (tmp_a : Nat) (s : State) : State :=
  let s := count CaseId.pmp_read s
  let s := csr_write Csr.MCAUSE 0 s
  let s := goto_user_mode s
  let s := call LibFn.cpu_load_unsigned_word [tmp_a] s
  let tmp_b := r.pmp_read_tmp_b
  let s :=
    if tmp_b ≠ 0 then emit (Event.print_critical CritMsg.security_failure) s
    else s
  let s := csr_read Csr.MCAUSE s
  if r.pmp_read_mcause = h.TRAP_CODE_L_ACCESS then
    let s := asm Instr.ecall s
    test_ok s
  else
    let s := asm Instr.ecall s
    test_fail s

/-- PMP: U-mode write, should fail. -/
def case_pmp_write (h : Neorv32H) (r : Resp) (tmp_a : Nat) (s : State) : State :=
  let s := count CaseId.pmp_write s
  let s := csr_write Csr.MCAUSE 0 s
  let s := goto_user_mode s
  let s := call LibFn.cpu_store_unsigned_word [tmp_a, 0] s
  let s := csr_read Csr.MCAUSE s
  if r.pmp_write_mcause = h.TRAP_CODE_S_ACCESS then
    let s := asm Instr.ecall s
    test_ok s
  else
    let s := asm Instr.ecall s
    test_fail s

/-- PMP: lock test of pmpcfg0.0 / pmpaddr0. -/
def case_pmp_lock (r : Resp) (s : State) : State :=
  let s := count CaseId.pmp_lock s
  let s := csr_write Csr.MCAUSE 0 s
  let s := csr_write Csr.PMPCFG0 0b10000001 s
  let s := csr_read Csr.PMPCFG0 s
  let tmp_a := r.pmp_lock_cfg_before
  let s := csr_write Csr.PMPCFG0 0b00011001 s
  let s := csr_read Csr.PMPADDR0 s
  let tmp_b := r.pmp_lock_addr_before
  let s := csr_write Csr.PMPADDR0 0xABABCDCD s
  let s := csr_read Csr.PMPCFG0 s
  if tmp_a ≠ r.pmp_lock_cfg_after then test_fail s
  else
    let s := csr_read Csr.PMPADDR0 s
    if tmp_b ≠ r.pmp_lock_addr_after then test_fail s
    else
      let s := csr_read Csr.MCAUSE s
      if r.pmp_lock_mcause ≠ 0 then test_fail s else test_ok s

/-- Test physical memory protection: one applicability check for the five
PMP cases. -/
def case_pmp (h : Neorv32H) (caps : Caps) (r : Resp) (s : State) : State :=
  let s := call LibFn.cpu_pmp_get_num_regions [] s
  if caps.pmp_get_num_regions ≠ 0 then
    let (s, tmp_a, _) := case_pmp_create caps r s
    let s := case_pmp_execute r tmp_a s
    let s := case_pmp_read h r tmp_a s
    let s := case_pmp_write h r tmp_a s
    case_pmp_lock r s
  else s

/-- Test atomic LR/SC operation - should succeed. -/
def case_lrsc_ok (b : Build) (h : Neorv32H) (caps : Caps) (r : Resp) (s : State) : State :=
  let s := csr_write Csr.MCAUSE 0 s
  if b.riscv_atomic then
    let s := csr_read Csr.MISA s
    if caps.misa &&& (1 <<< h.CSR_MISA_A) ≠ 0 then
      let s := count CaseId.lrsc_ok s
      let s := call LibFn.cpu_store_unsigned_word [h.addr_atomic_access_addr, 0x11223344] s
      let s := call LibFn.cpu_load_reservate_word [h.addr_atomic_access_addr] s
      let tmp_a := r.lrsc_ok_lr
      let s := asm Instr.nop s
      let s := call LibFn.cpu_store_conditional [h.addr_atomic_access_addr, 0x22446688] s
      let tmp_b := r.lrsc_ok_sc
      if tmp_b = 0 ∧ tmp_a = 0x11223344 then
        let s := call LibFn.cpu_load_unsigned_word [h.addr_atomic_access_addr] s
        if r.lrsc_ok_readback = 0x22446688 then
          let s := csr_read Csr.MCAUSE s
          if r.lrsc_ok_mcause = 0 then test_ok s else test_fail s
        else test_fail s
      else test_fail s
    else s
  else s

/-- Test atomic LR/SC operation - should fail (intervening store). -/
def case_lrsc_fail1 (b : Build) (h : Neorv32H) (caps : Caps) (r : Resp) (s : State) : State :=
  let s := csr_write Csr.MCAUSE 0 s
  if b.riscv_atomic then
    let s := csr_read Csr.MISA s
    if caps.misa &&& (1 <<< h.CSR_MISA_A) ≠ 0 then
      let s := count CaseId.lrsc_fail1 s
      let s := call LibFn.cpu_store_unsigned_word [h.addr_atomic_access_addr, 0xAABBCCDD] s
      let s := call LibFn.cpu_load_reservate_word [h.addr_atomic_access_addr] s
      let tmp_a := r.lrsc_fail1_lr
      let s := call LibFn.cpu_store_unsigned_word [h.addr_atomic_access_addr, 0xDEADDEAD] s
      let s := call LibFn.cpu_store_conditional [h.addr_atomic_access_addr, 0x22446688] s
      let tmp_b := r.lrsc_fail1_sc
      if tmp_b ≠ 0 ∧ tmp_a = 0xAABBCCDD then
        let s := call LibFn.cpu_load_unsigned_word [h.addr_atomic_access_addr] s
        if r.lrsc_fail1_readback = 0xDEADDEAD then test_ok s else test_fail s
      else test_fail s
    else s
  else s

/-- Test atomic LR/SC operation - should fail (intervening trap). -/
def case_lrsc_fail2 (b : Build) (h : Neorv32H) (caps : Caps) (r : Resp) (s : State) : State :=
  let s := csr_write Csr.MCAUSE 0 s
  if b.riscv_atomic then
    let s := csr_read Csr.MISA s
    if caps.misa &&& (1 <<< h.CSR_MISA_A) ≠ 0 then
      let s := count CaseId.lrsc_fail2 s
      let s := call LibFn.cpu_store_unsigned_word [h.addr_atomic_access_addr, 0x12341234] s
      let s := call LibFn.cpu_load_reservate_word [h.addr_atomic_access_addr] s
      let tmp_a := r.lrsc_fail2_lr
      let s := asm Instr.ecall s
      let s := call LibFn.cpu_store_conditional [h.addr_atomic_access_addr, 0xDEADBEEF] s
      let tmp_b := r.lrsc_fail2_sc
      if tmp_b ≠ 0 ∧ tmp_a = 0x12341234 then
        let s := call LibFn.cpu_load_unsigned_word [h.addr_atomic_access_addr] s
        if r.lrsc_fail2_readback = 0x12341234 then test_ok s else test_fail s
      else test_fail s
    else s
  else s

/-! ## `main` -/

/-- The CSRs whose values the HPM report prints, in source order. -/
def hpm_report_csrs : List Csr :=
  [Csr.INSTRET, Csr.CYCLE] ++ (List.range 12).map (fun i => Csr.MHPMCOUNTER (i + 3))

/-- HPM reports: stop all counters; the reads are arguments of
`PRINT_STANDARD` and are compiled only when that prints. -/
def hpm_reports (b : Build) (s : State) : State :=
  let s := csr_write Csr.MCOUNTINHIBIT minus_one_u32 s
  if b.SUPPRESS_OPTIONAL_UART_PRINT then s
  else hpm_report_csrs.foldl (fun s c => csr_read c s) s

/-- Start of `main` up to the `RUN_CHECK` test: UART set-up. -/
def main_uart_setup (b : Build) (h : Neorv32H) (r : Resp) (s : State) : State :=
  let s := call LibFn.uart0_setup [BAUD_RATE, h.PARITY_NONE, h.FLOW_CONTROL_NONE] s
  let s := emit (Event.io_read IoReg.UART0_CT) s
  let s := emit (Event.io_write IoReg.UART1_CT r.init_uart0_ct) s
  if b.SUPPRESS_OPTIONAL_UART_PRINT then call LibFn.uart0_disable [] s else s

/-- From "setup RTE" to the start of the configuration loop. -/
def main_setup (s : State) : State :=
  let s := call LibFn.rte_setup [] s
  let s := call LibFn.rte_check_isa [0] s
  let s := csr_write Csr.MCYCLEH 0 s
  let s := csr_write Csr.MCYCLE 0 s
  let s := csr_write Csr.MINSTRETH 0 s
  let s := csr_write Csr.MINSTRET 0 s
  let s := csr_write Csr.MCOUNTINHIBIT 0 s
  let s := csr_write Csr.MCOUNTEREN 7 s
  let s := call LibFn.mtime_set_time [0] s
  let mtime_cmp_max := 0xffffffffffffffff
  let s := call LibFn.mtime_set_timecmp [mtime_cmp_max] s
  let s := call LibFn.rte_print_logo [] s
  let s := call LibFn.rte_print_credits [] s
  call LibFn.rte_print_hw_config [] s

/-- One iteration of the configuration loop:
`install_err += neorv32_rte_exception_install(id, global_trap_handler);`. -/
def install_step (r : Resp) (acc : Int × State) (id : Nat) : Int × State :=
  (wrap_int32 (acc.1 + r.install_rc id),
   emit (Event.rte_exception_install id Handler.global_trap_handler) acc.2)

/-- The configuration loop `for (id=0; id<NEORV32_RTE_NUM_TRAPS; id++)`,
started with `install_err = 0`. -/
def install_loop (h : Neorv32H) (r : Resp) (s : State) : Int × State :=
  (List.range h.NEORV32_RTE_NUM_TRAPS.val).foldl (install_step r) (0, s)

/-- Enable interrupt sources and global interrupts. -/
def main_enable_irqs (h : Neorv32H) (s : State) : State :=
  let s := call LibFn.cpu_irq_enable [h.CSR_MIE_MSIE] s
  let s := call LibFn.cpu_irq_enable [h.CSR_MIE_MTIE] s
  let s := call LibFn.cpu_irq_enable [h.CSR_MIE_MEIE] s
  call LibFn.cpu_eint [] s

/-- The blocks of `main` between "Starting tests" and the HPM reports, in
source order.  The blocks for FIRQ1 and FIRQ9 only print with
`PRINT_STANDARD` and are omitted. -/
def main_cases (b : Build) (h : Neorv32H) (caps : Caps) (r : Resp) :
    List (State → State) :=
  [ case_cycle h r, case_instret h r, case_mcountinhibit_cy h r,
    case_mcounteren_cy h caps r, case_hpm_events h caps r,
    case_ext_mem h caps r, case_fence_i r, case_csr_nonexistent h r,
    case_csr_ro_write h r, case_csr_ro_no_write r, case_pending_irq h r,
    case_i_align h caps r, case_i_acc h r, case_i_illeg h r,
    case_ci_illeg h caps r, case_break h r, case_l_align h r,
    case_l_acc h r, case_s_align h r, case_s_acc h r, case_ecall_m h r,
    case_ecall_u h caps r, case_mti h r, case_msi h r, case_mei h r,
    case_nmi h r, case_firq0 h caps r, case_firq2 h caps r,
    case_firq3 h caps r, case_firq4 h caps r, case_firq5 h caps r,
    case_firq6 h caps r, case_firq7 h caps r, case_firq8 h caps r,
    case_firq10_11 h caps r, case_wfi h r, case_csr_user h caps r,
    case_rte_debug b h r, case_pmp h caps r, case_lrsc_ok b h caps r,
    case_lrsc_fail1 b h caps r, case_lrsc_fail2 b h caps r ]

/-- Run blocks one after the other. -/
def run_cases (cs : List (State → State)) (s : State) : State :=
  cs.foldl (fun s c => c s) s

/-- Final test reports: the `PRINT_CRITICAL` line with the counters. -/
def final_report (s : State) : State :=
  emit (Event.print_critical
    (CritMsg.test_results s.cnt_ok s.cnt_test s.cnt_fail s.cnt_test)) s

/-- Source function `main`: the value returned and the final state. -/
def main (b : Build) (h : Neorv32H) (caps : Caps) (r : Resp) : Nat × State :=
  let s := main_uart_setup b h r State.init
  if ¬ b.RUN_CHECK then
    let s := emit (Event.print_critical CritMsg.not_compiled) s
    (1, s)
  else
    let s := main_setup s
    let (install_err, s) := install_loop h r s
    if install_err ≠ 0 then
      let s := emit (Event.print_critical (CritMsg.rte_install_error install_err)) s
      (1, s)
    else
      let s := main_enable_irqs h s
      let s := run_cases (main_cases b h caps r) s
      let s := hpm_reports b s
      let s := final_report s
      (s.cnt_fail, s)

/-- The value of `install_err` after the configuration loop. -/
def install_err (h : Neorv32H) (r : Resp) : Int :=
  (List.range h.NEORV32_RTE_NUM_TRAPS.val).foldl
    (fun acc id => wrap_int32 (acc + r.install_rc id)) 0

/-- The state in which `main` enters its first case, on the path where
`RUN_CHECK` is defined and `install_err` is 0. -/
def main_before_cases (b : Build) (h : Neorv32H) (r : Resp) : State :=
  main_enable_irqs h (install_loop h r (main_setup (main_uart_setup b h r State.init))).2

/-- The state after the last case, on the path where the cases run. -/
def main_after_cases (b : Build) (h : Neorv32H) (caps : Caps) (r : Resp) : State :=
  run_cases (main_cases b h caps r) (main_before_cases b h r)

/-! ## Vocabulary of the properties -/

/-- The ledger equation `cnt_test == cnt_ok + cnt_fail`. -/
def ledger_ok (s : State) : Prop := s.cnt_test = s.cnt_ok + s.cnt_fail

/-- Between `s` and `s'` one verdict "passed" was recorded. -/
def recorded_passed (s s' : State) : Prop :=
  s'.cnt_ok = s.cnt_ok + 1 ∧ s'.cnt_fail = s.cnt_fail

/-- Between `s` and `s'` one verdict "failed" was recorded. -/
def recorded_failed (s s' : State) : Prop :=
  s'.cnt_ok = s.cnt_ok ∧ s'.cnt_fail = s.cnt_fail + 1

/-- None of the three counters differs between `s` and `s'`. -/
def counters_unchanged (s s' : State) : Prop :=
  s'.cnt_test = s.cnt_test ∧ s'.cnt_ok = s.cnt_ok ∧ s'.cnt_fail = s.cnt_fail

/-- The case identifier carried by a trace entry, if it is a `count`. -/
def Event.counted : Event → Option CaseId
  | Event.count c => some c
  | _ => none

/-- The cases whose `cnt_test++` was executed, in execution order. -/
def counts (s : State) : List CaseId := s.trace.filterMap Event.counted

/-- Between `s` and `s'` the block of case `c` ran: `cnt_test` went up by
one, the `cnt_test++` of `c` and of no other case was executed, and exactly
one verdict was recorded. -/
def ran_once (c : CaseId) (s s' : State) : Prop :=
  s'.cnt_test = s.cnt_test + 1 ∧ counts s' = counts s ++ [c] ∧
    (recorded_passed s s' ∨ recorded_failed s s')

/-- Between `s` and `s'` nothing was counted and no verdict recorded. -/
def skipped (s s' : State) : Prop :=
  counters_unchanged s s' ∧ counts s' = counts s

/-- The applicability check that guards the `cnt_test++` of each case in the
source.  A case without a check is always applicable.  The three LR/SC
checks are compiled only under `__riscv_atomic`. -/
def applicable (b : Build) (h : Neorv32H) (caps : Caps) : CaseId → Prop
  | CaseId.mcounteren_cy => caps.misa &&& (1 <<< h.CSR_MISA_U) ≠ 0
  | CaseId.hpm_events => caps.hpm_get_counters ≠ 0
  | CaseId.ext_mem => caps.SYSINFO_FEATURES &&& (1 <<< h.SYSINFO_FEATURES_MEM_EXT) ≠ 0
  | CaseId.i_align => caps.misa &&& (1 <<< h.CSR_MISA_C) = 0
  | CaseId.ci_illeg => caps.misa &&& (1 <<< h.CSR_MISA_C) ≠ 0
  | CaseId.ecall_u => caps.misa &&& (1 <<< h.CSR_MISA_U) ≠ 0
  | CaseId.firq0 => caps.wdt_available ≠ 0
  | CaseId.firq2 => caps.uart1_available ≠ 0
  | CaseId.firq3 => caps.uart0_available ≠ 0
  | CaseId.firq4 => caps.uart1_available ≠ 0
  | CaseId.firq5 => caps.uart1_available ≠ 0
  | CaseId.firq6 => caps.spi_available ≠ 0
  | CaseId.firq7 => caps.twi_available ≠ 0
  | CaseId.firq8 => caps.xirq_available ≠ 0
  | CaseId.firq10_11 => caps.slink_available ≠ 0
  | CaseId.csr_user => caps.misa &&& (1 <<< h.CSR_MISA_U) ≠ 0
  | CaseId.pmp_create => caps.pmp_get_num_regions ≠ 0
  | CaseId.pmp_execute => caps.pmp_get_num_regions ≠ 0
  | CaseId.pmp_read => caps.pmp_get_num_regions ≠ 0
  | CaseId.pmp_write => caps.pmp_get_num_regions ≠ 0
  | CaseId.pmp_lock => caps.pmp_get_num_regions ≠ 0
  | CaseId.lrsc_ok => b.riscv_atomic = true ∧ caps.misa &&& (1 <<< h.CSR_MISA_A) ≠ 0
  | CaseId.lrsc_fail1 => b.riscv_atomic = true ∧ caps.misa &&& (1 <<< h.CSR_MISA_A) ≠ 0
  | CaseId.lrsc_fail2 => b.riscv_atomic = true ∧ caps.misa &&& (1 <<< h.CSR_MISA_A) ≠ 0
  | _ => True

instance (b : Build) (h : Neorv32H) (caps : Caps) (c : CaseId) :
    Decidable (applicable b h caps c) := by
  cases c <;> unfold applicable <;> infer_instance

/-- The cases in source order. -/
def catalog : List CaseId :=
  [ CaseId.cycle, CaseId.instret, CaseId.mcountinhibit_cy, CaseId.mcounteren_cy,
    CaseId.hpm_events, CaseId.ext_mem, CaseId.fence_i, CaseId.csr_nonexistent,
    CaseId.csr_ro_write, CaseId.csr_ro_no_write, CaseId.pending_irq,
    CaseId.i_align, CaseId.i_acc, CaseId.i_illeg, CaseId.ci_illeg,
    CaseId.break_instr, CaseId.l_align, CaseId.l_acc, CaseId.s_align,
    CaseId.s_acc, CaseId.ecall_m, CaseId.ecall_u, CaseId.mti, CaseId.msi,
    CaseId.mei, CaseId.nmi, CaseId.firq0, CaseId.firq2, CaseId.firq3,
    CaseId.firq4, CaseId.firq5, CaseId.firq6, CaseId.firq7, CaseId.firq8,
    CaseId.firq10_11, CaseId.wfi, CaseId.csr_user, CaseId.rte_debug,
    CaseId.pmp_create, CaseId.pmp_execute, CaseId.pmp_read, CaseId.pmp_write,
    CaseId.pmp_lock, CaseId.lrsc_ok, CaseId.lrsc_fail1, CaseId.lrsc_fail2 ]

/-- The code of each case, as it stands in `main`.  The five PMP cases are
the parts of the block `case_pmp` behind its check; they are given here with
the value `tmp_a` has in that block, the base address of the region. -/
def case_code (b : Build) (h : Neorv32H) (caps : Caps) (r : Resp) :
    CaseId → State → State
  | CaseId.cycle => case_cycle h r
  | CaseId.instret => case_instret h r
  | CaseId.mcountinhibit_cy => case_mcountinhibit_cy h r
  | CaseId.mcounteren_cy => case_mcounteren_cy h caps r
  | CaseId.hpm_events => case_hpm_events h caps r
  | CaseId.ext_mem => case_ext_mem h caps r
  | CaseId.fence_i => case_fence_i r
  | CaseId.csr_nonexistent => case_csr_nonexistent h r
  | CaseId.csr_ro_write => case_csr_ro_write h r
  | CaseId.csr_ro_no_write => case_csr_ro_no_write r
  | CaseId.pending_irq => case_pending_irq h r
  | CaseId.i_align => case_i_align h caps r
  | CaseId.i_acc => case_i_acc h r
  | CaseId.i_illeg => case_i_illeg h r
  | CaseId.ci_illeg => case_ci_illeg h caps r
  | CaseId.break_instr => case_break h r
  | CaseId.l_align => case_l_align h r
  | CaseId.l_acc => case_l_acc h r
  | CaseId.s_align => case_s_align h r
  | CaseId.s_acc => case_s_acc h r
  | CaseId.ecall_m => case_ecall_m h r
  | CaseId.ecall_u => case_ecall_u h caps r
  | CaseId.mti => case_mti h r
  | CaseId.msi => case_msi h r
  | CaseId.mei => case_mei h r
  | CaseId.nmi => case_nmi h r
  | CaseId.firq0 => case_firq0 h caps r
  | CaseId.firq2 => case_firq2 h caps r
  | CaseId.firq3 => case_firq3 h caps r
  | CaseId.firq4 => case_firq4 h caps r
  | CaseId.firq5 => case_firq5 h caps r
  | CaseId.firq6 => case_firq6 h caps r
  | CaseId.firq7 => case_firq7 h caps r
  | CaseId.firq8 => case_firq8 h caps r
  | CaseId.firq10_11 => case_firq10_11 h caps r
  | CaseId.wfi => case_wfi h r
  | CaseId.csr_user => case_csr_user h caps r
  | CaseId.rte_debug => case_rte_debug b h r
  | CaseId.pmp_create => fun s => (case_pmp_create caps r s).1
  | CaseId.pmp_execute => case_pmp_execute r caps.SYSINFO_DSPACE_BASE
  | CaseId.pmp_read => case_pmp_read h r caps.SYSINFO_DSPACE_BASE
  | CaseId.pmp_write => case_pmp_write h r caps.SYSINFO_DSPACE_BASE
  | CaseId.pmp_lock => case_pmp_lock r
  | CaseId.lrsc_ok => case_lrsc_ok b h caps r
  | CaseId.lrsc_fail1 => case_lrsc_fail1 b h caps r
  | CaseId.lrsc_fail2 => case_lrsc_fail2 b h caps r

/-- A case other than the five PMP cases; these have their check, if any,
inside their own block. -/
def CaseId.is_pmp : CaseId → Bool
  | CaseId.pmp_create => true
  | CaseId.pmp_execute => true
  | CaseId.pmp_read => true
  | CaseId.pmp_write => true
  | CaseId.pmp_lock => true
  | _ => false

/-- The cases behind each block of `main_cases`, block by block. -/
def main_block_ids : List (List CaseId) :=
  [ [CaseId.cycle], [CaseId.instret], [CaseId.mcountinhibit_cy],
    [CaseId.mcounteren_cy], [CaseId.hpm_events], [CaseId.ext_mem],
    [CaseId.fence_i], [CaseId.csr_nonexistent], [CaseId.csr_ro_write],
    [CaseId.csr_ro_no_write], [CaseId.pending_irq], [CaseId.i_align],
    [CaseId.i_acc], [CaseId.i_illeg], [CaseId.ci_illeg], [CaseId.break_instr],
    [CaseId.l_align], [CaseId.l_acc], [CaseId.s_align], [CaseId.s_acc],
    [CaseId.ecall_m], [CaseId.ecall_u], [CaseId.mti], [CaseId.msi],
    [CaseId.mei], [CaseId.nmi], [CaseId.firq0], [CaseId.firq2], [CaseId.firq3],
    [CaseId.firq4], [CaseId.firq5], [CaseId.firq6], [CaseId.firq7],
    [CaseId.firq8], [CaseId.firq10_11], [CaseId.wfi], [CaseId.csr_user],
    [CaseId.rte_debug],
    [CaseId.pmp_create, CaseId.pmp_execute, CaseId.pmp_read, CaseId.pmp_write,
      CaseId.pmp_lock],
    [CaseId.lrsc_ok], [CaseId.lrsc_fail1], [CaseId.lrsc_fail2] ]

/-- The PMP block cut at the end of each of its cases: the query with the
first case behind it, then the other four cases; without a PMP region only
the query. -/
def pmp_steps (h : Neorv32H) (caps : Caps) (r : Resp) : List (State → State) :=
  if caps.pmp_get_num_regions ≠ 0 then
    [ fun s => (case_pmp_create caps r (call LibFn.cpu_pmp_get_num_regions [] s)).1,
      case_pmp_execute r caps.SYSINFO_DSPACE_BASE,
      case_pmp_read h r caps.SYSINFO_DSPACE_BASE,
      case_pmp_write h r caps.SYSINFO_DSPACE_BASE,
      case_pmp_lock r ]
  else [ call LibFn.cpu_pmp_get_num_regions [] ]

/-- The blocks of `main_cases` with the PMP block (the block at position 38)
cut at the end of each of its cases, so that every state between two cases
of `main` is the state after a number of leading steps. -/
def main_case_steps (b : Build) (h : Neorv32H) (caps : Caps) (r : Resp) :
    List (State → State) :=
  (main_cases b h caps r).take 38 ++ pmp_steps h caps r ++
    (main_cases b h caps r).drop 39

/-- The cases of `ids` whose applicability check succeeds, in order. -/
def applicable_of (b : Build) (h : Neorv32H) (caps : Caps) (ids : List CaseId) :
    List CaseId :=
  ids.filter (fun c => decide (applicable b h caps c))

/-- What a piece of code `f` holding the cases `ids` does to the ledger:
it counts exactly the applicable cases of `ids`, in order, and records one
verdict for each of them. -/
def block_spec (b : Build) (h : Neorv32H) (caps : Caps) (ids : List CaseId)
    (f : State → State) : Prop :=
  ∀ s, counts (f s) = counts s ++ applicable_of b h caps ids ∧
    (f s).cnt_test = s.cnt_test + (applicable_of b h caps ids).length ∧
    (f s).cnt_ok + (f s).cnt_fail =
      s.cnt_ok + s.cnt_fail + (applicable_of b h caps ids).length ∧
    s.cnt_ok ≤ (f s).cnt_ok ∧ s.cnt_fail ≤ (f s).cnt_fail

/-! ## Sample inputs

Concrete parameters on which the definitions are evaluated.  The header
values are those of the NEORV32 release this program was written for. -/

/-- A build with `RUN_CHECK` and `__riscv_atomic` defined. -/
def sample_build : Build :=
  { RUN_CHECK := true, riscv_atomic := true, SUPPRESS_OPTIONAL_UART_PRINT := false }

/-- Sample header constants. -/
def sample_h : Neorv32H :=
  { TRAP_CODE_I_MISALIGNED := 0x00000000, TRAP_CODE_I_ACCESS := 0x00000001,
    TRAP_CODE_I_ILLEGAL := 0x00000002, TRAP_CODE_BREAKPOINT := 0x00000003,
    TRAP_CODE_L_MISALIGNED := 0x00000004, TRAP_CODE_L_ACCESS := 0x00000005,
    TRAP_CODE_S_MISALIGNED := 0x00000006, TRAP_CODE_S_ACCESS := 0x00000007,
    TRAP_CODE_UENV_CALL := 0x00000008, TRAP_CODE_MENV_CALL := 0x0000000b,
    TRAP_CODE_NMI := 0x80000000, TRAP_CODE_MSI := 0x80000003,
    TRAP_CODE_MTI := 0x80000007, TRAP_CODE_MEI := 0x8000000b,
    TRAP_CODE_FIRQ_0 := 0x80000010, TRAP_CODE_FIRQ_2 := 0x80000012,
    TRAP_CODE_FIRQ_3 := 0x80000013, TRAP_CODE_FIRQ_4 := 0x80000014,
    TRAP_CODE_FIRQ_5 := 0x80000015, TRAP_CODE_FIRQ_6 := 0x80000016,
    TRAP_CODE_FIRQ_7 := 0x80000017, TRAP_CODE_FIRQ_8 := 0x80000018,
    TRAP_CODE_FIRQ_10 := 0x8000001a, TRAP_CODE_FIRQ_11 := 0x8000001b,
    CSR_MISA_A := 0, CSR_MISA_C := 2, CSR_MISA_U := 20,
    CSR_MCOUNTINHIBIT_CY := 0, CSR_MCOUNTINHIBIT_IR := 2,
    CSR_MCOUNTEREN_CY := 0, CSR_MSTATUS_TW := 21,
    CSR_MSTATUS_MPP_L := 11, CSR_MSTATUS_MPP_H := 12,
    CSR_MIE_MSIE := 3, CSR_MIE_MTIE := 7, CSR_MIE_MEIE := 11,
    CSR_MIE_FIRQ0E := 16, CSR_MIE_FIRQ2E := 18, CSR_MIE_FIRQ3E := 19,
    CSR_MIE_FIRQ4E := 20, CSR_MIE_FIRQ5E := 21, CSR_MIE_FIRQ6E := 22,
    CSR_MIE_FIRQ7E := 23, CSR_MIE_FIRQ10E := 26, CSR_MIE_FIRQ11E := 27,
    SYSINFO_FEATURES_MEM_EXT := 1,
    HPMCNT_EVENT_CIR := 3, HPMCNT_EVENT_WAIT_IF := 4, HPMCNT_EVENT_WAIT_II := 5,
    HPMCNT_EVENT_WAIT_MC := 6, HPMCNT_EVENT_LOAD := 7, HPMCNT_EVENT_STORE := 8,
    HPMCNT_EVENT_WAIT_LS := 9, HPMCNT_EVENT_JUMP := 10, HPMCNT_EVENT_BRANCH := 11,
    HPMCNT_EVENT_TBRANCH := 12, HPMCNT_EVENT_TRAP := 13, HPMCNT_EVENT_ILLEGAL := 14,
    UART_CT_EN := 28, UART_CT_SIM_MODE := 12,
    CLK_PRSC_2 := 0, CLK_PRSC_4096 := 7, PARITY_NONE := 0, FLOW_CONTROL_NONE := 0,
    IO_BASE_ADDRESS := 0xFFFFFF00, RTE_TRAP_I_ILLEGAL := 2,
    NEORV32_RTE_NUM_TRAPS := 29,
    addr_atomic_access_addr := 0x80000010,
    addr_dummy_sub_program_ci := 0x00001000,
    addr_dummy_ext_program := 0x00001008 }

/-- A machine with every optional feature: MISA reports A, C, I, M and U. -/
def sample_caps : Caps :=
  { misa := 0x40101105, hpm_get_counters := 12, SYSINFO_FEATURES := 0x3,
    SYSINFO_DSPACE_BASE := 0x80000000, wdt_available := 1, uart0_available := 1,
    uart1_available := 1, spi_available := 1, twi_available := 1,
    xirq_available := 1, slink_available := 1, pmp_get_num_regions := 2,
    pmp_get_granularity := 8 }

/-- A machine without any optional feature: MISA reports I only. -/
def sample_caps_minimal : Caps :=
  { misa := 0x40000100, hpm_get_counters := 0, SYSINFO_FEATURES := 0,
    SYSINFO_DSPACE_BASE := 0x80000000, wdt_available := 0, uart0_available := 0,
    uart1_available := 0, spi_available := 0, twi_available := 0,
    xirq_available := 0, slink_available := 0, pmp_get_num_regions := 0,
    pmp_get_granularity := 0 }

/-- Responses of a machine on which every case passes. -/
def sample_resp : Resp :=
  { init_uart0_ct := 0x10000000, install_rc := fun _ => 0,
    cycle_mcycleh := 1, cycle_mcause := 0,
    instret_instreth := 1, instret_mcause := 0,
    mcountinhibit_rd := 0, mcountinhibit_cycle_a := 40, mcountinhibit_cycle_b := 40,
    mcountinhibit_mcause := 0, mcountinhibit_rd2 := 1,
    mcounteren_rd := 7, mcounteren_cycle := 0, mcounteren_mcause := 2,
    mcounteren_rd2 := 6,
    hpm_mcause := 0, ext_mem_mcause := 0, ext_mem_mscratch := 15,
    fence_i_mcause := 0, csr_nonexistent_tmp_a := 0, csr_nonexistent_mcause := 2,
    csr_ro_write_mcause := 2, csr_ro_no_write_mcause := 0,
    pending_irq_mcause := 0x80000007, i_align_mcause := 0, i_acc_mcause := 1,
    i_illeg_mcause := 2, i_illeg_mtval := 0xfff01073, ci_illeg_mcause := 2,
    break_mcause := 3, l_align_mcause := 4, l_acc_mcause := 5,
    s_align_mcause := 6, s_acc_mcause := 7, ecall_m_mcause := 0xb,
    ecall_u_mcause := 8, mti_mcause := 0x80000007, msi_mcause := 0x80000003,
    mei_mcause := 0x8000000b, nmi_mcause := 0x80000000,
    firq0_mcause := 0x80000010,
    firq2_uart0_ct := 0x10000000, firq2_uart0_ct_b := 0x10000000,
    firq2_uart0_ct_c := 0x10000000, firq2_mcause := 0x80000012,
    firq3_uart0_ct := 0x10000000, firq3_uart0_ct_b := 0x10000000,
    firq3_uart0_ct_c := 0x10000000, firq3_mcause := 0x80000013,
    firq4_uart1_ct := 0x10000000, firq4_uart1_ct_b := 0x10000000,
    firq4_uart1_ct_c := 0x10000000, firq4_mcause := 0x80000014,
    firq5_uart1_ct := 0x10000000, firq5_uart1_ct_b := 0x10000000,
    firq5_uart1_ct_c := 0x10000000, firq5_mcause := 0x80000015,
    firq6_mcause := 0x80000016, firq7_mcause := 0x80000017,
    firq8_setup_rc := 0, firq8_install0_rc := 0, firq8_install1_rc := 0,
    firq8_dispatch := [Handler.xirq_trap_handler0, Handler.xirq_trap_handler1],
    firq8_mcause := 0x80000018,
    slink_tx_rc := 0, slink_rx_rc := 0, slink_rx_data := 0xA1B2C3D4,
    slink_mcause := 0x8000001a,
    wfi_mtime := 5000, wfi_mstatus := 0x1800, wfi_mcause := 0x80000007,
    csr_user_tmp_a := 0, csr_user_mcause := 2, rte_debug_mcause := 2,
    pmp_create_rc := 0, pmp_create_mcause := 0, pmp_execute_mcause := 1,
    pmp_read_tmp_b := 0, pmp_read_mcause := 5, pmp_write_mcause := 7,
    pmp_lock_cfg_before := 0x81, pmp_lock_addr_before := 0x20000000,
    pmp_lock_cfg_after := 0x81, pmp_lock_addr_after := 0x20000000,
    pmp_lock_mcause := 0,
    lrsc_ok_lr := 0x11223344, lrsc_ok_sc := 0, lrsc_ok_readback := 0x22446688,
    lrsc_ok_mcause := 0,
    lrsc_fail1_lr := 0xAABBCCDD, lrsc_fail1_sc := 1, lrsc_fail1_readback := 0xDEADDEAD,
    lrsc_fail2_lr := 0x12341234, lrsc_fail2_sc := 1, lrsc_fail2_readback := 0x12341234 }

/-- As `sample_resp`, but one handler installation reports an error. -/
def sample_resp_install_error : Resp :=
  { sample_resp with install_rc := fun id => if id = 3 then 1 else 0 }

/-- As `sample_resp`, but the denied PMP load leaves a non-zero word in
`tmp_b` although the load-access fault is raised. -/
def sample_resp_pmp_leak : Resp :=
  { sample_resp with pmp_read_tmp_b := 0xCAFE1234 }

/-- As `sample_resp`, but the user-mode read of `misa` leaves the content of
the register in `tmp_a` although the illegal-instruction trap is raised. -/
def sample_resp_csr_leak : Resp :=
  { sample_resp with csr_user_tmp_a := 0x40101105 }

/-- As `sample_resp`, but seven cases fail: three expected traps do not
occur, the user-mode read of `cycle` gives 77, the conditional store of the
first LR/SC case reports failure, and the read-back of the other two LR/SC
cases is the value of the conditional store. -/
def sample_resp_failing : Resp :=
  { sample_resp with
    csr_nonexistent_mcause := 0, csr_ro_write_mcause := 0, break_mcause := 0,
    mcounteren_cycle := 77, lrsc_ok_sc := 1, lrsc_fail1_readback := 0x22446688,
    lrsc_fail2_readback := 0xDEADBEEF }

/-! ## The trap handler and the XIRQ accumulator -/

/-- Modelled from the spec: the effect on a control and status register of
the instruction `csrrs zero, csr, rs1`, which the hardware (not among the
sources) carries out.  The bits set in `mask` are forced to 1 in the
register, the other bits keep their value. -/
def csrrs (csr_value mask : Nat) : Nat := csr_value ||| mask

/-- Source function `global_trap_handler`, as a function of the value of
`mstatus` on entry, giving the value of `mstatus` on return:
`mask = (1<<CSR_MSTATUS_MPP_H) | (1<<CSR_MSTATUS_MPP_L)` in a `uint32_t`,
then `csrrs zero, mstatus, mask`.  The function has no other statement. -/
def global_trap_handler (h : Neorv32H) (mstatus : Nat) : Nat :=
  let mask := u32 ((1 <<< h.CSR_MSTATUS_MPP_H) ||| (1 <<< h.CSR_MSTATUS_MPP_L))
  csrrs mstatus mask

/-- The value of the local `xirq_err_cnt` of the FIRQ8 case when the verdict
is taken: 0 plus the three return codes, added as `int`s. -/
def firq8_err_cnt (r : Resp) : Int :=
  wrap_int32 (wrap_int32 (wrap_int32 (0 + r.firq8_setup_rc) + r.firq8_install0_rc) +
    r.firq8_install1_rc)

/-- The value of `xirq_trap_handler_ack` when the verdict of the FIRQ8 case
is taken: the case sets it to 0, then the handlers the hardware dispatches
run. -/
def firq8_ack (r : Resp) : Nat :=
  (r.firq8_dispatch.foldl run_handler
    { State.init with xirq_trap_handler_ack := 0 }).xirq_trap_handler_ack

/-! ## What a piece of code adds to the trace -/

/-- The entries a piece of code adds to the trace: its trace when started
with an empty one. -/
def added (f : State → State) (s : State) : List Event :=
  (f { s with trace := [] }).trace

/-- The entry is a switch to user mode, `neorv32_cpu_goto_user_mode()`. -/
def Event.is_goto_user_mode : Event → Bool
  | Event.call f _ => f == LibFn.cpu_goto_user_mode
  | _ => false

/-- The entries contain a switch to user mode. -/
def switches_privilege (tr : List Event) : Bool := tr.any Event.is_goto_user_mode

/-! ## The cause register -/

/-- The register is `CSR_MCAUSE`. -/
def Csr.is_mcause : Csr → Bool
  | Csr.MCAUSE => true
  | _ => false

/-- The entry writes 0 to `CSR_MCAUSE`. -/
def Event.clears_cause : Event → Bool
  | Event.csr_write c v => c.is_mcause && v == 0
  | _ => false

/-- The library function is an availability query of a peripheral or of the
PMP. -/
def LibFn.is_availability_query (f : LibFn) : Bool :=
  f == LibFn.wdt_available || f == LibFn.uart0_available ||
    f == LibFn.uart1_available || f == LibFn.spi_available ||
    f == LibFn.twi_available || f == LibFn.slink_available ||
    f == LibFn.cpu_pmp_get_num_regions

/-- The entry is an availability query of a peripheral or of the PMP, or
the mark of a `cnt_test++`: the only entries found in a case before it
writes 0 to `CSR_MCAUSE`. -/
def Event.is_query : Event → Bool
  | Event.count _ => true
  | Event.call f _ => f.is_availability_query
  | _ => false

/-- Scan of the entries one case adds to the trace.  `armed` tells whether
the case has written 0 to `CSR_MCAUSE` already.  The scan succeeds when
every entry met before that write is an availability query or the mark of
the `cnt_test++`: no stimulus and no read of the cause comes before the
write. -/
def armed_scan : Bool → List Event → Bool
  | _, [] => true
  | armed, e :: t =>
    if e.clears_cause then armed_scan true t
    else (armed || e.is_query) && armed_scan armed t

/-- Modelled from the spec: the cause register of the hardware (not among
the sources), which the spec describes as cleared by the program before a
stimulus and changed otherwise only on trap entry.  With the register
holding `m` and the hardware delivering no trap while the entries `tr` are
executed, these are the values the reads of `CSR_MCAUSE` in `tr` return, in
order: a write stores its value, a read returns the value stored. -/
def cause_reads (m : Nat) : List Event → List Nat
  | [] => []
  | Event.csr_write c v :: t =>
    if c.is_mcause then cause_reads v t else cause_reads m t
  | Event.csr_read c :: t =>
    if c.is_mcause then m :: cause_reads m t else cause_reads m t
  | _ :: t => cause_reads m t

/-- All values of a list are 0. -/
def all_zero (l : List Nat) : Bool := l.all (fun v => v == 0)

/-- The entries contain the mark of a `cnt_test++`. -/
def has_count (tr : List Event) : Bool := tr.any (fun e => e.counted.isSome)

/-- The entries contain a write of 0 to `CSR_MCAUSE`. -/
def has_clear (tr : List Event) : Bool := tr.any Event.clears_cause

/-- What claim C18 says of a piece of code `f` started in state `s`: the
trace grows by the entries `added f s`; among these no stimulus and no read
of the cause comes before a write of 0 to `CSR_MCAUSE`; if a case is counted
there is such a write; and from any value `m` the cause register holds on
entry, every read of the cause returns 0 when no trap is delivered. -/
def cause_spec (f : State → State) (s : State) : Prop :=
  (f s).trace = s.trace ++ added f s ∧ armed_scan false (added f s) = true ∧
    (has_count (added f s) = true → has_clear (added f s) = true) ∧
    ∀ m, all_zero (cause_reads m (added f s)) = true

/-! ## The configuration loop -/

/-- The entries the configuration loop adds to the trace when it does not
stop early: one installation of `global_trap_handler` for every vector id
below `NEORV32_RTE_NUM_TRAPS`, in increasing order. -/
def install_attempts (h : Neorv32H) : List Event :=
  (List.range h.NEORV32_RTE_NUM_TRAPS.val).map
    (fun id => Event.rte_exception_install id Handler.global_trap_handler)

/-- The sum of the return codes of the configuration loop as a number,
without regard to the width of `int`. -/
def install_rc_sum (h : Neorv32H) (r : Resp) : Int :=
  ((List.range h.NEORV32_RTE_NUM_TRAPS.val).map r.install_rc).sum

/-! ## More sample inputs -/

/-- As `sample_caps`, but MISA reports no user mode (A, C, I and M only);
the PMP is implemented. -/
def sample_caps_no_u : Caps :=
  { sample_caps with misa := 0x40001105 }

/-- As `sample_resp`, but the hardware dispatches the two XIRQ handlers in
the order channel 1, channel 0. -/
def sample_resp_xirq_reversed : Resp :=
  { sample_resp with
    firq8_dispatch := [Handler.xirq_trap_handler1, Handler.xirq_trap_handler0] }

/-- As `sample_resp`, but the jump into the protected region ends with the
illegal-instruction cause (2) instead of the instruction-access fault. -/
def sample_resp_pmp_execute_illegal : Resp :=
  { sample_resp with pmp_execute_mcause := 2 }

/-- As `sample_build`, but compiled without `RUN_CHECK`. -/
def sample_build_no_check : Build :=
  { sample_build with RUN_CHECK := false }

/-- As `sample_resp`, but the first four handler installations return the
non-negative code 0x40000000 each, the others 0. -/
def sample_resp_install_overflow : Resp :=
  { sample_resp with install_rc := fun id => if id < 4 then 0x40000000 else 0 }

/-! ## Order of the counters -/

/-- None of the three counters is smaller in `s'` than in `s`. -/
def counters_le (s s' : State) : Prop :=
  s.cnt_test ≤ s'.cnt_test ∧ s.cnt_ok ≤ s'.cnt_ok ∧ s.cnt_fail ≤ s'.cnt_fail

/-! ## The stimulus of the illegal-instruction case -/

/-- Modelled from the spec: the RISC-V encoding of `csrrw rd, csr, rs1`, an
I-type instruction word (the instruction set manual is not among the
sources): the CSR address in bits 31:20, `rs1` in bits 19:15, funct3 = 001
in bits 14:12, `rd` in bits 11:7 and the opcode SYSTEM = 0x73 in bits
6:0. -/
def encode_csrrw (csr rs1 rd : Nat) : Nat :=
  (csr <<< 20) ||| (rs1 <<< 15) ||| (0b001 <<< 12) ||| (rd <<< 7) ||| 0x73

/-! ## Control and status registers as storage -/

/-- The value the entry writes to register `c` with
`neorv32_cpu_csr_write`, if it is such a write. -/
def Event.written_to (c : Csr) : Event → Option Nat
  | Event.csr_write c' v => if c' = c then some v else none
  | _ => none

/-- The values written to register `c` with `neorv32_cpu_csr_write`, in
program order. -/
def csr_writes (c : Csr) (tr : List Event) : List Nat :=
  tr.filterMap (Event.written_to c)

/-- The entry is a read of register `c` with `neorv32_cpu_csr_read`. -/
def Event.is_read_of (c : Csr) : Event → Bool
  | Event.csr_read c' => decide (c' = c)
  | _ => false

/-- Modelled from the spec: what an inline assembly statement of `main.c`
does to register `c` holding `v`.  `csrci c, imm` clears the bits of `imm`;
no other assembly statement of `main.c` writes an implemented CSR. -/
def Instr.csr_effect (c : Csr) (v : Nat) : Instr → Nat
  | Instr.csrci c' imm => if c' = c then v &&& not32 imm else v
  | _ => v

/-- Modelled from the spec ("CSR writes are stored as written"): the value
register `c` holds after the entry, when it held `v` before.  A write with
`neorv32_cpu_csr_write` stores its value, `csrci` clears bits, every other
entry leaves the register alone. -/
def Event.csr_effect (c : Csr) (v : Nat) : Event → Nat
  | Event.csr_write c' w => if c' = c then w else v
  | Event.asm i => i.csr_effect c v
  | _ => v

/-- Modelled from the spec: the value register `c` holds after the entries
`tr`, when it held `v` before. -/
def csr_after (c : Csr) (v : Nat) (tr : List Event) : Nat :=
  tr.foldl (fun v e => e.csr_effect c v) v

/-- Modelled from the spec: the values register `c` holds after each of
the entries `tr` in turn, when it held `v` before. -/
def csr_history (c : Csr) (v : Nat) : List Event → List Nat
  | [] => []
  | e :: t => e.csr_effect c v :: csr_history c (e.csr_effect c v) t

/-- Modelled from the spec: the values the reads of register `c` in `tr`
return, in order, when the register held `v` before and holds what was
stored. -/
def stored_reads (c : Csr) (v : Nat) : List Event → List Nat
  | [] => []
  | e :: t =>
    (if e.is_read_of c then [v] else []) ++ stored_reads c (e.csr_effect c v) t

/-- The values the mcountinhibit.cy case obtains from its two reads of
`CSR_MCOUNTINHIBIT`, in order. -/
def mcountinhibit_cy_reads (r : Resp) : List Nat :=
  [r.mcountinhibit_rd, r.mcountinhibit_rd2]

/-- The values the mcounteren.cy block obtains from its reads of
`CSR_MCOUNTEREN`, in order: the read behind the check, if the check
succeeds, and the read of the re-allow statements. -/
def mcounteren_cy_reads (h : Neorv32H) (caps : Caps) (r : Resp) : List Nat :=
  if caps.misa &&& (1 <<< h.CSR_MISA_U) ≠ 0 then [r.mcounteren_rd, r.mcounteren_rd2]
  else [r.mcounteren_rd2]

/-! ## Sample inputs for the later properties -/

/-- As `sample_resp`, but the hardware dispatches the handler of channel 1,
then that of channel 0, then that of channel 1 again. -/
def sample_resp_xirq_one_zero_one : Resp :=
  { sample_resp with
    firq8_dispatch := [Handler.xirq_trap_handler1, Handler.xirq_trap_handler0,
      Handler.xirq_trap_handler1] }

/-- As `sample_caps`, but without UART1. -/
def sample_caps_no_uart1 : Caps :=
  { sample_caps with uart1_available := 0 }

/-- As `sample_caps`, but without UART0. -/
def sample_caps_no_uart0 : Caps :=
  { sample_caps with uart0_available := 0 }

/-! ## Basic facts about the primitives -/

@[simp] theorem emit_cnt_test (e : Event) (s : State) :
    (emit e s).cnt_test = s.cnt_test := rfl

@[simp] theorem emit_cnt_ok (e : Event) (s : State) :
    (emit e s).cnt_ok = s.cnt_ok := rfl

@[simp] theorem emit_cnt_fail (e : Event) (s : State) :
    (emit e s).cnt_fail = s.cnt_fail := rfl

@[simp] theorem emit_ack (e : Event) (s : State) :
    (emit e s).xirq_trap_handler_ack = s.xirq_trap_handler_ack := rfl

@[simp] theorem emit_trace (e : Event) (s : State) :
    (emit e s).trace = s.trace ++ [e] := rfl

theorem counts_emit (e : Event) (s : State) :
    counts (emit e s) = counts s ++ (Event.counted e).toList := by
  unfold counts emit
  cases hc : Event.counted e <;> simp [List.filterMap_append, hc]

@[simp] theorem count_cnt_test (c : CaseId) (s : State) :
    (count c s).cnt_test = s.cnt_test + 1 := rfl

@[simp] theorem count_cnt_ok (c : CaseId) (s : State) :
    (count c s).cnt_ok = s.cnt_ok := rfl

@[simp] theorem count_cnt_fail (c : CaseId) (s : State) :
    (count c s).cnt_fail = s.cnt_fail := rfl

@[simp] theorem count_ack (c : CaseId) (s : State) :
    (count c s).xirq_trap_handler_ack = s.xirq_trap_handler_ack := rfl

@[simp] theorem count_trace (c : CaseId) (s : State) :
    (count c s).trace = s.trace ++ [Event.count c] := rfl

@[simp] theorem counts_count (c : CaseId) (s : State) :
    counts (count c s) = counts s ++ [c] := by
  simp [count, counts, emit, List.filterMap_append, Event.counted]

@[simp] theorem test_ok_cnt_test (s : State) : (test_ok s).cnt_test = s.cnt_test := rfl

@[simp] theorem test_ok_cnt_ok (s : State) : (test_ok s).cnt_ok = s.cnt_ok + 1 := rfl

@[simp] theorem test_ok_cnt_fail (s : State) : (test_ok s).cnt_fail = s.cnt_fail := rfl

@[simp] theorem test_ok_trace (s : State) : (test_ok s).trace = s.trace := rfl

@[simp] theorem counts_test_ok (s : State) : counts (test_ok s) = counts s := rfl

@[simp] theorem test_fail_cnt_test (s : State) :
    (test_fail s).cnt_test = s.cnt_test := rfl

@[simp] theorem test_fail_cnt_ok (s : State) : (test_fail s).cnt_ok = s.cnt_ok := rfl

@[simp] theorem test_fail_cnt_fail (s : State) :
    (test_fail s).cnt_fail = s.cnt_fail + 1 := rfl

@[simp] theorem test_fail_trace (s : State) :
    (test_fail s).trace = s.trace ++ [Event.print_critical CritMsg.fail] := rfl

@[simp] theorem counts_test_fail (s : State) : counts (test_fail s) = counts s := by
  simp [test_fail, counts, emit, List.filterMap_append, Event.counted]

@[simp] theorem counts_set_cnt_ok (s : State) (n : Nat) :
    counts { s with cnt_ok := n } = counts s := rfl

@[simp] theorem counts_set_cnt_fail (s : State) (n : Nat) :
    counts { s with cnt_fail := n } = counts s := rfl

@[simp] theorem counts_set_ack (s : State) (n : Nat) :
    counts { s with xirq_trap_handler_ack := n } = counts s := rfl

@[simp] theorem counts_set_hpm (s : State) (n : Nat) :
    counts { s with num_hpm_cnts_global := n } = counts s := rfl

/-- The handlers dispatched by the hardware change neither a counter nor
the trace. -/
theorem run_handler_frame (s : State) (f : Handler) :
    (run_handler s f).cnt_test = s.cnt_test ∧ (run_handler s f).cnt_ok = s.cnt_ok ∧
      (run_handler s f).cnt_fail = s.cnt_fail ∧ (run_handler s f).trace = s.trace := by
  cases f <;> simp [run_handler, xirq_trap_handler0, xirq_trap_handler1]

theorem foldl_run_handler_frame (l : List Handler) (s : State) :
    (l.foldl run_handler s).cnt_test = s.cnt_test ∧
      (l.foldl run_handler s).cnt_ok = s.cnt_ok ∧
      (l.foldl run_handler s).cnt_fail = s.cnt_fail ∧
      (l.foldl run_handler s).trace = s.trace := by
  induction l generalizing s with
  | nil => simp
  | cons f l ih =>
    obtain ⟨h1, h2, h3, h4⟩ := run_handler_frame s f
    obtain ⟨i1, i2, i3, i4⟩ := ih (run_handler s f)
    simp only [List.foldl_cons]
    exact ⟨i1.trans h1, i2.trans h2, i3.trans h3, i4.trans h4⟩

@[simp] theorem foldl_run_handler_cnt_test (l : List Handler) (s : State) :
    (l.foldl run_handler s).cnt_test = s.cnt_test := (foldl_run_handler_frame l s).1

@[simp] theorem foldl_run_handler_cnt_ok (l : List Handler) (s : State) :
    (l.foldl run_handler s).cnt_ok = s.cnt_ok := (foldl_run_handler_frame l s).2.1

@[simp] theorem foldl_run_handler_cnt_fail (l : List Handler) (s : State) :
    (l.foldl run_handler s).cnt_fail = s.cnt_fail := (foldl_run_handler_frame l s).2.2.1

@[simp] theorem foldl_run_handler_trace (l : List Handler) (s : State) :
    (l.foldl run_handler s).trace = s.trace := (foldl_run_handler_frame l s).2.2.2

@[simp] theorem counts_foldl_run_handler (l : List Handler) (s : State) :
    counts (l.foldl run_handler s) = counts s := by
  simp [counts]

/-- A fold of steps that leave the counters alone and add no `count` entry
leaves the counters and the counted cases alone. -/
theorem foldl_frame {α : Type} (f : State → α → State)
    (hf : ∀ s a, (f s a).cnt_test = s.cnt_test ∧ (f s a).cnt_ok = s.cnt_ok ∧
      (f s a).cnt_fail = s.cnt_fail ∧ counts (f s a) = counts s)
    (l : List α) (s : State) :
    (l.foldl f s).cnt_test = s.cnt_test ∧ (l.foldl f s).cnt_ok = s.cnt_ok ∧
      (l.foldl f s).cnt_fail = s.cnt_fail ∧ counts (l.foldl f s) = counts s := by
  induction l generalizing s with
  | nil => simp
  | cons a l ih =>
    obtain ⟨h1, h2, h3, h4⟩ := hf s a
    obtain ⟨i1, i2, i3, i4⟩ := ih (f s a)
    simp only [List.foldl_cons]
    exact ⟨i1.trans h1, i2.trans h2, i3.trans h3, i4.trans h4⟩

theorem hpm_configure_frame (s : State) (p : Nat × Nat) :
    (hpm_configure s p).cnt_test = s.cnt_test ∧ (hpm_configure s p).cnt_ok = s.cnt_ok ∧
      (hpm_configure s p).cnt_fail = s.cnt_fail ∧ counts (hpm_configure s p) = counts s := by
  simp [hpm_configure, csr_write, counts_emit, Event.counted]

@[simp] theorem foldl_hpm_configure_cnt_test (l : List (Nat × Nat)) (s : State) :
    (l.foldl hpm_configure s).cnt_test = s.cnt_test :=
  (foldl_frame hpm_configure hpm_configure_frame l s).1

@[simp] theorem foldl_hpm_configure_cnt_ok (l : List (Nat × Nat)) (s : State) :
    (l.foldl hpm_configure s).cnt_ok = s.cnt_ok :=
  (foldl_frame hpm_configure hpm_configure_frame l s).2.1

@[simp] theorem foldl_hpm_configure_cnt_fail (l : List (Nat × Nat)) (s : State) :
    (l.foldl hpm_configure s).cnt_fail = s.cnt_fail :=
  (foldl_frame hpm_configure hpm_configure_frame l s).2.2.1

theorem counts_foldl_hpm_configure (l : List (Nat × Nat)) (s : State) :
    counts (l.foldl hpm_configure s) = counts s :=
  (foldl_frame hpm_configure hpm_configure_frame l s).2.2.2

@[simp] theorem filterMap_foldl_hpm_configure (l : List (Nat × Nat)) (s : State) :
    List.filterMap Event.counted (l.foldl hpm_configure s).trace =
      List.filterMap Event.counted s.trace :=
  counts_foldl_hpm_configure l s


/-! ## What one case does to the ledger

For every case: if its applicability check succeeds the case is counted once
and records exactly one verdict, otherwise it counts nothing and records
nothing. -/

theorem case_cycle_spec (b : Build) (h : Neorv32H) (caps : Caps) (r : Resp) (s : State) :
    (applicable b h caps CaseId.cycle → ran_once CaseId.cycle s (case_cycle h r s)) ∧
      (¬ applicable b h caps CaseId.cycle → skipped s (case_cycle h r s)) := by
  simp only [applicable, case_cycle]
  split_ifs <;>
    simp_all [ran_once, skipped, recorded_passed, recorded_failed,
      counters_unchanged, csr_write, csr_read, call, asm, goto_user_mode,
      sim_irq_trigger, io_set_bit, io_clear_bit, counts, List.filterMap_append,
      Event.counted, EXT_MEM_BASE]

theorem case_instret_spec (b : Build) (h : Neorv32H) (caps : Caps) (r : Resp) (s : State) :
    (applicable b h caps CaseId.instret → ran_once CaseId.instret s (case_instret h r s)) ∧
      (¬ applicable b h caps CaseId.instret → skipped s (case_instret h r s)) := by
  simp only [applicable, case_instret]
  split_ifs <;>
    simp_all [ran_once, skipped, recorded_passed, recorded_failed,
      counters_unchanged, csr_write, csr_read, call, asm, goto_user_mode,
      sim_irq_trigger, io_set_bit, io_clear_bit, counts, List.filterMap_append,
      Event.counted, EXT_MEM_BASE]

theorem case_mcountinhibit_cy_spec (b : Build) (h : Neorv32H) (caps : Caps) (r : Resp) (s : State) :
    (applicable b h caps CaseId.mcountinhibit_cy → ran_once CaseId.mcountinhibit_cy s (case_mcountinhibit_cy h r s)) ∧
      (¬ applicable b h caps CaseId.mcountinhibit_cy → skipped s (case_mcountinhibit_cy h r s)) := by
  simp only [applicable, case_mcountinhibit_cy]
  split_ifs <;>
    simp_all [ran_once, skipped, recorded_passed, recorded_failed,
      counters_unchanged, csr_write, csr_read, call, asm, goto_user_mode,
      sim_irq_trigger, io_set_bit, io_clear_bit, counts, List.filterMap_append,
      Event.counted, EXT_MEM_BASE]

theorem case_mcounteren_cy_spec (b : Build) (h : Neorv32H) (caps : Caps) (r : Resp) (s : State) :
    (applicable b h caps CaseId.mcounteren_cy → ran_once CaseId.mcounteren_cy s (case_mcounteren_cy h caps r s)) ∧
      (¬ applicable b h caps CaseId.mcounteren_cy → skipped s (case_mcounteren_cy h caps r s)) := by
  simp only [applicable, case_mcounteren_cy]
  split_ifs <;>
    simp_all [ran_once, skipped, recorded_passed, recorded_failed,
      counters_unchanged, csr_write, csr_read, call, asm, goto_user_mode,
      sim_irq_trigger, io_set_bit, io_clear_bit, counts, List.filterMap_append,
      Event.counted, EXT_MEM_BASE]

theorem case_hpm_events_spec (b : Build) (h : Neorv32H) (caps : Caps) (r : Resp) (s : State) :
    (applicable b h caps CaseId.hpm_events → ran_once CaseId.hpm_events s (case_hpm_events h caps r s)) ∧
      (¬ applicable b h caps CaseId.hpm_events → skipped s (case_hpm_events h caps r s)) := by
  simp only [applicable, case_hpm_events]
  split_ifs <;>
    simp_all [ran_once, skipped, recorded_passed, recorded_failed,
      counters_unchanged, csr_write, csr_read, call, asm, goto_user_mode,
      sim_irq_trigger, io_set_bit, io_clear_bit, counts, List.filterMap_append,
      Event.counted, EXT_MEM_BASE]

theorem case_ext_mem_spec (b : Build) (h : Neorv32H) (caps : Caps) (r : Resp) (s : State) :
    (applicable b h caps CaseId.ext_mem → ran_once CaseId.ext_mem s (case_ext_mem h caps r s)) ∧
      (¬ applicable b h caps CaseId.ext_mem → skipped s (case_ext_mem h caps r s)) := by
  simp only [applicable, case_ext_mem]
  split_ifs <;>
    simp_all [ran_once, skipped, recorded_passed, recorded_failed,
      counters_unchanged, csr_write, csr_read, call, asm, goto_user_mode,
      sim_irq_trigger, io_set_bit, io_clear_bit, counts, List.filterMap_append,
      Event.counted, EXT_MEM_BASE]

theorem case_fence_i_spec (b : Build) (h : Neorv32H) (caps : Caps) (r : Resp) (s : State) :
    (applicable b h caps CaseId.fence_i → ran_once CaseId.fence_i s (case_fence_i r s)) ∧
      (¬ applicable b h caps CaseId.fence_i → skipped s (case_fence_i r s)) := by
  simp only [applicable, case_fence_i]
  split_ifs <;>
    simp_all [ran_once, skipped, recorded_passed, recorded_failed,
      counters_unchanged, csr_write, csr_read, call, asm, goto_user_mode,
      sim_irq_trigger, io_set_bit, io_clear_bit, counts, List.filterMap_append,
      Event.counted, EXT_MEM_BASE]

theorem case_csr_nonexistent_spec (b : Build) (h : Neorv32H) (caps : Caps) (r : Resp) (s : State) :
    (applicable b h caps CaseId.csr_nonexistent → ran_once CaseId.csr_nonexistent s (case_csr_nonexistent h r s)) ∧
      (¬ applicable b h caps CaseId.csr_nonexistent → skipped s (case_csr_nonexistent h r s)) := by
  simp only [applicable, case_csr_nonexistent]
  split_ifs <;>
    simp_all [ran_once, skipped, recorded_passed, recorded_failed,
      counters_unchanged, csr_write, csr_read, call, asm, goto_user_mode,
      sim_irq_trigger, io_set_bit, io_clear_bit, counts, List.filterMap_append,
      Event.counted, EXT_MEM_BASE]

theorem case_csr_ro_write_spec (b : Build) (h : Neorv32H) (caps : Caps) (r : Resp) (s : State) :
    (applicable b h caps CaseId.csr_ro_write → ran_once CaseId.csr_ro_write s (case_csr_ro_write h r s)) ∧
      (¬ applicable b h caps CaseId.csr_ro_write → skipped s (case_csr_ro_write h r s)) := by
  simp only [applicable, case_csr_ro_write]
  split_ifs <;>
    simp_all [ran_once, skipped, recorded_passed, recorded_failed,
      counters_unchanged, csr_write, csr_read, call, asm, goto_user_mode,
      sim_irq_trigger, io_set_bit, io_clear_bit, counts, List.filterMap_append,
      Event.counted, EXT_MEM_BASE]

theorem case_csr_ro_no_write_spec (b : Build) (h : Neorv32H) (caps : Caps) (r : Resp) (s : State) :
    (applicable b h caps CaseId.csr_ro_no_write → ran_once CaseId.csr_ro_no_write s (case_csr_ro_no_write r s)) ∧
      (¬ applicable b h caps CaseId.csr_ro_no_write → skipped s (case_csr_ro_no_write r s)) := by
  simp only [applicable, case_csr_ro_no_write]
  split_ifs <;>
    simp_all [ran_once, skipped, recorded_passed, recorded_failed,
      counters_unchanged, csr_write, csr_read, call, asm, goto_user_mode,
      sim_irq_trigger, io_set_bit, io_clear_bit, counts, List.filterMap_append,
      Event.counted, EXT_MEM_BASE]

theorem case_pending_irq_spec (b : Build) (h : Neorv32H) (caps : Caps) (r : Resp) (s : State) :
    (applicable b h caps CaseId.pending_irq → ran_once CaseId.pending_irq s (case_pending_irq h r s)) ∧
      (¬ applicable b h caps CaseId.pending_irq → skipped s (case_pending_irq h r s)) := by
  simp only [applicable, case_pending_irq]
  split_ifs <;>
    simp_all [ran_once, skipped, recorded_passed, recorded_failed,
      counters_unchanged, csr_write, csr_read, call, asm, goto_user_mode,
      sim_irq_trigger, io_set_bit, io_clear_bit, counts, List.filterMap_append,
      Event.counted, EXT_MEM_BASE]

theorem case_i_align_spec (b : Build) (h : Neorv32H) (caps : Caps) (r : Resp) (s : State) :
    (applicable b h caps CaseId.i_align → ran_once CaseId.i_align s (case_i_align h caps r s)) ∧
      (¬ applicable b h caps CaseId.i_align → skipped s (case_i_align h caps r s)) := by
  simp only [applicable, case_i_align]
  split_ifs <;>
    simp_all [ran_once, skipped, recorded_passed, recorded_failed,
      counters_unchanged, csr_write, csr_read, call, asm, goto_user_mode,
      sim_irq_trigger, io_set_bit, io_clear_bit, counts, List.filterMap_append,
      Event.counted, EXT_MEM_BASE]

theorem case_i_acc_spec (b : Build) (h : Neorv32H) (caps : Caps) (r : Resp) (s : State) :
    (applicable b h caps CaseId.i_acc → ran_once CaseId.i_acc s (case_i_acc h r s)) ∧
      (¬ applicable b h caps CaseId.i_acc → skipped s (case_i_acc h r s)) := by
  simp only [applicable, case_i_acc]
  split_ifs <;>
    simp_all [ran_once, skipped, recorded_passed, recorded_failed,
      counters_unchanged, csr_write, csr_read, call, asm, goto_user_mode,
      sim_irq_trigger, io_set_bit, io_clear_bit, counts, List.filterMap_append,
      Event.counted, EXT_MEM_BASE]

theorem case_i_illeg_spec (b : Build) (h : Neorv32H) (caps : Caps) (r : Resp) (s : State) :
    (applicable b h caps CaseId.i_illeg → ran_once CaseId.i_illeg s (case_i_illeg h r s)) ∧
      (¬ applicable b h caps CaseId.i_illeg → skipped s (case_i_illeg h r s)) := by
  simp only [applicable, case_i_illeg]
  split_ifs <;>
    simp_all [ran_once, skipped, recorded_passed, recorded_failed,
      counters_unchanged, csr_write, csr_read, call, asm, goto_user_mode,
      sim_irq_trigger, io_set_bit, io_clear_bit, counts, List.filterMap_append,
      Event.counted, EXT_MEM_BASE]

theorem case_ci_illeg_spec (b : Build) (h : Neorv32H) (caps : Caps) (r : Resp) (s : State) :
    (applicable b h caps CaseId.ci_illeg → ran_once CaseId.ci_illeg s (case_ci_illeg h caps r s)) ∧
      (¬ applicable b h caps CaseId.ci_illeg → skipped s (case_ci_illeg h caps r s)) := by
  simp only [applicable, case_ci_illeg]
  split_ifs <;>
    simp_all [ran_once, skipped, recorded_passed, recorded_failed,
      counters_unchanged, csr_write, csr_read, call, asm, goto_user_mode,
      sim_irq_trigger, io_set_bit, io_clear_bit, counts, List.filterMap_append,
      Event.counted, EXT_MEM_BASE]

theorem case_break_spec (b : Build) (h : Neorv32H) (caps : Caps) (r : Resp) (s : State) :
    (applicable b h caps CaseId.break_instr → ran_once CaseId.break_instr s (case_break h r s)) ∧
      (¬ applicable b h caps CaseId.break_instr → skipped s (case_break h r s)) := by
  simp only [applicable, case_break]
  split_ifs <;>
    simp_all [ran_once, skipped, recorded_passed, recorded_failed,
      counters_unchanged, csr_write, csr_read, call, asm, goto_user_mode,
      sim_irq_trigger, io_set_bit, io_clear_bit, counts, List.filterMap_append,
      Event.counted, EXT_MEM_BASE]

theorem case_l_align_spec (b : Build) (h : Neorv32H) (caps : Caps) (r : Resp) (s : State) :
    (applicable b h caps CaseId.l_align → ran_once CaseId.l_align s (case_l_align h r s)) ∧
      (¬ applicable b h caps CaseId.l_align → skipped s (case_l_align h r s)) := by
  simp only [applicable, case_l_align]
  split_ifs <;>
    simp_all [ran_once, skipped, recorded_passed, recorded_failed,
      counters_unchanged, csr_write, csr_read, call, asm, goto_user_mode,
      sim_irq_trigger, io_set_bit, io_clear_bit, counts, List.filterMap_append,
      Event.counted, EXT_MEM_BASE]

theorem case_l_acc_spec (b : Build) (h : Neorv32H) (caps : Caps) (r : Resp) (s : State) :
    (applicable b h caps CaseId.l_acc → ran_once CaseId.l_acc s (case_l_acc h r s)) ∧
      (¬ applicable b h caps CaseId.l_acc → skipped s (case_l_acc h r s)) := by
  simp only [applicable, case_l_acc]
  split_ifs <;>
    simp_all [ran_once, skipped, recorded_passed, recorded_failed,
      counters_unchanged, csr_write, csr_read, call, asm, goto_user_mode,
      sim_irq_trigger, io_set_bit, io_clear_bit, counts, List.filterMap_append,
      Event.counted, EXT_MEM_BASE]

theorem case_s_align_spec (b : Build) (h : Neorv32H) (caps : Caps) (r : Resp) (s : State) :
    (applicable b h caps CaseId.s_align → ran_once CaseId.s_align s (case_s_align h r s)) ∧
      (¬ applicable b h caps CaseId.s_align → skipped s (case_s_align h r s)) := by
  simp only [applicable, case_s_align]
  split_ifs <;>
    simp_all [ran_once, skipped, recorded_passed, recorded_failed,
      counters_unchanged, csr_write, csr_read, call, asm, goto_user_mode,
      sim_irq_trigger, io_set_bit, io_clear_bit, counts, List.filterMap_append,
      Event.counted, EXT_MEM_BASE]

theorem case_s_acc_spec (b : Build) (h : Neorv32H) (caps : Caps) (r : Resp) (s : State) :
    (applicable b h caps CaseId.s_acc → ran_once CaseId.s_acc s (case_s_acc h r s)) ∧
      (¬ applicable b h caps CaseId.s_acc → skipped s (case_s_acc h r s)) := by
  simp only [applicable, case_s_acc]
  split_ifs <;>
    simp_all [ran_once, skipped, recorded_passed, recorded_failed,
      counters_unchanged, csr_write, csr_read, call, asm, goto_user_mode,
      sim_irq_trigger, io_set_bit, io_clear_bit, counts, List.filterMap_append,
      Event.counted, EXT_MEM_BASE]

theorem case_ecall_m_spec (b : Build) (h : Neorv32H) (caps : Caps) (r : Resp) (s : State) :
    (applicable b h caps CaseId.ecall_m → ran_once CaseId.ecall_m s (case_ecall_m h r s)) ∧
      (¬ applicable b h caps CaseId.ecall_m → skipped s (case_ecall_m h r s)) := by
  simp only [applicable, case_ecall_m]
  split_ifs <;>
    simp_all [ran_once, skipped, recorded_passed, recorded_failed,
      counters_unchanged, csr_write, csr_read, call, asm, goto_user_mode,
      sim_irq_trigger, io_set_bit, io_clear_bit, counts, List.filterMap_append,
      Event.counted, EXT_MEM_BASE]

theorem case_ecall_u_spec (b : Build) (h : Neorv32H) (caps : Caps) (r : Resp) (s : State) :
    (applicable b h caps CaseId.ecall_u → ran_once CaseId.ecall_u s (case_ecall_u h caps r s)) ∧
      (¬ applicable b h caps CaseId.ecall_u → skipped s (case_ecall_u h caps r s)) := by
  simp only [applicable, case_ecall_u]
  split_ifs <;>
    simp_all [ran_once, skipped, recorded_passed, recorded_failed,
      counters_unchanged, csr_write, csr_read, call, asm, goto_user_mode,
      sim_irq_trigger, io_set_bit, io_clear_bit, counts, List.filterMap_append,
      Event.counted, EXT_MEM_BASE]

theorem case_mti_spec (b : Build) (h : Neorv32H) (caps : Caps) (r : Resp) (s : State) :
    (applicable b h caps CaseId.mti → ran_once CaseId.mti s (case_mti h r s)) ∧
      (¬ applicable b h caps CaseId.mti → skipped s (case_mti h r s)) := by
  simp only [applicable, case_mti]
  split_ifs <;>
    simp_all [ran_once, skipped, recorded_passed, recorded_failed,
      counters_unchanged, csr_write, csr_read, call, asm, goto_user_mode,
      sim_irq_trigger, io_set_bit, io_clear_bit, counts, List.filterMap_append,
      Event.counted, EXT_MEM_BASE]

theorem case_msi_spec (b : Build) (h : Neorv32H) (caps : Caps) (r : Resp) (s : State) :
    (applicable b h caps CaseId.msi → ran_once CaseId.msi s (case_msi h r s)) ∧
      (¬ applicable b h caps CaseId.msi → skipped s (case_msi h r s)) := by
  simp only [applicable, case_msi]
  split_ifs <;>
    simp_all [ran_once, skipped, recorded_passed, recorded_failed,
      counters_unchanged, csr_write, csr_read, call, asm, goto_user_mode,
      sim_irq_trigger, io_set_bit, io_clear_bit, counts, List.filterMap_append,
      Event.counted, EXT_MEM_BASE]

theorem case_mei_spec (b : Build) (h : Neorv32H) (caps : Caps) (r : Resp) (s : State) :
    (applicable b h caps CaseId.mei → ran_once CaseId.mei s (case_mei h r s)) ∧
      (¬ applicable b h caps CaseId.mei → skipped s (case_mei h r s)) := by
  simp only [applicable, case_mei]
  split_ifs <;>
    simp_all [ran_once, skipped, recorded_passed, recorded_failed,
      counters_unchanged, csr_write, csr_read, call, asm, goto_user_mode,
      sim_irq_trigger, io_set_bit, io_clear_bit, counts, List.filterMap_append,
      Event.counted, EXT_MEM_BASE]

theorem case_nmi_spec (b : Build) (h : Neorv32H) (caps : Caps) (r : Resp) (s : State) :
    (applicable b h caps CaseId.nmi → ran_once CaseId.nmi s (case_nmi h r s)) ∧
      (¬ applicable b h caps CaseId.nmi → skipped s (case_nmi h r s)) := by
  simp only [applicable, case_nmi]
  split_ifs <;>
    simp_all [ran_once, skipped, recorded_passed, recorded_failed,
      counters_unchanged, csr_write, csr_read, call, asm, goto_user_mode,
      sim_irq_trigger, io_set_bit, io_clear_bit, counts, List.filterMap_append,
      Event.counted, EXT_MEM_BASE]

theorem case_firq0_spec (b : Build) (h : Neorv32H) (caps : Caps) (r : Resp) (s : State) :
    (applicable b h caps CaseId.firq0 → ran_once CaseId.firq0 s (case_firq0 h caps r s)) ∧
      (¬ applicable b h caps CaseId.firq0 → skipped s (case_firq0 h caps r s)) := by
  simp only [applicable, case_firq0]
  split_ifs <;>
    simp_all [ran_once, skipped, recorded_passed, recorded_failed,
      counters_unchanged, csr_write, csr_read, call, asm, goto_user_mode,
      sim_irq_trigger, io_set_bit, io_clear_bit, counts, List.filterMap_append,
      Event.counted, EXT_MEM_BASE]

theorem case_firq2_spec (b : Build) (h : Neorv32H) (caps : Caps) (r : Resp) (s : State) :
    (applicable b h caps CaseId.firq2 → ran_once CaseId.firq2 s (case_firq2 h caps r s)) ∧
      (¬ applicable b h caps CaseId.firq2 → skipped s (case_firq2 h caps r s)) := by
  simp only [applicable, case_firq2]
  split_ifs <;>
    simp_all [ran_once, skipped, recorded_passed, recorded_failed,
      counters_unchanged, csr_write, csr_read, call, asm, goto_user_mode,
      sim_irq_trigger, io_set_bit, io_clear_bit, counts, List.filterMap_append,
      Event.counted, EXT_MEM_BASE]

theorem case_firq3_spec (b : Build) (h : Neorv32H) (caps : Caps) (r : Resp) (s : State) :
    (applicable b h caps CaseId.firq3 → ran_once CaseId.firq3 s (case_firq3 h caps r s)) ∧
      (¬ applicable b h caps CaseId.firq3 → skipped s (case_firq3 h caps r s)) := by
  simp only [applicable, case_firq3]
  split_ifs <;>
    simp_all [ran_once, skipped, recorded_passed, recorded_failed,
      counters_unchanged, csr_write, csr_read, call, asm, goto_user_mode,
      sim_irq_trigger, io_set_bit, io_clear_bit, counts, List.filterMap_append,
      Event.counted, EXT_MEM_BASE]

theorem case_firq4_spec (b : Build) (h : Neorv32H) (caps : Caps) (r : Resp) (s : State) :
    (applicable b h caps CaseId.firq4 → ran_once CaseId.firq4 s (case_firq4 h caps r s)) ∧
      (¬ applicable b h caps CaseId.firq4 → skipped s (case_firq4 h caps r s)) := by
  simp only [applicable, case_firq4]
  split_ifs <;>
    simp_all [ran_once, skipped, recorded_passed, recorded_failed,
      counters_unchanged, csr_write, csr_read, call, asm, goto_user_mode,
      sim_irq_trigger, io_set_bit, io_clear_bit, counts, List.filterMap_append,
      Event.counted, EXT_MEM_BASE]

theorem case_firq5_spec (b : Build) (h : Neorv32H) (caps : Caps) (r : Resp) (s : State) :
    (applicable b h caps CaseId.firq5 → ran_once CaseId.firq5 s (case_firq5 h caps r s)) ∧
      (¬ applicable b h caps CaseId.firq5 → skipped s (case_firq5 h caps r s)) := by
  simp only [applicable, case_firq5]
  split_ifs <;>
    simp_all [ran_once, skipped, recorded_passed, recorded_failed,
      counters_unchanged, csr_write, csr_read, call, asm, goto_user_mode,
      sim_irq_trigger, io_set_bit, io_clear_bit, counts, List.filterMap_append,
      Event.counted, EXT_MEM_BASE]

theorem case_firq6_spec (b : Build) (h : Neorv32H) (caps : Caps) (r : Resp) (s : State) :
    (applicable b h caps CaseId.firq6 → ran_once CaseId.firq6 s (case_firq6 h caps r s)) ∧
      (¬ applicable b h caps CaseId.firq6 → skipped s (case_firq6 h caps r s)) := by
  simp only [applicable, case_firq6]
  split_ifs <;>
    simp_all [ran_once, skipped, recorded_passed, recorded_failed,
      counters_unchanged, csr_write, csr_read, call, asm, goto_user_mode,
      sim_irq_trigger, io_set_bit, io_clear_bit, counts, List.filterMap_append,
      Event.counted, EXT_MEM_BASE]

theorem case_firq7_spec (b : Build) (h : Neorv32H) (caps : Caps) (r : Resp) (s : State) :
    (applicable b h caps CaseId.firq7 → ran_once CaseId.firq7 s (case_firq7 h caps r s)) ∧
      (¬ applicable b h caps CaseId.firq7 → skipped s (case_firq7 h caps r s)) := by
  simp only [applicable, case_firq7]
  split_ifs <;>
    simp_all [ran_once, skipped, recorded_passed, recorded_failed,
      counters_unchanged, csr_write, csr_read, call, asm, goto_user_mode,
      sim_irq_trigger, io_set_bit, io_clear_bit, counts, List.filterMap_append,
      Event.counted, EXT_MEM_BASE]

theorem case_firq8_spec (b : Build) (h : Neorv32H) (caps : Caps) (r : Resp) (s : State) :
    (applicable b h caps CaseId.firq8 → ran_once CaseId.firq8 s (case_firq8 h caps r s)) ∧
      (¬ applicable b h caps CaseId.firq8 → skipped s (case_firq8 h caps r s)) := by
  simp only [applicable, case_firq8]
  split_ifs <;>
    simp_all [ran_once, skipped, recorded_passed, recorded_failed,
      counters_unchanged, csr_write, csr_read, call, asm, goto_user_mode,
      sim_irq_trigger, io_set_bit, io_clear_bit, counts, List.filterMap_append,
      Event.counted, EXT_MEM_BASE]

theorem case_firq10_11_spec (b : Build) (h : Neorv32H) (caps : Caps) (r : Resp) (s : State) :
    (applicable b h caps CaseId.firq10_11 → ran_once CaseId.firq10_11 s (case_firq10_11 h caps r s)) ∧
      (¬ applicable b h caps CaseId.firq10_11 → skipped s (case_firq10_11 h caps r s)) := by
  simp only [applicable, case_firq10_11]
  split_ifs <;>
    simp_all [ran_once, skipped, recorded_passed, recorded_failed,
      counters_unchanged, csr_write, csr_read, call, asm, goto_user_mode,
      sim_irq_trigger, io_set_bit, io_clear_bit, counts, List.filterMap_append,
      Event.counted, EXT_MEM_BASE]

theorem case_wfi_spec (b : Build) (h : Neorv32H) (caps : Caps) (r : Resp) (s : State) :
    (applicable b h caps CaseId.wfi → ran_once CaseId.wfi s (case_wfi h r s)) ∧
      (¬ applicable b h caps CaseId.wfi → skipped s (case_wfi h r s)) := by
  simp only [applicable, case_wfi]
  split_ifs <;>
    simp_all [ran_once, skipped, recorded_passed, recorded_failed,
      counters_unchanged, csr_write, csr_read, call, asm, goto_user_mode,
      sim_irq_trigger, io_set_bit, io_clear_bit, counts, List.filterMap_append,
      Event.counted, EXT_MEM_BASE]

theorem case_csr_user_spec (b : Build) (h : Neorv32H) (caps : Caps) (r : Resp) (s : State) :
    (applicable b h caps CaseId.csr_user → ran_once CaseId.csr_user s (case_csr_user h caps r s)) ∧
      (¬ applicable b h caps CaseId.csr_user → skipped s (case_csr_user h caps r s)) := by
  simp only [applicable, case_csr_user]
  split_ifs <;>
    simp_all [ran_once, skipped, recorded_passed, recorded_failed,
      counters_unchanged, csr_write, csr_read, call, asm, goto_user_mode,
      sim_irq_trigger, io_set_bit, io_clear_bit, counts, List.filterMap_append,
      Event.counted, EXT_MEM_BASE]

theorem case_rte_debug_spec (b : Build) (h : Neorv32H) (caps : Caps) (r : Resp) (s : State) :
    (applicable b h caps CaseId.rte_debug → ran_once CaseId.rte_debug s (case_rte_debug b h r s)) ∧
      (¬ applicable b h caps CaseId.rte_debug → skipped s (case_rte_debug b h r s)) := by
  simp only [applicable, case_rte_debug]
  split_ifs <;>
    simp_all [ran_once, skipped, recorded_passed, recorded_failed,
      counters_unchanged, csr_write, csr_read, call, asm, goto_user_mode,
      sim_irq_trigger, io_set_bit, io_clear_bit, counts, List.filterMap_append,
      Event.counted, EXT_MEM_BASE]

theorem case_lrsc_ok_spec (b : Build) (h : Neorv32H) (caps : Caps) (r : Resp) (s : State) :
    (applicable b h caps CaseId.lrsc_ok → ran_once CaseId.lrsc_ok s (case_lrsc_ok b h caps r s)) ∧
      (¬ applicable b h caps CaseId.lrsc_ok → skipped s (case_lrsc_ok b h caps r s)) := by
  simp only [applicable, case_lrsc_ok]
  split_ifs <;>
    simp_all [ran_once, skipped, recorded_passed, recorded_failed,
      counters_unchanged, csr_write, csr_read, call, asm, goto_user_mode,
      sim_irq_trigger, io_set_bit, io_clear_bit, counts, List.filterMap_append,
      Event.counted, EXT_MEM_BASE]

theorem case_lrsc_fail1_spec (b : Build) (h : Neorv32H) (caps : Caps) (r : Resp) (s : State) :
    (applicable b h caps CaseId.lrsc_fail1 → ran_once CaseId.lrsc_fail1 s (case_lrsc_fail1 b h caps r s)) ∧
      (¬ applicable b h caps CaseId.lrsc_fail1 → skipped s (case_lrsc_fail1 b h caps r s)) := by
  simp only [applicable, case_lrsc_fail1]
  split_ifs <;>
    simp_all [ran_once, skipped, recorded_passed, recorded_failed,
      counters_unchanged, csr_write, csr_read, call, asm, goto_user_mode,
      sim_irq_trigger, io_set_bit, io_clear_bit, counts, List.filterMap_append,
      Event.counted, EXT_MEM_BASE]

theorem case_lrsc_fail2_spec (b : Build) (h : Neorv32H) (caps : Caps) (r : Resp) (s : State) :
    (applicable b h caps CaseId.lrsc_fail2 → ran_once CaseId.lrsc_fail2 s (case_lrsc_fail2 b h caps r s)) ∧
      (¬ applicable b h caps CaseId.lrsc_fail2 → skipped s (case_lrsc_fail2 b h caps r s)) := by
  simp only [applicable, case_lrsc_fail2]
  split_ifs <;>
    simp_all [ran_once, skipped, recorded_passed, recorded_failed,
      counters_unchanged, csr_write, csr_read, call, asm, goto_user_mode,
      sim_irq_trigger, io_set_bit, io_clear_bit, counts, List.filterMap_append,
      Event.counted, EXT_MEM_BASE]

theorem case_pmp_create_spec (caps : Caps) (r : Resp) (s : State) :
    ran_once CaseId.pmp_create s ((case_pmp_create caps r s).1) := by
  simp only [case_pmp_create]
  split_ifs <;>
    simp_all [ran_once, skipped, recorded_passed, recorded_failed,
      counters_unchanged, csr_write, csr_read, call, asm, goto_user_mode,
      sim_irq_trigger, io_set_bit, io_clear_bit, counts, List.filterMap_append,
      Event.counted, EXT_MEM_BASE]

theorem case_pmp_execute_spec (r : Resp) (tmp_a : Nat) (s : State) :
    ran_once CaseId.pmp_execute s (case_pmp_execute r tmp_a s) := by
  simp only [case_pmp_execute]
  split_ifs <;>
    simp_all [ran_once, skipped, recorded_passed, recorded_failed,
      counters_unchanged, csr_write, csr_read, call, asm, goto_user_mode,
      sim_irq_trigger, io_set_bit, io_clear_bit, counts, List.filterMap_append,
      Event.counted, EXT_MEM_BASE]

theorem case_pmp_read_spec (h : Neorv32H) (r : Resp) (tmp_a : Nat) (s : State) :
    ran_once CaseId.pmp_read s (case_pmp_read h r tmp_a s) := by
  simp only [case_pmp_read]
  split_ifs <;>
    simp_all [ran_once, skipped, recorded_passed, recorded_failed,
      counters_unchanged, csr_write, csr_read, call, asm, goto_user_mode,
      sim_irq_trigger, io_set_bit, io_clear_bit, counts, List.filterMap_append,
      Event.counted, EXT_MEM_BASE]

theorem case_pmp_write_spec (h : Neorv32H) (r : Resp) (tmp_a : Nat) (s : State) :
    ran_once CaseId.pmp_write s (case_pmp_write h r tmp_a s) := by
  simp only [case_pmp_write]
  split_ifs <;>
    simp_all [ran_once, skipped, recorded_passed, recorded_failed,
      counters_unchanged, csr_write, csr_read, call, asm, goto_user_mode,
      sim_irq_trigger, io_set_bit, io_clear_bit, counts, List.filterMap_append,
      Event.counted, EXT_MEM_BASE]

theorem case_pmp_lock_spec (r : Resp) (s : State) :
    ran_once CaseId.pmp_lock s (case_pmp_lock r s) := by
  simp only [case_pmp_lock]
  split_ifs <;>
    simp_all [ran_once, skipped, recorded_passed, recorded_failed,
      counters_unchanged, csr_write, csr_read, call, asm, goto_user_mode,
      sim_irq_trigger, io_set_bit, io_clear_bit, counts, List.filterMap_append,
      Event.counted, EXT_MEM_BASE]

/-- Every case other than the five PMP cases satisfies its specification. -/
theorem case_code_spec (b : Build) (h : Neorv32H) (caps : Caps) (r : Resp)
    (c : CaseId) (hc : c.is_pmp = false) (s : State) :
    (applicable b h caps c → ran_once c s (case_code b h caps r c s)) ∧
      (¬ applicable b h caps c → skipped s (case_code b h caps r c s)) := by
  cases c
  · exact case_cycle_spec b h caps r s
  · exact case_instret_spec b h caps r s
  · exact case_mcountinhibit_cy_spec b h caps r s
  · exact case_mcounteren_cy_spec b h caps r s
  · exact case_hpm_events_spec b h caps r s
  · exact case_ext_mem_spec b h caps r s
  · exact case_fence_i_spec b h caps r s
  · exact case_csr_nonexistent_spec b h caps r s
  · exact case_csr_ro_write_spec b h caps r s
  · exact case_csr_ro_no_write_spec b h caps r s
  · exact case_pending_irq_spec b h caps r s
  · exact case_i_align_spec b h caps r s
  · exact case_i_acc_spec b h caps r s
  · exact case_i_illeg_spec b h caps r s
  · exact case_ci_illeg_spec b h caps r s
  · exact case_break_spec b h caps r s
  · exact case_l_align_spec b h caps r s
  · exact case_l_acc_spec b h caps r s
  · exact case_s_align_spec b h caps r s
  · exact case_s_acc_spec b h caps r s
  · exact case_ecall_m_spec b h caps r s
  · exact case_ecall_u_spec b h caps r s
  · exact case_mti_spec b h caps r s
  · exact case_msi_spec b h caps r s
  · exact case_mei_spec b h caps r s
  · exact case_nmi_spec b h caps r s
  · exact case_firq0_spec b h caps r s
  · exact case_firq2_spec b h caps r s
  · exact case_firq3_spec b h caps r s
  · exact case_firq4_spec b h caps r s
  · exact case_firq5_spec b h caps r s
  · exact case_firq6_spec b h caps r s
  · exact case_firq7_spec b h caps r s
  · exact case_firq8_spec b h caps r s
  · exact case_firq10_11_spec b h caps r s
  · exact case_wfi_spec b h caps r s
  · exact case_csr_user_spec b h caps r s
  · exact case_rte_debug_spec b h caps r s
  · exact absurd hc (by decide)
  · exact absurd hc (by decide)
  · exact absurd hc (by decide)
  · exact absurd hc (by decide)
  · exact absurd hc (by decide)
  · exact case_lrsc_ok_spec b h caps r s
  · exact case_lrsc_fail1_spec b h caps r s
  · exact case_lrsc_fail2_spec b h caps r s

/-- Each of the five PMP cases is counted once and records exactly one
verdict. -/
theorem case_code_pmp_spec (b : Build) (h : Neorv32H) (caps : Caps) (r : Resp)
    (c : CaseId) (hc : c.is_pmp = true) (s : State) :
    ran_once c s (case_code b h caps r c s) := by
  cases c
  · exact absurd hc (by decide)
  · exact absurd hc (by decide)
  · exact absurd hc (by decide)
  · exact absurd hc (by decide)
  · exact absurd hc (by decide)
  · exact absurd hc (by decide)
  · exact absurd hc (by decide)
  · exact absurd hc (by decide)
  · exact absurd hc (by decide)
  · exact absurd hc (by decide)
  · exact absurd hc (by decide)
  · exact absurd hc (by decide)
  · exact absurd hc (by decide)
  · exact absurd hc (by decide)
  · exact absurd hc (by decide)
  · exact absurd hc (by decide)
  · exact absurd hc (by decide)
  · exact absurd hc (by decide)
  · exact absurd hc (by decide)
  · exact absurd hc (by decide)
  · exact absurd hc (by decide)
  · exact absurd hc (by decide)
  · exact absurd hc (by decide)
  · exact absurd hc (by decide)
  · exact absurd hc (by decide)
  · exact absurd hc (by decide)
  · exact absurd hc (by decide)
  · exact absurd hc (by decide)
  · exact absurd hc (by decide)
  · exact absurd hc (by decide)
  · exact absurd hc (by decide)
  · exact absurd hc (by decide)
  · exact absurd hc (by decide)
  · exact absurd hc (by decide)
  · exact absurd hc (by decide)
  · exact absurd hc (by decide)
  · exact absurd hc (by decide)
  · exact absurd hc (by decide)
  · exact case_pmp_create_spec caps r s
  · exact case_pmp_execute_spec r caps.SYSINFO_DSPACE_BASE s
  · exact case_pmp_read_spec h r caps.SYSINFO_DSPACE_BASE s
  · exact case_pmp_write_spec h r caps.SYSINFO_DSPACE_BASE s
  · exact case_pmp_lock_spec r s
  · exact absurd hc (by decide)
  · exact absurd hc (by decide)
  · exact absurd hc (by decide)

/-! ## Blocks and their composition -/

theorem applicable_of_single_pos (b : Build) (h : Neorv32H) (caps : Caps) (c : CaseId)
    (hc : applicable b h caps c) : applicable_of b h caps [c] = [c] := by
  simp [applicable_of, hc]

theorem applicable_of_single_neg (b : Build) (h : Neorv32H) (caps : Caps) (c : CaseId)
    (hc : ¬ applicable b h caps c) : applicable_of b h caps [c] = [] := by
  simp [applicable_of, hc]

theorem applicable_of_append (b : Build) (h : Neorv32H) (caps : Caps)
    (l₁ l₂ : List CaseId) :
    applicable_of b h caps (l₁ ++ l₂) =
      applicable_of b h caps l₁ ++ applicable_of b h caps l₂ := by
  simp [applicable_of]

/-- A case that satisfies its specification is a block of one case. -/
theorem block_of_case (b : Build) (h : Neorv32H) (caps : Caps) (c : CaseId)
    (f : State → State)
    (hf : ∀ s, (applicable b h caps c → ran_once c s (f s)) ∧
      (¬ applicable b h caps c → skipped s (f s))) :
    block_spec b h caps [c] f := by
  intro s
  by_cases hc : applicable b h caps c
  · obtain ⟨h1, h2, h3⟩ := (hf s).1 hc
    rw [applicable_of_single_pos b h caps c hc]
    rcases h3 with ⟨ho, hfl⟩ | ⟨ho, hfl⟩ <;>
      refine ⟨h2, by simpa using h1, ?_, ?_, ?_⟩ <;>
      (try simp only [List.length_cons, List.length_nil]) <;> omega
  · obtain ⟨⟨h1, h2, h3⟩, h4⟩ := (hf s).2 hc
    rw [applicable_of_single_neg b h caps c hc]
    refine ⟨by simpa using h4, by simpa using h1, ?_, ?_, ?_⟩ <;>
      (try simp only [List.length_nil]) <;> omega

/-- The empty piece of code is a block without cases. -/
theorem block_spec_nil (b : Build) (h : Neorv32H) (caps : Caps) :
    block_spec b h caps [] (fun s => s) := by
  intro s
  simp [applicable_of]

/-- Sequential composition of blocks. -/
theorem block_spec_seq (b : Build) (h : Neorv32H) (caps : Caps)
    (ids₁ ids₂ : List CaseId) (f g : State → State)
    (hf : block_spec b h caps ids₁ f) (hg : block_spec b h caps ids₂ g) :
    block_spec b h caps (ids₁ ++ ids₂) (fun s => g (f s)) := by
  intro s
  obtain ⟨f1, f2, f3, f4, f5⟩ := hf s
  obtain ⟨g1, g2, g3, g4, g5⟩ := hg (f s)
  rw [applicable_of_append]
  refine ⟨?_, ?_, ?_, ?_, ?_⟩
  · simp only [g1, f1, List.append_assoc]
  · simp only [g2, f2, List.length_append]; omega
  · simp only [g3, f3, List.length_append]; omega
  · exact le_trans f4 g4
  · exact le_trans f5 g5

/-- A block keeps the ledger equation. -/
theorem block_spec_ledger (b : Build) (h : Neorv32H) (caps : Caps) (ids : List CaseId)
    (f : State → State) (hf : block_spec b h caps ids f) (s : State)
    (hs : ledger_ok s) : ledger_ok (f s) := by
  obtain ⟨_, f2, f3, _, _⟩ := hf s
  unfold ledger_ok at *
  omega

theorem run_cases_nil (s : State) : run_cases [] s = s := rfl

theorem run_cases_cons (c : State → State) (cs : List (State → State)) (s : State) :
    run_cases (c :: cs) s = run_cases cs (c s) := rfl

/-- Blocks run one after the other form a block. -/
theorem run_cases_block (b : Build) (h : Neorv32H) (caps : Caps)
    (idss : List (List CaseId)) (cs : List (State → State))
    (hl : List.Forall₂ (block_spec b h caps) idss cs) :
    block_spec b h caps idss.flatten (run_cases cs) := by
  induction hl with
  | nil => exact block_spec_nil b h caps
  | @cons ids c idss cs hd _ ih =>
    have hrun : run_cases (c :: cs) = fun s => run_cases cs (c s) := rfl
    rw [List.flatten_cons, hrun]
    exact block_spec_seq b h caps _ _ _ _ hd ih

/-- Every piece of code related to some list of cases by `block_spec`
keeps the ledger equation. -/
theorem forall₂_block_ledger (b : Build) (h : Neorv32H) (caps : Caps)
    (idss : List (List CaseId)) (cs : List (State → State))
    (hl : List.Forall₂ (block_spec b h caps) idss cs) :
    ∀ c ∈ cs, ∀ s, ledger_ok s → ledger_ok (c s) := by
  induction hl with
  | nil => intro c hc; simp at hc
  | cons hd _ ih =>
    intro c hc s hs
    rcases List.mem_cons.mp hc with rfl | hc
    · exact block_spec_ledger b h caps _ _ hd s hs
    · exact ih c hc s hs

/-- Running any number of leading blocks keeps a property every block
keeps. -/
theorem run_cases_take_keeps (P : State → Prop) (cs : List (State → State))
    (hcs : ∀ c ∈ cs, ∀ s, P s → P (c s)) (n : Nat) (s : State) (hs : P s) :
    P (run_cases (cs.take n) s) := by
  induction cs generalizing n s with
  | nil => simpa [run_cases_nil] using hs
  | cons c cs ih =>
    cases n with
    | zero => simpa [run_cases_nil] using hs
    | succ n =>
      rw [List.take_succ_cons, run_cases_cons]
      exact ih (fun d hd => hcs d (List.mem_cons_of_mem c hd)) n (c s)
        (hcs c (List.mem_cons_self c cs) s hs)

/-! ## The PMP block -/

theorem case_pmp_create_tmp_a (caps : Caps) (r : Resp) (s : State) :
    (case_pmp_create caps r s).2.1 = caps.SYSINFO_DSPACE_BASE := rfl

/-- Behind its check the PMP block is the sequence of the five PMP cases. -/
theorem case_pmp_pos (h : Neorv32H) (caps : Caps) (r : Resp) (s : State)
    (hp : caps.pmp_get_num_regions ≠ 0) :
    case_pmp h caps r s =
      case_pmp_lock r
        (case_pmp_write h r caps.SYSINFO_DSPACE_BASE
          (case_pmp_read h r caps.SYSINFO_DSPACE_BASE
            (case_pmp_execute r caps.SYSINFO_DSPACE_BASE
              (case_pmp_create caps r (call LibFn.cpu_pmp_get_num_regions [] s)).1))) := by
  simp only [case_pmp, hp, ne_eq, not_false_eq_true, if_true]
  rfl

/-- With no PMP region the PMP block only performs the query. -/
theorem case_pmp_neg (h : Neorv32H) (caps : Caps) (r : Resp) (s : State)
    (hp : caps.pmp_get_num_regions = 0) :
    case_pmp h caps r s = call LibFn.cpu_pmp_get_num_regions [] s := by
  simp [case_pmp, hp]

theorem call_frame (f : LibFn) (args : List Nat) (s : State) :
    (call f args s).cnt_test = s.cnt_test ∧ (call f args s).cnt_ok = s.cnt_ok ∧
      (call f args s).cnt_fail = s.cnt_fail ∧ counts (call f args s) = counts s := by
  simp [call, counts, List.filterMap_append, Event.counted]

/-- A single case that is always counted is a block of that case, whatever
its applicability check says, as long as the check holds. -/
theorem block_of_ran_once (b : Build) (h : Neorv32H) (caps : Caps) (c : CaseId)
    (f : State → State) (hc : applicable b h caps c)
    (hf : ∀ s, ran_once c s (f s)) : block_spec b h caps [c] f :=
  block_of_case b h caps c f (fun s => ⟨fun _ => hf s, fun hn => absurd hc hn⟩)

theorem case_pmp_block (b : Build) (h : Neorv32H) (caps : Caps) (r : Resp) :
    block_spec b h caps
      [CaseId.pmp_create, CaseId.pmp_execute, CaseId.pmp_read, CaseId.pmp_write,
        CaseId.pmp_lock] (case_pmp h caps r) := by
  by_cases hp : caps.pmp_get_num_regions = 0
  · intro s
    have hn : applicable_of b h caps
        [CaseId.pmp_create, CaseId.pmp_execute, CaseId.pmp_read, CaseId.pmp_write,
          CaseId.pmp_lock] = [] := by
      simp [applicable_of, applicable, hp]
    obtain ⟨c1, c2, c3, c4⟩ := call_frame LibFn.cpu_pmp_get_num_regions [] s
    rw [hn, case_pmp_neg h caps r s hp]
    simp [c1, c2, c3, c4]
  · have hq : block_spec b h caps [] (fun s => call LibFn.cpu_pmp_get_num_regions [] s) := by
      intro s
      obtain ⟨c1, c2, c3, c4⟩ := call_frame LibFn.cpu_pmp_get_num_regions [] s
      simp [applicable_of, c1, c2, c3, c4]
    have h1 := block_of_ran_once b h caps CaseId.pmp_create
      (fun s => (case_pmp_create caps r s).1) hp (case_pmp_create_spec caps r)
    have h2 := block_of_ran_once b h caps CaseId.pmp_execute
      (case_pmp_execute r caps.SYSINFO_DSPACE_BASE) hp
      (case_pmp_execute_spec r caps.SYSINFO_DSPACE_BASE)
    have h3 := block_of_ran_once b h caps CaseId.pmp_read
      (case_pmp_read h r caps.SYSINFO_DSPACE_BASE) hp
      (case_pmp_read_spec h r caps.SYSINFO_DSPACE_BASE)
    have h4 := block_of_ran_once b h caps CaseId.pmp_write
      (case_pmp_write h r caps.SYSINFO_DSPACE_BASE) hp
      (case_pmp_write_spec h r caps.SYSINFO_DSPACE_BASE)
    have h5 := block_of_ran_once b h caps CaseId.pmp_lock (case_pmp_lock r) hp
      (case_pmp_lock_spec r)
    have hall := block_spec_seq b h caps _ _ _ _
      (block_spec_seq b h caps _ _ _ _
        (block_spec_seq b h caps _ _ _ _
          (block_spec_seq b h caps _ _ _ _ (block_spec_seq b h caps _ _ _ _ hq h1) h2)
          h3) h4) h5
    intro s
    have := hall s
    rw [case_pmp_pos h caps r s hp]
    simpa using this

/-! ## The blocks of `main` -/

/-- Every block of `main_cases` is a block for the cases listed for it in
`main_block_ids`. -/
theorem main_cases_blocks (b : Build) (h : Neorv32H) (caps : Caps) (r : Resp) :
    List.Forall₂ (block_spec b h caps) main_block_ids (main_cases b h caps r) :=
  List.Forall₂.cons (block_of_case b h caps CaseId.cycle _ (case_cycle_spec b h caps r)) <|
  List.Forall₂.cons (block_of_case b h caps CaseId.instret _ (case_instret_spec b h caps r)) <|
  List.Forall₂.cons (block_of_case b h caps CaseId.mcountinhibit_cy _ (case_mcountinhibit_cy_spec b h caps r)) <|
  List.Forall₂.cons (block_of_case b h caps CaseId.mcounteren_cy _ (case_mcounteren_cy_spec b h caps r)) <|
  List.Forall₂.cons (block_of_case b h caps CaseId.hpm_events _ (case_hpm_events_spec b h caps r)) <|
  List.Forall₂.cons (block_of_case b h caps CaseId.ext_mem _ (case_ext_mem_spec b h caps r)) <|
  List.Forall₂.cons (block_of_case b h caps CaseId.fence_i _ (case_fence_i_spec b h caps r)) <|
  List.Forall₂.cons (block_of_case b h caps CaseId.csr_nonexistent _ (case_csr_nonexistent_spec b h caps r)) <|
  List.Forall₂.cons (block_of_case b h caps CaseId.csr_ro_write _ (case_csr_ro_write_spec b h caps r)) <|
  List.Forall₂.cons (block_of_case b h caps CaseId.csr_ro_no_write _ (case_csr_ro_no_write_spec b h caps r)) <|
  List.Forall₂.cons (block_of_case b h caps CaseId.pending_irq _ (case_pending_irq_spec b h caps r)) <|
  List.Forall₂.cons (block_of_case b h caps CaseId.i_align _ (case_i_align_spec b h caps r)) <|
  List.Forall₂.cons (block_of_case b h caps CaseId.i_acc _ (case_i_acc_spec b h caps r)) <|
  List.Forall₂.cons (block_of_case b h caps CaseId.i_illeg _ (case_i_illeg_spec b h caps r)) <|
  List.Forall₂.cons (block_of_case b h caps CaseId.ci_illeg _ (case_ci_illeg_spec b h caps r)) <|
  List.Forall₂.cons (block_of_case b h caps CaseId.break_instr _ (case_break_spec b h caps r)) <|
  List.Forall₂.cons (block_of_case b h caps CaseId.l_align _ (case_l_align_spec b h caps r)) <|
  List.Forall₂.cons (block_of_case b h caps CaseId.l_acc _ (case_l_acc_spec b h caps r)) <|
  List.Forall₂.cons (block_of_case b h caps CaseId.s_align _ (case_s_align_spec b h caps r)) <|
  List.Forall₂.cons (block_of_case b h caps CaseId.s_acc _ (case_s_acc_spec b h caps r)) <|
  List.Forall₂.cons (block_of_case b h caps CaseId.ecall_m _ (case_ecall_m_spec b h caps r)) <|
  List.Forall₂.cons (block_of_case b h caps CaseId.ecall_u _ (case_ecall_u_spec b h caps r)) <|
  List.Forall₂.cons (block_of_case b h caps CaseId.mti _ (case_mti_spec b h caps r)) <|
  List.Forall₂.cons (block_of_case b h caps CaseId.msi _ (case_msi_spec b h caps r)) <|
  List.Forall₂.cons (block_of_case b h caps CaseId.mei _ (case_mei_spec b h caps r)) <|
  List.Forall₂.cons (block_of_case b h caps CaseId.nmi _ (case_nmi_spec b h caps r)) <|
  List.Forall₂.cons (block_of_case b h caps CaseId.firq0 _ (case_firq0_spec b h caps r)) <|
  List.Forall₂.cons (block_of_case b h caps CaseId.firq2 _ (case_firq2_spec b h caps r)) <|
  List.Forall₂.cons (block_of_case b h caps CaseId.firq3 _ (case_firq3_spec b h caps r)) <|
  List.Forall₂.cons (block_of_case b h caps CaseId.firq4 _ (case_firq4_spec b h caps r)) <|
  List.Forall₂.cons (block_of_case b h caps CaseId.firq5 _ (case_firq5_spec b h caps r)) <|
  List.Forall₂.cons (block_of_case b h caps CaseId.firq6 _ (case_firq6_spec b h caps r)) <|
  List.Forall₂.cons (block_of_case b h caps CaseId.firq7 _ (case_firq7_spec b h caps r)) <|
  List.Forall₂.cons (block_of_case b h caps CaseId.firq8 _ (case_firq8_spec b h caps r)) <|
  List.Forall₂.cons (block_of_case b h caps CaseId.firq10_11 _ (case_firq10_11_spec b h caps r)) <|
  List.Forall₂.cons (block_of_case b h caps CaseId.wfi _ (case_wfi_spec b h caps r)) <|
  List.Forall₂.cons (block_of_case b h caps CaseId.csr_user _ (case_csr_user_spec b h caps r)) <|
  List.Forall₂.cons (block_of_case b h caps CaseId.rte_debug _ (case_rte_debug_spec b h caps r)) <|
  List.Forall₂.cons (case_pmp_block b h caps r) <|
  List.Forall₂.cons (block_of_case b h caps CaseId.lrsc_ok _ (case_lrsc_ok_spec b h caps r)) <|
  List.Forall₂.cons (block_of_case b h caps CaseId.lrsc_fail1 _ (case_lrsc_fail1_spec b h caps r)) <|
  List.Forall₂.cons (block_of_case b h caps CaseId.lrsc_fail2 _ (case_lrsc_fail2_spec b h caps r)) <|
  List.Forall₂.nil

theorem main_block_ids_flatten : main_block_ids.flatten = catalog := rfl

/-- All cases of `main` together: the cases counted are the applicable
cases of the catalog, in catalog order, one verdict each. -/
theorem main_cases_block (b : Build) (h : Neorv32H) (caps : Caps) (r : Resp) :
    block_spec b h caps catalog (run_cases (main_cases b h caps r)) := by
  have := run_cases_block b h caps _ _ (main_cases_blocks b h caps r)
  rwa [main_block_ids_flatten] at this

/-! ## The parts of `main` around the cases -/

theorem install_loop_aux (r : Resp) (l : List Nat) (a : Int) (s : State) :
    (l.foldl (install_step r) (a, s)).1 =
        l.foldl (fun acc id => wrap_int32 (acc + r.install_rc id)) a ∧
      (l.foldl (install_step r) (a, s)).2.cnt_test = s.cnt_test ∧
      (l.foldl (install_step r) (a, s)).2.cnt_ok = s.cnt_ok ∧
      (l.foldl (install_step r) (a, s)).2.cnt_fail = s.cnt_fail ∧
      counts (l.foldl (install_step r) (a, s)).2 = counts s := by
  induction l generalizing a s with
  | nil => simp
  | cons id l ih =>
    obtain ⟨i1, i2, i3, i4, i5⟩ := ih (wrap_int32 (a + r.install_rc id))
      (emit (Event.rte_exception_install id Handler.global_trap_handler) s)
    simp only [List.foldl_cons, install_step]
    refine ⟨i1, i2, i3, i4, ?_⟩
    rw [i5]
    simp [counts, List.filterMap_append, Event.counted]

/-- The error count the loop returns is `install_err`. -/
theorem install_loop_fst (h : Neorv32H) (r : Resp) (s : State) :
    (install_loop h r s).1 = install_err h r :=
  (install_loop_aux r _ 0 s).1

theorem install_loop_frame (h : Neorv32H) (r : Resp) (s : State) :
    (install_loop h r s).2.cnt_test = s.cnt_test ∧
      (install_loop h r s).2.cnt_ok = s.cnt_ok ∧
      (install_loop h r s).2.cnt_fail = s.cnt_fail ∧
      counts (install_loop h r s).2 = counts s :=
  (install_loop_aux r _ 0 s).2

theorem main_uart_setup_frame (b : Build) (h : Neorv32H) (r : Resp) (s : State) :
    (main_uart_setup b h r s).cnt_test = s.cnt_test ∧
      (main_uart_setup b h r s).cnt_ok = s.cnt_ok ∧
      (main_uart_setup b h r s).cnt_fail = s.cnt_fail ∧
      counts (main_uart_setup b h r s) = counts s := by
  simp only [main_uart_setup]
  split_ifs <;> simp [call, counts, List.filterMap_append, Event.counted]

theorem main_setup_frame (s : State) :
    (main_setup s).cnt_test = s.cnt_test ∧ (main_setup s).cnt_ok = s.cnt_ok ∧
      (main_setup s).cnt_fail = s.cnt_fail ∧ counts (main_setup s) = counts s := by
  simp [main_setup, call, csr_write, counts, List.filterMap_append, Event.counted]

theorem main_enable_irqs_frame (h : Neorv32H) (s : State) :
    (main_enable_irqs h s).cnt_test = s.cnt_test ∧
      (main_enable_irqs h s).cnt_ok = s.cnt_ok ∧
      (main_enable_irqs h s).cnt_fail = s.cnt_fail ∧
      counts (main_enable_irqs h s) = counts s := by
  simp [main_enable_irqs, call, counts, List.filterMap_append, Event.counted]

theorem csr_read_frame (s : State) (c : Csr) :
    (csr_read c s).cnt_test = s.cnt_test ∧ (csr_read c s).cnt_ok = s.cnt_ok ∧
      (csr_read c s).cnt_fail = s.cnt_fail ∧ counts (csr_read c s) = counts s := by
  simp [csr_read, counts, List.filterMap_append, Event.counted]

theorem hpm_reports_frame (b : Build) (s : State) :
    (hpm_reports b s).cnt_test = s.cnt_test ∧ (hpm_reports b s).cnt_ok = s.cnt_ok ∧
      (hpm_reports b s).cnt_fail = s.cnt_fail ∧ counts (hpm_reports b s) = counts s := by
  have hw : ∀ t : State, (csr_write Csr.MCOUNTINHIBIT minus_one_u32 t).cnt_test = t.cnt_test ∧
      (csr_write Csr.MCOUNTINHIBIT minus_one_u32 t).cnt_ok = t.cnt_ok ∧
      (csr_write Csr.MCOUNTINHIBIT minus_one_u32 t).cnt_fail = t.cnt_fail ∧
      counts (csr_write Csr.MCOUNTINHIBIT minus_one_u32 t) = counts t := by
    intro t
    simp [csr_write, counts, List.filterMap_append, Event.counted]
  obtain ⟨w1, w2, w3, w4⟩ := hw s
  simp only [hpm_reports]
  split_ifs
  · exact ⟨w1, w2, w3, w4⟩
  · obtain ⟨f1, f2, f3, f4⟩ := foldl_frame (fun s c => csr_read c s) csr_read_frame
      hpm_report_csrs (csr_write Csr.MCOUNTINHIBIT minus_one_u32 s)
    exact ⟨f1.trans w1, f2.trans w2, f3.trans w3, f4.trans w4⟩

/-- The state in which the first case starts has empty counters and no
case counted. -/
theorem main_before_cases_init (b : Build) (h : Neorv32H) (r : Resp) :
    (main_before_cases b h r).cnt_test = 0 ∧ (main_before_cases b h r).cnt_ok = 0 ∧
      (main_before_cases b h r).cnt_fail = 0 ∧ counts (main_before_cases b h r) = [] := by
  obtain ⟨a1, a2, a3, a4⟩ := main_uart_setup_frame b h r State.init
  obtain ⟨b1, b2, b3, b4⟩ := main_setup_frame (main_uart_setup b h r State.init)
  obtain ⟨c1, c2, c3, c4⟩ := install_loop_frame h r (main_setup (main_uart_setup b h r State.init))
  obtain ⟨d1, d2, d3, d4⟩ := main_enable_irqs_frame h
    (install_loop h r (main_setup (main_uart_setup b h r State.init))).2
  unfold main_before_cases
  refine ⟨?_, ?_, ?_, ?_⟩
  · rw [d1, c1, b1, a1]; rfl
  · rw [d2, c2, b2, a2]; rfl
  · rw [d3, c3, b3, a3]; rfl
  · rw [d4, c4, b4, a4]; rfl

/-- The path of `main` on which the cases run. -/
theorem main_run (b : Build) (h : Neorv32H) (caps : Caps) (r : Resp)
    (hb : b.RUN_CHECK = true) (hi : install_err h r = 0) :
    main b h caps r =
      ((final_report (hpm_reports b (main_after_cases b h caps r))).cnt_fail,
        final_report (hpm_reports b (main_after_cases b h caps r))) := by
  have h1 := install_loop_fst h r (main_setup (main_uart_setup b h r State.init))
  rw [hi] at h1
  simp only [main, hb, not_true_eq_false, if_false, h1, ne_eq, main_after_cases,
    main_before_cases]

/-- The path of `main` on which `RUN_CHECK` is not defined. -/
theorem main_not_compiled (b : Build) (h : Neorv32H) (caps : Caps) (r : Resp)
    (hb : b.RUN_CHECK = false) :
    main b h caps r =
      (1, emit (Event.print_critical CritMsg.not_compiled)
        (main_uart_setup b h r State.init)) := by
  simp [main, hb]

/-- The path of `main` on which the configuration loop reports an error. -/
theorem main_install_error (b : Build) (h : Neorv32H) (caps : Caps) (r : Resp)
    (hb : b.RUN_CHECK = true) (hi : install_err h r ≠ 0) :
    main b h caps r =
      (1, emit (Event.print_critical (CritMsg.rte_install_error (install_err h r)))
        (install_loop h r (main_setup (main_uart_setup b h r State.init))).2) := by
  have h1 := install_loop_fst h r (main_setup (main_uart_setup b h r State.init))
  simp only [main, hb, not_true_eq_false, if_false, h1, ne_eq, hi, not_false_eq_true,
    if_true]

/-! ## The steps of `main`, case by case -/

theorem run_cases_append (l₁ l₂ : List (State → State)) (s : State) :
    run_cases (l₁ ++ l₂) s = run_cases l₂ (run_cases l₁ s) := by
  simp [run_cases, List.foldl_append]

/-- Running the steps of the PMP block is running the PMP block. -/
theorem run_pmp_steps (h : Neorv32H) (caps : Caps) (r : Resp) (s : State) :
    run_cases (pmp_steps h caps r) s = case_pmp h caps r s := by
  by_cases hp : caps.pmp_get_num_regions = 0
  · rw [case_pmp_neg h caps r s hp]
    simp [pmp_steps, hp, run_cases]
  · rw [case_pmp_pos h caps r s hp]
    simp [pmp_steps, hp, run_cases]

theorem main_cases_split (b : Build) (h : Neorv32H) (caps : Caps) (r : Resp) :
    main_cases b h caps r =
      (main_cases b h caps r).take 38 ++ [case_pmp h caps r] ++
        (main_cases b h caps r).drop 39 := by
  simp [main_cases]

/-- Cutting the PMP block into its cases does not change what `main` does. -/
theorem run_main_case_steps (b : Build) (h : Neorv32H) (caps : Caps) (r : Resp)
    (s : State) :
    run_cases (main_case_steps b h caps r) s = run_cases (main_cases b h caps r) s := by
  conv_rhs => rw [main_cases_split]
  simp only [main_case_steps, run_cases_append, run_pmp_steps]
  rfl

theorem ran_once_ledger (c : CaseId) (s s' : State) (hr : ran_once c s s')
    (hs : ledger_ok s) : ledger_ok s' := by
  obtain ⟨h1, _, h3⟩ := hr
  unfold ledger_ok at *
  rcases h3 with ⟨ho, hf⟩ | ⟨ho, hf⟩ <;> omega

/-- Every step of the PMP block keeps the ledger equation. -/
theorem pmp_steps_ledger (h : Neorv32H) (caps : Caps) (r : Resp) :
    ∀ c ∈ pmp_steps h caps r, ∀ s, ledger_ok s → ledger_ok (c s) := by
  intro c hc s hs
  have hq : ledger_ok (call LibFn.cpu_pmp_get_num_regions [] s) := by
    obtain ⟨c1, c2, c3, _⟩ := call_frame LibFn.cpu_pmp_get_num_regions [] s
    unfold ledger_ok at *
    omega
  by_cases hp : caps.pmp_get_num_regions = 0
  · simp only [pmp_steps, hp, ne_eq, not_true_eq_false, if_false, List.mem_singleton] at hc
    subst hc
    exact hq
  · simp only [pmp_steps, hp, ne_eq, not_false_eq_true, if_true, List.mem_cons,
      List.mem_singleton, List.not_mem_nil, or_false] at hc
    rcases hc with rfl | rfl | rfl | rfl | rfl
    · exact ran_once_ledger _ _ _ (case_pmp_create_spec caps r _) hq
    · exact ran_once_ledger _ _ _ (case_pmp_execute_spec r _ s) hs
    · exact ran_once_ledger _ _ _ (case_pmp_read_spec h r _ s) hs
    · exact ran_once_ledger _ _ _ (case_pmp_write_spec h r _ s) hs
    · exact ran_once_ledger _ _ _ (case_pmp_lock_spec r s) hs

/-- Every step of `main` keeps the ledger equation. -/
theorem main_case_steps_ledger (b : Build) (h : Neorv32H) (caps : Caps) (r : Resp) :
    ∀ c ∈ main_case_steps b h caps r, ∀ s, ledger_ok s → ledger_ok (c s) := by
  have hm := forall₂_block_ledger b h caps _ _ (main_cases_blocks b h caps r)
  intro c hc s hs
  simp only [main_case_steps, List.mem_append] at hc
  rcases hc with (hc | hc) | hc
  · exact hm c (List.mem_of_mem_take hc) s hs
  · exact pmp_steps_ledger h caps r c hc s hs
  · exact hm c (List.mem_of_mem_drop hc) s hs

theorem final_report_frame (s : State) :
    (final_report s).cnt_test = s.cnt_test ∧ (final_report s).cnt_ok = s.cnt_ok ∧
      (final_report s).cnt_fail = s.cnt_fail ∧ counts (final_report s) = counts s := by
  simp [final_report, counts, List.filterMap_append, Event.counted]

/-- The ledger of the state `main` returns, on the path where the cases
run: that of the state after the last case. -/
theorem main_run_frame (b : Build) (h : Neorv32H) (caps : Caps) (r : Resp)
    (hb : b.RUN_CHECK = true) (hi : install_err h r = 0) :
    (main b h caps r).2.cnt_test = (main_after_cases b h caps r).cnt_test ∧
      (main b h caps r).2.cnt_ok = (main_after_cases b h caps r).cnt_ok ∧
      (main b h caps r).2.cnt_fail = (main_after_cases b h caps r).cnt_fail ∧
      counts (main b h caps r).2 = counts (main_after_cases b h caps r) ∧
      (main b h caps r).1 = (main_after_cases b h caps r).cnt_fail := by
  obtain ⟨r1, r2, r3, r4⟩ := hpm_reports_frame b (main_after_cases b h caps r)
  obtain ⟨f1, f2, f3, f4⟩ := final_report_frame (hpm_reports b (main_after_cases b h caps r))
  rw [main_run b h caps r hb hi]
  exact ⟨f1.trans r1, f2.trans r2, f3.trans r3, f4.trans r4, f3.trans r3⟩

/-- On the two paths that return early no counter has moved. -/
theorem main_early_frame (b : Build) (h : Neorv32H) (caps : Caps) (r : Resp)
    (he : ¬ (b.RUN_CHECK = true ∧ install_err h r = 0)) :
    (main b h caps r).1 = 1 ∧ (main b h caps r).2.cnt_test = 0 ∧
      (main b h caps r).2.cnt_ok = 0 ∧ (main b h caps r).2.cnt_fail = 0 ∧
      counts (main b h caps r).2 = [] := by
  obtain ⟨a1, a2, a3, a4⟩ := main_uart_setup_frame b h r State.init
  by_cases hb : b.RUN_CHECK = true
  · have hi : install_err h r ≠ 0 := fun hi => he ⟨hb, hi⟩
    obtain ⟨b1, b2, b3, b4⟩ := main_setup_frame (main_uart_setup b h r State.init)
    obtain ⟨c1, c2, c3, c4⟩ :=
      install_loop_frame h r (main_setup (main_uart_setup b h r State.init))
    rw [main_install_error b h caps r hb hi]
    refine ⟨rfl, ?_, ?_, ?_, ?_⟩
    · rw [emit_cnt_test, c1, b1, a1]; rfl
    · rw [emit_cnt_ok, c2, b2, a2]; rfl
    · rw [emit_cnt_fail, c3, b3, a3]; rfl
    · rw [counts_emit, c4, b4, a4]; rfl
  · have hb' : b.RUN_CHECK = false := by simpa using hb
    rw [main_not_compiled b h caps r hb']
    refine ⟨rfl, ?_, ?_, ?_, ?_⟩
    · rw [emit_cnt_test, a1]; rfl
    · rw [emit_cnt_ok, a2]; rfl
    · rw [emit_cnt_fail, a3]; rfl
    · rw [counts_emit, a4]; rfl

/-- The ledger equation holds in the state `main` returns. -/
theorem main_ledger (b : Build) (h : Neorv32H) (caps : Caps) (r : Resp) :
    ledger_ok (main b h caps r).2 := by
  by_cases he : b.RUN_CHECK = true ∧ install_err h r = 0
  · obtain ⟨m1, m2, m3, _, _⟩ := main_run_frame b h caps r he.1 he.2
    obtain ⟨i1, i2, i3, _⟩ := main_before_cases_init b h r
    have h0 : ledger_ok (main_before_cases b h r) := by
      unfold ledger_ok; omega
    have := block_spec_ledger b h caps _ _ (main_cases_block b h caps r) _ h0
    unfold ledger_ok main_after_cases at *
    omega
  · obtain ⟨_, e1, e2, e3, _⟩ := main_early_frame b h caps r he
    unfold ledger_ok
    omega

set_option maxRecDepth 20000

/-! ## The ledger (claims C1 to C4) -/

/-- C1.  For every build, capability set and hardware responses the ledger
equation `cnt_test == cnt_ok + cnt_fail` holds before the first case, after
every case of `main` (the states after any number of leading steps, the PMP
block being cut at the end of each of its cases, and these steps compose to
what `main` runs), and in the state `main` returns, whose last trace entry
is the `PRINT_CRITICAL` line of the path taken, the final report printing
the counters of that state.  Every case either is counted once and records
exactly one verdict, or moves no counter at all. -/
theorem C1_ledger_equation (b : Build) (h : Neorv32H) (caps : Caps) (r : Resp) :
    ledger_ok (main_before_cases b h r) ∧
    (∀ n, ledger_ok
      (run_cases ((main_case_steps b h caps r).take n) (main_before_cases b h r))) ∧
    (∀ s, run_cases (main_case_steps b h caps r) s =
      run_cases (main_cases b h caps r) s) ∧
    ledger_ok (main b h caps r).2 ∧
    (main b h caps r).2.trace.getLast? = some (Event.print_critical
      (if b.RUN_CHECK = true then
        if install_err h r = 0 then
          CritMsg.test_results (main b h caps r).2.cnt_ok (main b h caps r).2.cnt_test
            (main b h caps r).2.cnt_fail (main b h caps r).2.cnt_test
        else CritMsg.rte_install_error (install_err h r)
      else CritMsg.not_compiled)) ∧
    (∀ c s, ran_once c s (case_code b h caps r c s) ∨
      skipped s (case_code b h caps r c s)) := by
  obtain ⟨i1, i2, i3, _⟩ := main_before_cases_init b h r
  have h0 : ledger_ok (main_before_cases b h r) := by
    unfold ledger_ok; omega
  refine ⟨h0, ?_, run_main_case_steps b h caps r, main_ledger b h caps r, ?_, ?_⟩
  · intro n
    exact run_cases_take_keeps ledger_ok _ (main_case_steps_ledger b h caps r) n _ h0
  · by_cases hb : b.RUN_CHECK = true
    · by_cases hi : install_err h r = 0
      · rw [main_run b h caps r hb hi]
        simp [hb, hi, final_report]
      · rw [main_install_error b h caps r hb hi]
        simp [hb, hi]
    · have hb' : b.RUN_CHECK = false := by simpa using hb
      rw [main_not_compiled b h caps r hb']
      simp [hb']
  · intro c s
    by_cases hp : c.is_pmp = true
    · exact Or.inl (case_code_pmp_spec b h caps r c hp s)
    · have hp' : c.is_pmp = false := by simpa using hp
      by_cases ha : applicable b h caps c
      · exact Or.inl ((case_code_spec b h caps r c hp' s).1 ha)
      · exact Or.inr ((case_code_spec b h caps r c hp' s).2 ha)

/-- C2, as stated, fails: when one handler installation reports an error
`main` returns 1 although no case was recorded as failed. -/
theorem C2_counterexample_install_error :
    (main sample_build sample_h sample_caps sample_resp_install_error).1 = 1 ∧
    (main sample_build sample_h sample_caps sample_resp_install_error).2.cnt_fail = 0 ∧
    (main sample_build sample_h sample_caps sample_resp_install_error).1 ≠
      (main sample_build sample_h sample_caps sample_resp_install_error).2.cnt_fail := by
  have he : ¬ (sample_build.RUN_CHECK = true ∧
      install_err sample_h sample_resp_install_error = 0) := by
    intro hc
    exact absurd hc.2 (by decide)
  obtain ⟨e0, _, _, e3, _⟩ :=
    main_early_frame sample_build sample_h sample_caps sample_resp_install_error he
  refine ⟨e0, e3, ?_⟩
  rw [e0, e3]
  decide

/-- C2, amended.  On every run of `main` that gets past the handler
installation (`RUN_CHECK` is defined and `install_err` is 0) the value
returned is `cnt_fail`, so it is 0 exactly when no case failed. -/
theorem C2_return_value (b : Build) (h : Neorv32H) (caps : Caps) (r : Resp)
    (hb : b.RUN_CHECK = true) (hi : install_err h r = 0) :
    (main b h caps r).1 = (main b h caps r).2.cnt_fail ∧
    ((main b h caps r).1 = 0 ↔ (main b h caps r).2.cnt_fail = 0) := by
  obtain ⟨_, _, m3, _, m5⟩ := main_run_frame b h caps r hb hi
  have he : (main b h caps r).1 = (main b h caps r).2.cnt_fail := by rw [m5, m3]
  exact ⟨he, by rw [he]⟩

/-- Witness for C2: the run of the sample machine answering as in
`sample_resp_failing`, in which seven cases fail, returns `cnt_fail`. -/
theorem C2_return_value_witness :
    sample_build.RUN_CHECK = true ∧ install_err sample_h sample_resp_failing = 0 ∧
    ((main sample_build sample_h sample_caps sample_resp_failing).1 =
        (main sample_build sample_h sample_caps sample_resp_failing).2.cnt_fail ∧
      ((main sample_build sample_h sample_caps sample_resp_failing).1 = 0 ↔
        (main sample_build sample_h sample_caps sample_resp_failing).2.cnt_fail = 0)) :=
  ⟨rfl, by decide,
    C2_return_value sample_build sample_h sample_caps sample_resp_failing rfl (by decide)⟩

/-- C3.  Every case behind an applicability check: when the check fails
the case moves none of the three counters and counts nothing; when it
succeeds the case is counted exactly once (and records one verdict).  The
five PMP cases share one check: when it fails the PMP block moves no
counter, when it succeeds the block is the sequence of the five cases, each
of which is counted exactly once.  In particular, when MISA reports no A
extension none of the LR/SC cases moves a counter. -/
theorem C3_guarded_cases (b : Build) (h : Neorv32H) (caps : Caps) (r : Resp)
    (s : State) :
    (∀ c, c.is_pmp = false →
      (applicable b h caps c → ran_once c s (case_code b h caps r c s)) ∧
      (¬ applicable b h caps c → skipped s (case_code b h caps r c s))) ∧
    (caps.pmp_get_num_regions = 0 → skipped s (case_pmp h caps r s)) ∧
    (caps.pmp_get_num_regions ≠ 0 →
      case_pmp h caps r s =
        case_pmp_lock r
          (case_pmp_write h r caps.SYSINFO_DSPACE_BASE
            (case_pmp_read h r caps.SYSINFO_DSPACE_BASE
              (case_pmp_execute r caps.SYSINFO_DSPACE_BASE
                (case_pmp_create caps r (call LibFn.cpu_pmp_get_num_regions [] s)).1))) ∧
      (case_pmp h caps r s).cnt_test = s.cnt_test + 5 ∧
      counts (case_pmp h caps r s) = counts s ++
        [CaseId.pmp_create, CaseId.pmp_execute, CaseId.pmp_read, CaseId.pmp_write,
          CaseId.pmp_lock]) ∧
    (∀ c, c.is_pmp = true → ran_once c s (case_code b h caps r c s)) ∧
    (caps.misa &&& (1 <<< h.CSR_MISA_A) = 0 →
      skipped s (case_lrsc_ok b h caps r s) ∧ skipped s (case_lrsc_fail1 b h caps r s) ∧
      skipped s (case_lrsc_fail2 b h caps r s)) := by
  refine ⟨fun c hc => case_code_spec b h caps r c hc s, ?_, ?_,
    fun c hc => case_code_pmp_spec b h caps r c hc s, ?_⟩
  · intro hp
    obtain ⟨c1, c2, c3, c4⟩ := call_frame LibFn.cpu_pmp_get_num_regions [] s
    rw [case_pmp_neg h caps r s hp]
    exact ⟨⟨c1, c2, c3⟩, c4⟩
  · intro hp
    obtain ⟨p1, p2, _, _, _⟩ := case_pmp_block b h caps r s
    have ha : applicable_of b h caps
        [CaseId.pmp_create, CaseId.pmp_execute, CaseId.pmp_read, CaseId.pmp_write,
          CaseId.pmp_lock] =
        [CaseId.pmp_create, CaseId.pmp_execute, CaseId.pmp_read, CaseId.pmp_write,
          CaseId.pmp_lock] := by
      simp [applicable_of, applicable, hp]
    rw [ha] at p1 p2
    exact ⟨case_pmp_pos h caps r s hp, by simpa using p2, p1⟩
  · intro hA
    have hn : ∀ c, (c = CaseId.lrsc_ok ∨ c = CaseId.lrsc_fail1 ∨ c = CaseId.lrsc_fail2) →
        ¬ applicable b h caps c := by
      intro c hc
      rcases hc with rfl | rfl | rfl <;> simp [applicable, hA]
    exact ⟨(case_lrsc_ok_spec b h caps r s).2 (hn _ (Or.inl rfl)),
      (case_lrsc_fail1_spec b h caps r s).2 (hn _ (Or.inr (Or.inl rfl))),
      (case_lrsc_fail2_spec b h caps r s).2 (hn _ (Or.inr (Or.inr rfl)))⟩

/-- C4.  Once the handler installation has succeeded, the cases that run
depend on the capability answers only: two runs on the same machine
description with different responses count the same cases in the same order
after every number of leading blocks and at the end, and end with the same
`cnt_test`; the cases counted are the applicable cases of the catalog, all
of them, in catalog order, whatever verdicts were recorded on the way. -/
theorem C4_cases_run_depend_on_caps_only (b : Build) (h : Neorv32H) (caps : Caps)
    (r₁ r₂ : Resp) (hb : b.RUN_CHECK = true) (h₁ : install_err h r₁ = 0)
    (h₂ : install_err h r₂ = 0) :
    counts (main b h caps r₁).2 = counts (main b h caps r₂).2 ∧
    (main b h caps r₁).2.cnt_test = (main b h caps r₂).2.cnt_test ∧
    counts (main b h caps r₁).2 = applicable_of b h caps catalog ∧
    (main b h caps r₁).2.cnt_test = (applicable_of b h caps catalog).length ∧
    (∀ n, counts (run_cases ((main_cases b h caps r₁).take n) (main_before_cases b h r₁)) =
      counts (run_cases ((main_cases b h caps r₂).take n) (main_before_cases b h r₂))) := by
  have key : ∀ r, install_err h r = 0 →
      counts (main b h caps r).2 = applicable_of b h caps catalog ∧
      (main b h caps r).2.cnt_test = (applicable_of b h caps catalog).length := by
    intro r hi
    obtain ⟨m1, _, _, m4, _⟩ := main_run_frame b h caps r hb hi
    obtain ⟨i1, _, _, i4⟩ := main_before_cases_init b h r
    obtain ⟨c1, c2, _, _, _⟩ := main_cases_block b h caps r (main_before_cases b h r)
    rw [m4, m1]
    unfold main_after_cases
    rw [c1, c2, i1, i4]
    simp
  have pre : ∀ r n,
      counts (run_cases ((main_cases b h caps r).take n) (main_before_cases b h r)) =
        applicable_of b h caps (main_block_ids.take n).flatten := by
    intro r n
    obtain ⟨_, _, _, i4⟩ := main_before_cases_init b h r
    obtain ⟨c1, _, _, _, _⟩ := run_cases_block b h caps _ _
      (List.forall₂_take n (main_cases_blocks b h caps r)) (main_before_cases b h r)
    rw [c1, i4]
    simp
  obtain ⟨k1, k2⟩ := key r₁ h₁
  obtain ⟨k3, k4⟩ := key r₂ h₂
  exact ⟨k1.trans k3.symm, k2.trans k4.symm, k1, k2, fun n => (pre r₁ n).trans (pre r₂ n).symm⟩

/-- Witness for C4: a run in which every case passes and a run in which
seven cases fail, on the same sample machine. -/
theorem C4_cases_run_depend_on_caps_only_witness :
    sample_build.RUN_CHECK = true ∧ install_err sample_h sample_resp = 0 ∧
    install_err sample_h sample_resp_failing = 0 ∧
    counts (main sample_build sample_h sample_caps sample_resp).2 =
      counts (main sample_build sample_h sample_caps sample_resp_failing).2 :=
  ⟨rfl, by decide, by decide,
    (C4_cases_run_depend_on_caps_only sample_build sample_h sample_caps sample_resp
      sample_resp_failing rfl (by decide) (by decide)).1⟩

/-! ## Verdicts of single cases (claims C5 to C10) -/

/-- The verdict of the PMP user-mode read case depends on the cause only:
the case is recorded as passed exactly when the cause is the load-access
fault, whatever the denied load left in `tmp_b`. -/
theorem case_pmp_read_verdict (h : Neorv32H) (r : Resp) (tmp_a : Nat) (s : State) :
    (recorded_passed s (case_pmp_read h r tmp_a s) ↔
      r.pmp_read_mcause = h.TRAP_CODE_L_ACCESS) ∧
    (recorded_failed s (case_pmp_read h r tmp_a s) ↔
      r.pmp_read_mcause ≠ h.TRAP_CODE_L_ACCESS) := by
  simp only [case_pmp_read]
  split_ifs <;>
    simp_all [recorded_passed, recorded_failed, csr_write, csr_read, call, asm,
      goto_user_mode]

/-- C5, the code at the failing input.  The denied load leaves the non-zero
word 0xCAFE1234 in `tmp_b` and the cause is the load-access fault: the case
prints "<SECURITY FAILURE>" and is recorded as passed, and the whole run
returns 0 with no case recorded as failed. -/
theorem C5_pmp_read_leak_recorded_passed :
    sample_resp_pmp_leak.pmp_read_tmp_b ≠ 0 ∧
    sample_resp_pmp_leak.pmp_read_mcause = sample_h.TRAP_CODE_L_ACCESS ∧
    recorded_passed State.init
      (case_pmp_read sample_h sample_resp_pmp_leak sample_caps.SYSINFO_DSPACE_BASE
        State.init) ∧
    Event.print_critical CritMsg.security_failure ∈
      (case_pmp_read sample_h sample_resp_pmp_leak sample_caps.SYSINFO_DSPACE_BASE
        State.init).trace ∧
    (main sample_build sample_h sample_caps sample_resp_pmp_leak).1 = 0 ∧
    (main sample_build sample_h sample_caps sample_resp_pmp_leak).2.cnt_fail = 0 := by
  refine ⟨by decide, rfl, ⟨rfl, rfl⟩, by decide, by decide, by decide⟩

/-- C6.  With user mode available the mcounteren.cy case is recorded as
passed if and only if the cause read back is the illegal-instruction code
and the user-mode read of the cycle CSR gave 0; in every other situation it
is recorded as failed, in particular when the expected trap occurred but
the value read is not 0. -/
theorem C6_mcounteren_cy_verdict (h : Neorv32H) (caps : Caps) (r : Resp) (s : State)
    (hU : caps.misa &&& (1 <<< h.CSR_MISA_U) ≠ 0) :
    (recorded_passed s (case_mcounteren_cy h caps r s) ↔
      r.mcounteren_mcause = h.TRAP_CODE_I_ILLEGAL ∧ r.mcounteren_cycle = 0) ∧
    (recorded_failed s (case_mcounteren_cy h caps r s) ↔
      ¬ (r.mcounteren_mcause = h.TRAP_CODE_I_ILLEGAL ∧ r.mcounteren_cycle = 0)) ∧
    (r.mcounteren_mcause = h.TRAP_CODE_I_ILLEGAL → r.mcounteren_cycle ≠ 0 →
      recorded_failed s (case_mcounteren_cy h caps r s)) := by
  simp only [case_mcounteren_cy]
  split_ifs <;>
    simp_all [recorded_passed, recorded_failed, csr_write, csr_read, call, asm,
      goto_user_mode]

/-- Witness for C6: on the sample machine the expected trap occurs but the
read gives 77, and the case is recorded as failed. -/
theorem C6_mcounteren_cy_verdict_witness :
    sample_caps.misa &&& (1 <<< sample_h.CSR_MISA_U) ≠ 0 ∧
    sample_resp_failing.mcounteren_mcause = sample_h.TRAP_CODE_I_ILLEGAL ∧
    sample_resp_failing.mcounteren_cycle ≠ 0 ∧
    recorded_failed State.init
      (case_mcounteren_cy sample_h sample_caps sample_resp_failing State.init) :=
  ⟨by decide, rfl, by decide,
    (C6_mcounteren_cy_verdict sample_h sample_caps sample_resp_failing State.init
      (by decide)).2.2 rfl (by decide)⟩

/-- The verdict of the case "Invalid CSR access from user mode" depends on
the cause only: with user mode available the case is recorded as passed
exactly when the cause is the illegal-instruction code, whatever the
user-mode read left in `tmp_a`. -/
theorem case_csr_user_verdict (h : Neorv32H) (caps : Caps) (r : Resp) (s : State)
    (hU : caps.misa &&& (1 <<< h.CSR_MISA_U) ≠ 0) :
    (recorded_passed s (case_csr_user h caps r s) ↔
      r.csr_user_mcause = h.TRAP_CODE_I_ILLEGAL) ∧
    (recorded_failed s (case_csr_user h caps r s) ↔
      r.csr_user_mcause ≠ h.TRAP_CODE_I_ILLEGAL) := by
  simp only [case_csr_user]
  split_ifs <;>
    simp_all [recorded_passed, recorded_failed, csr_write, csr_read, call, asm,
      goto_user_mode]

/-- C7, the code at the failing input.  The user-mode read of `misa` leaves
the non-zero value 0x40101105 in `tmp_a` and the cause is the
illegal-instruction code: the case prints "<SECURITY FAILURE>" and is
recorded as passed, and the whole run returns 0 with no case recorded as
failed. -/
theorem C7_csr_user_leak_recorded_passed :
    sample_resp_csr_leak.csr_user_tmp_a ≠ 0 ∧
    sample_resp_csr_leak.csr_user_mcause = sample_h.TRAP_CODE_I_ILLEGAL ∧
    recorded_passed State.init
      (case_csr_user sample_h sample_caps sample_resp_csr_leak State.init) ∧
    Event.print_critical CritMsg.security_failure ∈
      (case_csr_user sample_h sample_caps sample_resp_csr_leak State.init).trace ∧
    (main sample_build sample_h sample_caps sample_resp_csr_leak).1 = 0 ∧
    (main sample_build sample_h sample_caps sample_resp_csr_leak).2.cnt_fail = 0 := by
  refine ⟨by decide, rfl, ⟨rfl, rfl⟩, by decide, by decide, by decide⟩

/-- C8.  With the A extension present (the program is compiled for it and
MISA reports it) the case "LR+SC succeeding access" first stores 0x11223344
to the shared location, then reserves and conditionally stores 0x22446688,
and is recorded as passed if and only if the conditional store returned
status 0, the reserving load returned 0x11223344, the word read back
afterwards is 0x22446688 and the cause register reads 0; in every other
situation it is recorded as failed. -/
theorem C8_lrsc_ok_verdict (b : Build) (h : Neorv32H) (caps : Caps) (r : Resp)
    (s : State) (hb : b.riscv_atomic = true)
    (hA : caps.misa &&& (1 <<< h.CSR_MISA_A) ≠ 0) :
    (s.trace ++
      [ Event.csr_write Csr.MCAUSE 0, Event.csr_read Csr.MISA,
        Event.count CaseId.lrsc_ok,
        Event.call LibFn.cpu_store_unsigned_word [h.addr_atomic_access_addr, 0x11223344],
        Event.call LibFn.cpu_load_reservate_word [h.addr_atomic_access_addr],
        Event.asm Instr.nop,
        Event.call LibFn.cpu_store_conditional [h.addr_atomic_access_addr, 0x22446688] ]
      <+: (case_lrsc_ok b h caps r s).trace) ∧
    (recorded_passed s (case_lrsc_ok b h caps r s) ↔
      r.lrsc_ok_sc = 0 ∧ r.lrsc_ok_lr = 0x11223344 ∧
        r.lrsc_ok_readback = 0x22446688 ∧ r.lrsc_ok_mcause = 0) ∧
    (recorded_failed s (case_lrsc_ok b h caps r s) ↔
      ¬ (r.lrsc_ok_sc = 0 ∧ r.lrsc_ok_lr = 0x11223344 ∧
        r.lrsc_ok_readback = 0x22446688 ∧ r.lrsc_ok_mcause = 0)) := by
  simp only [case_lrsc_ok]
  split_ifs <;>
    simp_all [recorded_passed, recorded_failed, csr_write, csr_read, call, asm,
      List.prefix_append_right_inj, List.cons_prefix_cons, List.nil_prefix]

/-- Witness for C8: the sample machine with a conditional store that
reports failure; the case is recorded as failed. -/
theorem C8_lrsc_ok_verdict_witness :
    sample_build.riscv_atomic = true ∧
    sample_caps.misa &&& (1 <<< sample_h.CSR_MISA_A) ≠ 0 ∧
    recorded_failed State.init
      (case_lrsc_ok sample_build sample_h sample_caps sample_resp_failing State.init) :=
  ⟨rfl, by decide,
    (C8_lrsc_ok_verdict sample_build sample_h sample_caps sample_resp_failing State.init
      rfl (by decide)).2.2.2 (by decide)⟩

/-- C9.  With the A extension present the case "LR+SC failing access 1"
arms the location with 0xAABBCCDD, reserves, stores 0xDEADDEAD with an
ordinary store and conditionally stores 0x22446688; it is recorded as
passed if and only if the conditional store returned a non-zero status, the
reserving load returned 0xAABBCCDD and the word read back afterwards is
0xDEADDEAD, and as failed in every other situation; in particular a run
that reads back 0x22446688 is recorded as failed. -/
theorem C9_lrsc_fail1_verdict (b : Build) (h : Neorv32H) (caps : Caps) (r : Resp)
    (s : State) (hb : b.riscv_atomic = true)
    (hA : caps.misa &&& (1 <<< h.CSR_MISA_A) ≠ 0) :
    (s.trace ++
      [ Event.csr_write Csr.MCAUSE 0, Event.csr_read Csr.MISA,
        Event.count CaseId.lrsc_fail1,
        Event.call LibFn.cpu_store_unsigned_word [h.addr_atomic_access_addr, 0xAABBCCDD],
        Event.call LibFn.cpu_load_reservate_word [h.addr_atomic_access_addr],
        Event.call LibFn.cpu_store_unsigned_word [h.addr_atomic_access_addr, 0xDEADDEAD],
        Event.call LibFn.cpu_store_conditional [h.addr_atomic_access_addr, 0x22446688] ]
      <+: (case_lrsc_fail1 b h caps r s).trace) ∧
    (recorded_passed s (case_lrsc_fail1 b h caps r s) ↔
      r.lrsc_fail1_sc ≠ 0 ∧ r.lrsc_fail1_lr = 0xAABBCCDD ∧
        r.lrsc_fail1_readback = 0xDEADDEAD) ∧
    (recorded_failed s (case_lrsc_fail1 b h caps r s) ↔
      ¬ (r.lrsc_fail1_sc ≠ 0 ∧ r.lrsc_fail1_lr = 0xAABBCCDD ∧
        r.lrsc_fail1_readback = 0xDEADDEAD)) ∧
    (r.lrsc_fail1_readback = 0x22446688 →
      recorded_failed s (case_lrsc_fail1 b h caps r s)) := by
  simp only [case_lrsc_fail1]
  split_ifs <;>
    simp_all [recorded_passed, recorded_failed, csr_write, csr_read, call, asm,
      List.prefix_append_right_inj, List.cons_prefix_cons, List.nil_prefix]

/-- Witness for C9: the sample machine on which memory holds the value of
the conditional store afterwards; the case is recorded as failed. -/
theorem C9_lrsc_fail1_verdict_witness :
    sample_build.riscv_atomic = true ∧
    sample_caps.misa &&& (1 <<< sample_h.CSR_MISA_A) ≠ 0 ∧
    sample_resp_failing.lrsc_fail1_readback = 0x22446688 ∧
    recorded_failed State.init
      (case_lrsc_fail1 sample_build sample_h sample_caps sample_resp_failing State.init) :=
  ⟨rfl, by decide, rfl,
    (C9_lrsc_fail1_verdict sample_build sample_h sample_caps sample_resp_failing
      State.init rfl (by decide)).2.2.2 rfl⟩

/-- C10.  With the A extension present the case "LR+SC failing access 2"
arms the location with 0x12341234, reserves, takes a trap with `ecall` and
conditionally stores 0xDEADBEEF; it is recorded as passed if and only if
the conditional store returned a non-zero status, the reserving load
returned 0x12341234 and the word read back afterwards is still 0x12341234,
the value stored before the reservation, and as failed in every other
situation. -/
theorem C10_lrsc_fail2_verdict (b : Build) (h : Neorv32H) (caps : Caps) (r : Resp)
    (s : State) (hb : b.riscv_atomic = true)
    (hA : caps.misa &&& (1 <<< h.CSR_MISA_A) ≠ 0) :
    (s.trace ++
      [ Event.csr_write Csr.MCAUSE 0, Event.csr_read Csr.MISA,
        Event.count CaseId.lrsc_fail2,
        Event.call LibFn.cpu_store_unsigned_word [h.addr_atomic_access_addr, 0x12341234],
        Event.call LibFn.cpu_load_reservate_word [h.addr_atomic_access_addr],
        Event.asm Instr.ecall,
        Event.call LibFn.cpu_store_conditional [h.addr_atomic_access_addr, 0xDEADBEEF] ]
      <+: (case_lrsc_fail2 b h caps r s).trace) ∧
    (recorded_passed s (case_lrsc_fail2 b h caps r s) ↔
      r.lrsc_fail2_sc ≠ 0 ∧ r.lrsc_fail2_lr = 0x12341234 ∧
        r.lrsc_fail2_readback = 0x12341234) ∧
    (recorded_failed s (case_lrsc_fail2 b h caps r s) ↔
      ¬ (r.lrsc_fail2_sc ≠ 0 ∧ r.lrsc_fail2_lr = 0x12341234 ∧
        r.lrsc_fail2_readback = 0x12341234)) := by
  simp only [case_lrsc_fail2]
  split_ifs <;>
    simp_all [recorded_passed, recorded_failed, csr_write, csr_read, call, asm,
      List.prefix_append_right_inj, List.cons_prefix_cons, List.nil_prefix]

/-- Witness for C10: the sample machine on which the conditional store has
modified memory although it reports failure; the case is recorded as
failed. -/
theorem C10_lrsc_fail2_verdict_witness :
    sample_build.riscv_atomic = true ∧
    sample_caps.misa &&& (1 <<< sample_h.CSR_MISA_A) ≠ 0 ∧
    recorded_failed State.init
      (case_lrsc_fail2 sample_build sample_h sample_caps sample_resp_failing State.init) :=
  ⟨rfl, by decide,
    (C10_lrsc_fail2_verdict sample_build sample_h sample_caps sample_resp_failing
      State.init rfl (by decide)).2.2.2 (by decide)⟩

/-! ## The XIRQ handlers and the FIRQ8 case (claims C11 and C12) -/

/-- The accumulator after a handler depends on the accumulator before it
only. -/
theorem run_handler_ack_congr (s t : State) (f : Handler)
    (hst : s.xirq_trap_handler_ack = t.xirq_trap_handler_ack) :
    (run_handler s f).xirq_trap_handler_ack = (run_handler t f).xirq_trap_handler_ack := by
  cases f <;> simp [run_handler, xirq_trap_handler0, xirq_trap_handler1, hst]

theorem foldl_run_handler_ack_congr (l : List Handler) (s t : State)
    (hst : s.xirq_trap_handler_ack = t.xirq_trap_handler_ack) :
    (l.foldl run_handler s).xirq_trap_handler_ack =
      (l.foldl run_handler t).xirq_trap_handler_ack := by
  induction l generalizing s t with
  | nil => simpa using hst
  | cons f l ih =>
    simp only [List.foldl_cons]
    exact ih _ _ (run_handler_ack_congr s t f hst)

/-- Dispatching the handlers of the FIRQ8 case from any state whose
accumulator is 0 leaves the accumulator at `firq8_ack`. -/
theorem firq8_ack_eq (r : Resp) (s : State) (hs : s.xirq_trap_handler_ack = 0) :
    (r.firq8_dispatch.foldl run_handler s).xirq_trap_handler_ack = firq8_ack r := by
  unfold firq8_ack
  exact foldl_run_handler_ack_congr _ _ _ (by simpa using hs)

/-- C11.  With the accumulator `xirq_trap_handler_ack` at 0, running
`xirq_trap_handler0` gives 2 and running `xirq_trap_handler1` after it gives
4; in the reverse order the result is 2.  Of the orders in which each of
the two handlers runs exactly once, channel 0 before channel 1 is the only
one that ends with 4. -/
theorem C11_xirq_handler_order (s : State) :
    (xirq_trap_handler0 { s with xirq_trap_handler_ack := 0 }).xirq_trap_handler_ack = 2 ∧
    (xirq_trap_handler1
      (xirq_trap_handler0 { s with xirq_trap_handler_ack := 0 })).xirq_trap_handler_ack = 4 ∧
    (xirq_trap_handler0
      (xirq_trap_handler1 { s with xirq_trap_handler_ack := 0 })).xirq_trap_handler_ack = 2 ∧
    (∀ l : List Handler,
      l.Perm [Handler.xirq_trap_handler0, Handler.xirq_trap_handler1] →
      ((l.foldl run_handler { s with xirq_trap_handler_ack := 0 }).xirq_trap_handler_ack = 4 ↔
        l = [Handler.xirq_trap_handler0, Handler.xirq_trap_handler1])) := by
  refine ⟨by simp [xirq_trap_handler0, u32], by simp [xirq_trap_handler0, xirq_trap_handler1, u32],
    by simp [xirq_trap_handler0, xirq_trap_handler1, u32], ?_⟩
  intro l hl
  have hlen := hl.length_eq
  match l, hl, hlen with
  | [a, b], hl, _ =>
    cases a <;> cases b <;>
      first
      | exact absurd hl (by decide)
      | simp [run_handler, xirq_trap_handler0, xirq_trap_handler1, u32]

/-- The verdict of the FIRQ8 case, for every state on entry. -/
theorem case_firq8_verdict (h : Neorv32H) (caps : Caps) (r : Resp) (s : State)
    (hx : caps.xirq_available ≠ 0) :
    (recorded_passed s (case_firq8 h caps r s) ↔
      r.firq8_mcause = h.TRAP_CODE_FIRQ_8 ∧ firq8_err_cnt r = 0 ∧ firq8_ack r = 4) ∧
    (recorded_failed s (case_firq8 h caps r s) ↔
      ¬ (r.firq8_mcause = h.TRAP_CODE_FIRQ_8 ∧ firq8_err_cnt r = 0 ∧ firq8_ack r = 4)) := by
  have hack : ∀ t : State, t.xirq_trap_handler_ack = 0 →
      (r.firq8_dispatch.foldl run_handler t).xirq_trap_handler_ack = firq8_ack r :=
    fun t ht => firq8_ack_eq r t ht
  simp only [case_firq8, firq8_err_cnt]
  split_ifs <;>
    simp_all [recorded_passed, recorded_failed, csr_write, csr_read, call, asm]

/-- C12.  With the external-interrupt controller available the FIRQ8 case
is recorded as passed if and only if the cause read back is
`TRAP_CODE_FIRQ_8`, the sum of the three return codes (of
`neorv32_xirq_setup` and of the two `neorv32_xirq_install` calls, as the
program adds them up in `xirq_err_cnt`) is 0 and the accumulator
`xirq_trap_handler_ack` is 4; in every other situation it is recorded as
failed, in particular for every accumulator value other than 4.  When the
three return codes are between 0 and 0x1FFFFFFF the sum is their sum as
numbers. -/
theorem C12_firq8_verdict (h : Neorv32H) (caps : Caps) (r : Resp) (s : State)
    (hx : caps.xirq_available ≠ 0) :
    (recorded_passed s (case_firq8 h caps r s) ↔
      r.firq8_mcause = h.TRAP_CODE_FIRQ_8 ∧ firq8_err_cnt r = 0 ∧ firq8_ack r = 4) ∧
    (recorded_failed s (case_firq8 h caps r s) ↔
      ¬ (r.firq8_mcause = h.TRAP_CODE_FIRQ_8 ∧ firq8_err_cnt r = 0 ∧ firq8_ack r = 4)) ∧
    (firq8_ack r ≠ 4 → recorded_failed s (case_firq8 h caps r s)) ∧
    (0 ≤ r.firq8_setup_rc ∧ r.firq8_setup_rc ≤ 0x1FFFFFFF ∧
      0 ≤ r.firq8_install0_rc ∧ r.firq8_install0_rc ≤ 0x1FFFFFFF ∧
      0 ≤ r.firq8_install1_rc ∧ r.firq8_install1_rc ≤ 0x1FFFFFFF →
      firq8_err_cnt r = r.firq8_setup_rc + r.firq8_install0_rc + r.firq8_install1_rc) := by
  obtain ⟨hp, hf⟩ := case_firq8_verdict h caps r s hx
  refine ⟨hp, hf, fun hne => hf.mpr (fun hc => hne hc.2.2), ?_⟩
  rintro ⟨a0, a1, b0, b1, c0, c1⟩
  unfold firq8_err_cnt wrap_int32
  omega

/-- Witness for C12: on the sample machine the hardware dispatches the
handler of channel 1 before that of channel 0; the accumulator ends at 2
and the case is recorded as failed. -/
theorem C12_firq8_verdict_witness :
    sample_caps.xirq_available ≠ 0 ∧ firq8_ack sample_resp_xirq_reversed = 2 ∧
    recorded_failed State.init
      (case_firq8 sample_h sample_caps sample_resp_xirq_reversed State.init) :=
  ⟨by decide, by decide,
    (C12_firq8_verdict sample_h sample_caps sample_resp_xirq_reversed State.init
      (by decide)).2.2.1 (by decide)⟩

/-! ## The trap handler (claim C13) -/

/-- Conversion to `uint32_t` keeps the bits below position 32. -/
theorem testBit_u32 (x i : Nat) (hi : i < 32) : (u32 x).testBit i = x.testBit i := by
  unfold u32
  rw [Nat.testBit_mod_two_pow]
  simp [hi]

/-- C13.  For every prior value of `mstatus`, after `global_trap_handler`
both bits of the MPP field, at the positions `CSR_MSTATUS_MPP_L` and
`CSR_MSTATUS_MPP_H` of the 32-bit register, are 1: the privilege level
restored on return from the trap is machine mode. -/
theorem C13_global_trap_handler_sets_mpp (h : Neorv32H) (mstatus : Nat)
    (hL : h.CSR_MSTATUS_MPP_L < 32) (hH : h.CSR_MSTATUS_MPP_H < 32) :
    (global_trap_handler h mstatus).testBit h.CSR_MSTATUS_MPP_L = true ∧
    (global_trap_handler h mstatus).testBit h.CSR_MSTATUS_MPP_H = true := by
  simp only [global_trap_handler, csrrs, Nat.testBit_or, testBit_u32 _ _ hL,
    testBit_u32 _ _ hH, Nat.one_shiftLeft, Nat.testBit_two_pow_self, Bool.or_true,
    Bool.true_or, and_self]

/-- Witness for C13: with the MPP field at bits 11 and 12 and `mstatus`
holding 0 (return to user mode) on entry, the handler leaves 0x1800. -/
theorem C13_global_trap_handler_sets_mpp_witness :
    sample_h.CSR_MSTATUS_MPP_L < 32 ∧ sample_h.CSR_MSTATUS_MPP_H < 32 ∧
    global_trap_handler sample_h 0 = 0x1800 ∧
    ((global_trap_handler sample_h 0).testBit sample_h.CSR_MSTATUS_MPP_L = true ∧
      (global_trap_handler sample_h 0).testBit sample_h.CSR_MSTATUS_MPP_H = true) :=
  ⟨by decide, by decide, by decide,
    C13_global_trap_handler_sets_mpp sample_h 0 (by decide) (by decide)⟩

/-! ## The PMP cases (claims C14 to C16) -/

/-- The verdict of the PMP user-mode execute case: it is recorded as passed
exactly when the cause read back is not 0, whichever trap it names. -/
theorem case_pmp_execute_verdict (r : Resp) (tmp_a : Nat) (s : State) :
    (recorded_passed s (case_pmp_execute r tmp_a s) ↔ r.pmp_execute_mcause ≠ 0) ∧
    (recorded_failed s (case_pmp_execute r tmp_a s) ↔ r.pmp_execute_mcause = 0) := by
  simp only [case_pmp_execute]
  split_ifs <;>
    simp_all [recorded_passed, recorded_failed, csr_write, csr_read, call, asm,
      goto_user_mode]

/-- C14, the code at the failing input.  After the jump into the protected
region the cause reads 2 (illegal instruction), which is neither 0 nor the
instruction-access fault: the case is recorded as passed. -/
theorem C14_pmp_execute_other_cause_recorded_passed :
    sample_resp_pmp_execute_illegal.pmp_execute_mcause ≠ sample_h.TRAP_CODE_I_ACCESS ∧
    sample_resp_pmp_execute_illegal.pmp_execute_mcause ≠ 0 ∧
    recorded_passed State.init
      (case_pmp_execute sample_resp_pmp_execute_illegal sample_caps.SYSINFO_DSPACE_BASE
        State.init) ∧
    (main sample_build sample_h sample_caps sample_resp_pmp_execute_illegal).1 = 0 := by
  refine ⟨by decide, by decide, ⟨rfl, rfl⟩, by decide⟩

/-- C15.  The PMP user-mode write case is recorded as passed if and only if
the cause read back after the store into the protected region is the
store-access fault `TRAP_CODE_S_ACCESS`; otherwise it is recorded as
failed. -/
theorem C15_pmp_write_verdict (h : Neorv32H) (r : Resp) (tmp_a : Nat) (s : State) :
    (recorded_passed s (case_pmp_write h r tmp_a s) ↔
      r.pmp_write_mcause = h.TRAP_CODE_S_ACCESS) ∧
    (recorded_failed s (case_pmp_write h r tmp_a s) ↔
      r.pmp_write_mcause ≠ h.TRAP_CODE_S_ACCESS) ∧
    (s.trace ++
      [ Event.count CaseId.pmp_write, Event.csr_write Csr.MCAUSE 0,
        Event.call LibFn.cpu_goto_user_mode [],
        Event.call LibFn.cpu_store_unsigned_word [tmp_a, 0],
        Event.csr_read Csr.MCAUSE ] <+: (case_pmp_write h r tmp_a s).trace) := by
  simp only [case_pmp_write]
  split_ifs <;>
    simp_all [recorded_passed, recorded_failed, csr_write, csr_read, call, asm,
      goto_user_mode, List.prefix_append_right_inj, List.cons_prefix_cons,
      List.nil_prefix]

/-- C16.  The PMP lock case locks entry 0 with its mode off, reads
`pmpcfg0`, tries to rewrite it, reads `pmpaddr0`, tries to rewrite it, and
is recorded as passed if and only if `pmpcfg0` reads back equal to the value
read before its rewrite, `pmpaddr0` reads back equal to the value read
before its rewrite, and the cause register reads 0; if a register value
changed or a trap occurred it is recorded as failed. -/
theorem C16_pmp_lock_verdict (r : Resp) (s : State) :
    (recorded_passed s (case_pmp_lock r s) ↔
      r.pmp_lock_cfg_after = r.pmp_lock_cfg_before ∧
        r.pmp_lock_addr_after = r.pmp_lock_addr_before ∧ r.pmp_lock_mcause = 0) ∧
    (recorded_failed s (case_pmp_lock r s) ↔
      ¬ (r.pmp_lock_cfg_after = r.pmp_lock_cfg_before ∧
        r.pmp_lock_addr_after = r.pmp_lock_addr_before ∧ r.pmp_lock_mcause = 0)) ∧
    (s.trace ++
      [ Event.count CaseId.pmp_lock, Event.csr_write Csr.MCAUSE 0,
        Event.csr_write Csr.PMPCFG0 0b10000001, Event.csr_read Csr.PMPCFG0,
        Event.csr_write Csr.PMPCFG0 0b00011001, Event.csr_read Csr.PMPADDR0,
        Event.csr_write Csr.PMPADDR0 0xABABCDCD, Event.csr_read Csr.PMPCFG0 ]
      <+: (case_pmp_lock r s).trace) := by
  simp only [case_pmp_lock]
  split_ifs with h1 h2 h3 <;>
    simp_all [recorded_passed, recorded_failed, csr_write, csr_read, call, asm,
      List.prefix_append_right_inj, List.cons_prefix_cons, List.nil_prefix, eq_comm]

/-! ## The cause register, case by case (claim C18) -/

theorem case_cycle_cause (h : Neorv32H) (r : Resp) (s : State) :
    cause_spec (case_cycle h r) s := by
  simp only [cause_spec, added, case_cycle]
  split_ifs <;> refine ⟨?_, ?_, ?_, ?_⟩ <;>
    (try simp only [csr_write, csr_read, call, asm, goto_user_mode, sim_irq_trigger,
      io_set_bit, io_clear_bit, emit_trace, test_ok_trace, test_fail_trace, count_trace,
      foldl_run_handler_trace, hpm_events, hpm_configure, List.foldl_cons, List.foldl_nil,
      List.nil_append, List.append_assoc, List.cons_append]) <;>
    first
      | rfl
      | (intro _; rfl)

theorem case_instret_cause (h : Neorv32H) (r : Resp) (s : State) :
    cause_spec (case_instret h r) s := by
  simp only [cause_spec, added, case_instret]
  split_ifs <;> refine ⟨?_, ?_, ?_, ?_⟩ <;>
    (try simp only [csr_write, csr_read, call, asm, goto_user_mode, sim_irq_trigger,
      io_set_bit, io_clear_bit, emit_trace, test_ok_trace, test_fail_trace, count_trace,
      foldl_run_handler_trace, hpm_events, hpm_configure, List.foldl_cons, List.foldl_nil,
      List.nil_append, List.append_assoc, List.cons_append]) <;>
    first
      | rfl
      | (intro _; rfl)

theorem case_mcountinhibit_cy_cause (h : Neorv32H) (r : Resp) (s : State) :
    cause_spec (case_mcountinhibit_cy h r) s := by
  simp only [cause_spec, added, case_mcountinhibit_cy]
  split_ifs <;> refine ⟨?_, ?_, ?_, ?_⟩ <;>
    (try simp only [csr_write, csr_read, call, asm, goto_user_mode, sim_irq_trigger,
      io_set_bit, io_clear_bit, emit_trace, test_ok_trace, test_fail_trace, count_trace,
      foldl_run_handler_trace, hpm_events, hpm_configure, List.foldl_cons, List.foldl_nil,
      List.nil_append, List.append_assoc, List.cons_append]) <;>
    first
      | rfl
      | (intro _; rfl)

theorem case_mcounteren_cy_cause (h : Neorv32H) (caps : Caps) (r : Resp) (s : State) :
    cause_spec (case_mcounteren_cy h caps r) s := by
  simp only [cause_spec, added, case_mcounteren_cy]
  split_ifs <;> refine ⟨?_, ?_, ?_, ?_⟩ <;>
    (try simp only [csr_write, csr_read, call, asm, goto_user_mode, sim_irq_trigger,
      io_set_bit, io_clear_bit, emit_trace, test_ok_trace, test_fail_trace, count_trace,
      foldl_run_handler_trace, hpm_events, hpm_configure, List.foldl_cons, List.foldl_nil,
      List.nil_append, List.append_assoc, List.cons_append]) <;>
    first
      | rfl
      | (intro _; rfl)

theorem case_hpm_events_cause (h : Neorv32H) (caps : Caps) (r : Resp) (s : State) :
    cause_spec (case_hpm_events h caps r) s := by
  simp only [cause_spec, added, case_hpm_events]
  split_ifs <;> refine ⟨?_, ?_, ?_, ?_⟩ <;>
    (try simp only [csr_write, csr_read, call, asm, goto_user_mode, sim_irq_trigger,
      io_set_bit, io_clear_bit, emit_trace, test_ok_trace, test_fail_trace, count_trace,
      foldl_run_handler_trace, hpm_events, hpm_configure, List.foldl_cons, List.foldl_nil,
      List.nil_append, List.append_assoc, List.cons_append]) <;>
    first
      | rfl
      | (intro _; rfl)

theorem case_ext_mem_cause (h : Neorv32H) (caps : Caps) (r : Resp) (s : State) :
    cause_spec (case_ext_mem h caps r) s := by
  simp only [cause_spec, added, case_ext_mem]
  split_ifs <;> refine ⟨?_, ?_, ?_, ?_⟩ <;>
    (try simp only [csr_write, csr_read, call, asm, goto_user_mode, sim_irq_trigger,
      io_set_bit, io_clear_bit, emit_trace, test_ok_trace, test_fail_trace, count_trace,
      foldl_run_handler_trace, hpm_events, hpm_configure, List.foldl_cons, List.foldl_nil,
      List.nil_append, List.append_assoc, List.cons_append]) <;>
    first
      | rfl
      | (intro _; rfl)

theorem case_fence_i_cause (r : Resp) (s : State) :
    cause_spec (case_fence_i r) s := by
  simp only [cause_spec, added, case_fence_i]
  split_ifs <;> refine ⟨?_, ?_, ?_, ?_⟩ <;>
    (try simp only [csr_write, csr_read, call, asm, goto_user_mode, sim_irq_trigger,
      io_set_bit, io_clear_bit, emit_trace, test_ok_trace, test_fail_trace, count_trace,
      foldl_run_handler_trace, hpm_events, hpm_configure, List.foldl_cons, List.foldl_nil,
      List.nil_append, List.append_assoc, List.cons_append]) <;>
    first
      | rfl
      | (intro _; rfl)

theorem case_csr_nonexistent_cause (h : Neorv32H) (r : Resp) (s : State) :
    cause_spec (case_csr_nonexistent h r) s := by
  simp only [cause_spec, added, case_csr_nonexistent]
  split_ifs <;> refine ⟨?_, ?_, ?_, ?_⟩ <;>
    (try simp only [csr_write, csr_read, call, asm, goto_user_mode, sim_irq_trigger,
      io_set_bit, io_clear_bit, emit_trace, test_ok_trace, test_fail_trace, count_trace,
      foldl_run_handler_trace, hpm_events, hpm_configure, List.foldl_cons, List.foldl_nil,
      List.nil_append, List.append_assoc, List.cons_append]) <;>
    first
      | rfl
      | (intro _; rfl)

theorem case_csr_ro_write_cause (h : Neorv32H) (r : Resp) (s : State) :
    cause_spec (case_csr_ro_write h r) s := by
  simp only [cause_spec, added, case_csr_ro_write]
  split_ifs <;> refine ⟨?_, ?_, ?_, ?_⟩ <;>
    (try simp only [csr_write, csr_read, call, asm, goto_user_mode, sim_irq_trigger,
      io_set_bit, io_clear_bit, emit_trace, test_ok_trace, test_fail_trace, count_trace,
      foldl_run_handler_trace, hpm_events, hpm_configure, List.foldl_cons, List.foldl_nil,
      List.nil_append, List.append_assoc, List.cons_append]) <;>
    first
      | rfl
      | (intro _; rfl)

theorem case_csr_ro_no_write_cause (r : Resp) (s : State) :
    cause_spec (case_csr_ro_no_write r) s := by
  simp only [cause_spec, added, case_csr_ro_no_write]
  split_ifs <;> refine ⟨?_, ?_, ?_, ?_⟩ <;>
    (try simp only [csr_write, csr_read, call, asm, goto_user_mode, sim_irq_trigger,
      io_set_bit, io_clear_bit, emit_trace, test_ok_trace, test_fail_trace, count_trace,
      foldl_run_handler_trace, hpm_events, hpm_configure, List.foldl_cons, List.foldl_nil,
      List.nil_append, List.append_assoc, List.cons_append]) <;>
    first
      | rfl
      | (intro _; rfl)

theorem case_pending_irq_cause (h : Neorv32H) (r : Resp) (s : State) :
    cause_spec (case_pending_irq h r) s := by
  simp only [cause_spec, added, case_pending_irq]
  split_ifs <;> refine ⟨?_, ?_, ?_, ?_⟩ <;>
    (try simp only [csr_write, csr_read, call, asm, goto_user_mode, sim_irq_trigger,
      io_set_bit, io_clear_bit, emit_trace, test_ok_trace, test_fail_trace, count_trace,
      foldl_run_handler_trace, hpm_events, hpm_configure, List.foldl_cons, List.foldl_nil,
      List.nil_append, List.append_assoc, List.cons_append]) <;>
    first
      | rfl
      | (intro _; rfl)

theorem case_i_align_cause (h : Neorv32H) (caps : Caps) (r : Resp) (s : State) :
    cause_spec (case_i_align h caps r) s := by
  simp only [cause_spec, added, case_i_align]
  split_ifs <;> refine ⟨?_, ?_, ?_, ?_⟩ <;>
    (try simp only [csr_write, csr_read, call, asm, goto_user_mode, sim_irq_trigger,
      io_set_bit, io_clear_bit, emit_trace, test_ok_trace, test_fail_trace, count_trace,
      foldl_run_handler_trace, hpm_events, hpm_configure, List.foldl_cons, List.foldl_nil,
      List.nil_append, List.append_assoc, List.cons_append]) <;>
    first
      | rfl
      | (intro _; rfl)

theorem case_i_acc_cause (h : Neorv32H) (r : Resp) (s : State) :
    cause_spec (case_i_acc h r) s := by
  simp only [cause_spec, added, case_i_acc]
  split_ifs <;> refine ⟨?_, ?_, ?_, ?_⟩ <;>
    (try simp only [csr_write, csr_read, call, asm, goto_user_mode, sim_irq_trigger,
      io_set_bit, io_clear_bit, emit_trace, test_ok_trace, test_fail_trace, count_trace,
      foldl_run_handler_trace, hpm_events, hpm_configure, List.foldl_cons, List.foldl_nil,
      List.nil_append, List.append_assoc, List.cons_append]) <;>
    first
      | rfl
      | (intro _; rfl)

theorem case_i_illeg_cause (h : Neorv32H) (r : Resp) (s : State) :
    cause_spec (case_i_illeg h r) s := by
  simp only [cause_spec, added, case_i_illeg]
  split_ifs <;> refine ⟨?_, ?_, ?_, ?_⟩ <;>
    (try simp only [csr_write, csr_read, call, asm, goto_user_mode, sim_irq_trigger,
      io_set_bit, io_clear_bit, emit_trace, test_ok_trace, test_fail_trace, count_trace,
      foldl_run_handler_trace, hpm_events, hpm_configure, List.foldl_cons, List.foldl_nil,
      List.nil_append, List.append_assoc, List.cons_append]) <;>
    first
      | rfl
      | (intro _; rfl)

theorem case_ci_illeg_cause (h : Neorv32H) (caps : Caps) (r : Resp) (s : State) :
    cause_spec (case_ci_illeg h caps r) s := by
  simp only [cause_spec, added, case_ci_illeg]
  split_ifs <;> refine ⟨?_, ?_, ?_, ?_⟩ <;>
    (try simp only [csr_write, csr_read, call, asm, goto_user_mode, sim_irq_trigger,
      io_set_bit, io_clear_bit, emit_trace, test_ok_trace, test_fail_trace, count_trace,
      foldl_run_handler_trace, hpm_events, hpm_configure, List.foldl_cons, List.foldl_nil,
      List.nil_append, List.append_assoc, List.cons_append]) <;>
    first
      | rfl
      | (intro _; rfl)

theorem case_break_cause (h : Neorv32H) (r : Resp) (s : State) :
    cause_spec (case_break h r) s := by
  simp only [cause_spec, added, case_break]
  split_ifs <;> refine ⟨?_, ?_, ?_, ?_⟩ <;>
    (try simp only [csr_write, csr_read, call, asm, goto_user_mode, sim_irq_trigger,
      io_set_bit, io_clear_bit, emit_trace, test_ok_trace, test_fail_trace, count_trace,
      foldl_run_handler_trace, hpm_events, hpm_configure, List.foldl_cons, List.foldl_nil,
      List.nil_append, List.append_assoc, List.cons_append]) <;>
    first
      | rfl
      | (intro _; rfl)

theorem case_l_align_cause (h : Neorv32H) (r : Resp) (s : State) :
    cause_spec (case_l_align h r) s := by
  simp only [cause_spec, added, case_l_align]
  split_ifs <;> refine ⟨?_, ?_, ?_, ?_⟩ <;>
    (try simp only [csr_write, csr_read, call, asm, goto_user_mode, sim_irq_trigger,
      io_set_bit, io_clear_bit, emit_trace, test_ok_trace, test_fail_trace, count_trace,
      foldl_run_handler_trace, hpm_events, hpm_configure, List.foldl_cons, List.foldl_nil,
      List.nil_append, List.append_assoc, List.cons_append]) <;>
    first
      | rfl
      | (intro _; rfl)

theorem case_l_acc_cause (h : Neorv32H) (r : Resp) (s : State) :
    cause_spec (case_l_acc h r) s := by
  simp only [cause_spec, added, case_l_acc]
  split_ifs <;> refine ⟨?_, ?_, ?_, ?_⟩ <;>
    (try simp only [csr_write, csr_read, call, asm, goto_user_mode, sim_irq_trigger,
      io_set_bit, io_clear_bit, emit_trace, test_ok_trace, test_fail_trace, count_trace,
      foldl_run_handler_trace, hpm_events, hpm_configure, List.foldl_cons, List.foldl_nil,
      List.nil_append, List.append_assoc, List.cons_append]) <;>
    first
      | rfl
      | (intro _; rfl)

theorem case_s_align_cause (h : Neorv32H) (r : Resp) (s : State) :
    cause_spec (case_s_align h r) s := by
  simp only [cause_spec, added, case_s_align]
  split_ifs <;> refine ⟨?_, ?_, ?_, ?_⟩ <;>
    (try simp only [csr_write, csr_read, call, asm, goto_user_mode, sim_irq_trigger,
      io_set_bit, io_clear_bit, emit_trace, test_ok_trace, test_fail_trace, count_trace,
      foldl_run_handler_trace, hpm_events, hpm_configure, List.foldl_cons, List.foldl_nil,
      List.nil_append, List.append_assoc, List.cons_append]) <;>
    first
      | rfl
      | (intro _; rfl)

theorem case_s_acc_cause (h : Neorv32H) (r : Resp) (s : State) :
    cause_spec (case_s_acc h r) s := by
  simp only [cause_spec, added, case_s_acc]
  split_ifs <;> refine ⟨?_, ?_, ?_, ?_⟩ <;>
    (try simp only [csr_write, csr_read, call, asm, goto_user_mode, sim_irq_trigger,
      io_set_bit, io_clear_bit, emit_trace, test_ok_trace, test_fail_trace, count_trace,
      foldl_run_handler_trace, hpm_events, hpm_configure, List.foldl_cons, List.foldl_nil,
      List.nil_append, List.append_assoc, List.cons_append]) <;>
    first
      | rfl
      | (intro _; rfl)

theorem case_ecall_m_cause (h : Neorv32H) (r : Resp) (s : State) :
    cause_spec (case_ecall_m h r) s := by
  simp only [cause_spec, added, case_ecall_m]
  split_ifs <;> refine ⟨?_, ?_, ?_, ?_⟩ <;>
    (try simp only [csr_write, csr_read, call, asm, goto_user_mode, sim_irq_trigger,
      io_set_bit, io_clear_bit, emit_trace, test_ok_trace, test_fail_trace, count_trace,
      foldl_run_handler_trace, hpm_events, hpm_configure, List.foldl_cons, List.foldl_nil,
      List.nil_append, List.append_assoc, List.cons_append]) <;>
    first
      | rfl
      | (intro _; rfl)

theorem case_ecall_u_cause (h : Neorv32H) (caps : Caps) (r : Resp) (s : State) :
    cause_spec (case_ecall_u h caps r) s := by
  simp only [cause_spec, added, case_ecall_u]
  split_ifs <;> refine ⟨?_, ?_, ?_, ?_⟩ <;>
    (try simp only [csr_write, csr_read, call, asm, goto_user_mode, sim_irq_trigger,
      io_set_bit, io_clear_bit, emit_trace, test_ok_trace, test_fail_trace, count_trace,
      foldl_run_handler_trace, hpm_events, hpm_configure, List.foldl_cons, List.foldl_nil,
      List.nil_append, List.append_assoc, List.cons_append]) <;>
    first
      | rfl
      | (intro _; rfl)

theorem case_mti_cause (h : Neorv32H) (r : Resp) (s : State) :
    cause_spec (case_mti h r) s := by
  simp only [cause_spec, added, case_mti]
  split_ifs <;> refine ⟨?_, ?_, ?_, ?_⟩ <;>
    (try simp only [csr_write, csr_read, call, asm, goto_user_mode, sim_irq_trigger,
      io_set_bit, io_clear_bit, emit_trace, test_ok_trace, test_fail_trace, count_trace,
      foldl_run_handler_trace, hpm_events, hpm_configure, List.foldl_cons, List.foldl_nil,
      List.nil_append, List.append_assoc, List.cons_append]) <;>
    first
      | rfl
      | (intro _; rfl)

theorem case_msi_cause (h : Neorv32H) (r : Resp) (s : State) :
    cause_spec (case_msi h r) s := by
  simp only [cause_spec, added, case_msi]
  split_ifs <;> refine ⟨?_, ?_, ?_, ?_⟩ <;>
    (try simp only [csr_write, csr_read, call, asm, goto_user_mode, sim_irq_trigger,
      io_set_bit, io_clear_bit, emit_trace, test_ok_trace, test_fail_trace, count_trace,
      foldl_run_handler_trace, hpm_events, hpm_configure, List.foldl_cons, List.foldl_nil,
      List.nil_append, List.append_assoc, List.cons_append]) <;>
    first
      | rfl
      | (intro _; rfl)

theorem case_mei_cause (h : Neorv32H) (r : Resp) (s : State) :
    cause_spec (case_mei h r) s := by
  simp only [cause_spec, added, case_mei]
  split_ifs <;> refine ⟨?_, ?_, ?_, ?_⟩ <;>
    (try simp only [csr_write, csr_read, call, asm, goto_user_mode, sim_irq_trigger,
      io_set_bit, io_clear_bit, emit_trace, test_ok_trace, test_fail_trace, count_trace,
      foldl_run_handler_trace, hpm_events, hpm_configure, List.foldl_cons, List.foldl_nil,
      List.nil_append, List.append_assoc, List.cons_append]) <;>
    first
      | rfl
      | (intro _; rfl)

theorem case_nmi_cause (h : Neorv32H) (r : Resp) (s : State) :
    cause_spec (case_nmi h r) s := by
  simp only [cause_spec, added, case_nmi]
  split_ifs <;> refine ⟨?_, ?_, ?_, ?_⟩ <;>
    (try simp only [csr_write, csr_read, call, asm, goto_user_mode, sim_irq_trigger,
      io_set_bit, io_clear_bit, emit_trace, test_ok_trace, test_fail_trace, count_trace,
      foldl_run_handler_trace, hpm_events, hpm_configure, List.foldl_cons, List.foldl_nil,
      List.nil_append, List.append_assoc, List.cons_append]) <;>
    first
      | rfl
      | (intro _; rfl)

theorem case_firq0_cause (h : Neorv32H) (caps : Caps) (r : Resp) (s : State) :
    cause_spec (case_firq0 h caps r) s := by
  simp only [cause_spec, added, case_firq0]
  split_ifs <;> refine ⟨?_, ?_, ?_, ?_⟩ <;>
    (try simp only [csr_write, csr_read, call, asm, goto_user_mode, sim_irq_trigger,
      io_set_bit, io_clear_bit, emit_trace, test_ok_trace, test_fail_trace, count_trace,
      foldl_run_handler_trace, hpm_events, hpm_configure, List.foldl_cons, List.foldl_nil,
      List.nil_append, List.append_assoc, List.cons_append]) <;>
    first
      | rfl
      | (intro _; rfl)
      | (intro hc; exact absurd hc (by decide))

theorem case_firq2_cause (h : Neorv32H) (caps : Caps) (r : Resp) (s : State) :
    cause_spec (case_firq2 h caps r) s := by
  simp only [cause_spec, added, case_firq2]
  split_ifs <;> refine ⟨?_, ?_, ?_, ?_⟩ <;>
    (try simp only [csr_write, csr_read, call, asm, goto_user_mode, sim_irq_trigger,
      io_set_bit, io_clear_bit, emit_trace, test_ok_trace, test_fail_trace, count_trace,
      foldl_run_handler_trace, hpm_events, hpm_configure, List.foldl_cons, List.foldl_nil,
      List.nil_append, List.append_assoc, List.cons_append]) <;>
    first
      | rfl
      | (intro _; rfl)
      | (intro hc; exact absurd hc (by decide))

theorem case_firq3_cause (h : Neorv32H) (caps : Caps) (r : Resp) (s : State) :
    cause_spec (case_firq3 h caps r) s := by
  simp only [cause_spec, added, case_firq3]
  split_ifs <;> refine ⟨?_, ?_, ?_, ?_⟩ <;>
    (try simp only [csr_write, csr_read, call, asm, goto_user_mode, sim_irq_trigger,
      io_set_bit, io_clear_bit, emit_trace, test_ok_trace, test_fail_trace, count_trace,
      foldl_run_handler_trace, hpm_events, hpm_configure, List.foldl_cons, List.foldl_nil,
      List.nil_append, List.append_assoc, List.cons_append]) <;>
    first
      | rfl
      | (intro _; rfl)
      | (intro hc; exact absurd hc (by decide))

theorem case_firq4_cause (h : Neorv32H) (caps : Caps) (r : Resp) (s : State) :
    cause_spec (case_firq4 h caps r) s := by
  simp only [cause_spec, added, case_firq4]
  split_ifs <;> refine ⟨?_, ?_, ?_, ?_⟩ <;>
    (try simp only [csr_write, csr_read, call, asm, goto_user_mode, sim_irq_trigger,
      io_set_bit, io_clear_bit, emit_trace, test_ok_trace, test_fail_trace, count_trace,
      foldl_run_handler_trace, hpm_events, hpm_configure, List.foldl_cons, List.foldl_nil,
      List.nil_append, List.append_assoc, List.cons_append]) <;>
    first
      | rfl
      | (intro _; rfl)
      | (intro hc; exact absurd hc (by decide))

theorem case_firq5_cause (h : Neorv32H) (caps : Caps) (r : Resp) (s : State) :
    cause_spec (case_firq5 h caps r) s := by
  simp only [cause_spec, added, case_firq5]
  split_ifs <;> refine ⟨?_, ?_, ?_, ?_⟩ <;>
    (try simp only [csr_write, csr_read, call, asm, goto_user_mode, sim_irq_trigger,
      io_set_bit, io_clear_bit, emit_trace, test_ok_trace, test_fail_trace, count_trace,
      foldl_run_handler_trace, hpm_events, hpm_configure, List.foldl_cons, List.foldl_nil,
      List.nil_append, List.append_assoc, List.cons_append]) <;>
    first
      | rfl
      | (intro _; rfl)
      | (intro hc; exact absurd hc (by decide))

theorem case_firq6_cause (h : Neorv32H) (caps : Caps) (r : Resp) (s : State) :
    cause_spec (case_firq6 h caps r) s := by
  simp only [cause_spec, added, case_firq6]
  split_ifs <;> refine ⟨?_, ?_, ?_, ?_⟩ <;>
    (try simp only [csr_write, csr_read, call, asm, goto_user_mode, sim_irq_trigger,
      io_set_bit, io_clear_bit, emit_trace, test_ok_trace, test_fail_trace, count_trace,
      foldl_run_handler_trace, hpm_events, hpm_configure, List.foldl_cons, List.foldl_nil,
      List.nil_append, List.append_assoc, List.cons_append]) <;>
    first
      | rfl
      | (intro _; rfl)
      | (intro hc; exact absurd hc (by decide))

theorem case_firq7_cause (h : Neorv32H) (caps : Caps) (r : Resp) (s : State) :
    cause_spec (case_firq7 h caps r) s := by
  simp only [cause_spec, added, case_firq7]
  split_ifs <;> refine ⟨?_, ?_, ?_, ?_⟩ <;>
    (try simp only [csr_write, csr_read, call, asm, goto_user_mode, sim_irq_trigger,
      io_set_bit, io_clear_bit, emit_trace, test_ok_trace, test_fail_trace, count_trace,
      foldl_run_handler_trace, hpm_events, hpm_configure, List.foldl_cons, List.foldl_nil,
      List.nil_append, List.append_assoc, List.cons_append]) <;>
    first
      | rfl
      | (intro _; rfl)
      | (intro hc; exact absurd hc (by decide))

theorem case_firq10_11_cause (h : Neorv32H) (caps : Caps) (r : Resp) (s : State) :
    cause_spec (case_firq10_11 h caps r) s := by
  simp only [cause_spec, added, case_firq10_11]
  split_ifs <;> refine ⟨?_, ?_, ?_, ?_⟩ <;>
    (try simp only [csr_write, csr_read, call, asm, goto_user_mode, sim_irq_trigger,
      io_set_bit, io_clear_bit, emit_trace, test_ok_trace, test_fail_trace, count_trace,
      foldl_run_handler_trace, hpm_events, hpm_configure, List.foldl_cons, List.foldl_nil,
      List.nil_append, List.append_assoc, List.cons_append]) <;>
    first
      | rfl
      | (intro _; rfl)
      | (intro hc; exact absurd hc (by decide))

theorem case_wfi_cause (h : Neorv32H) (r : Resp) (s : State) :
    cause_spec (case_wfi h r) s := by
  simp only [cause_spec, added, case_wfi]
  split_ifs <;> refine ⟨?_, ?_, ?_, ?_⟩ <;>
    (try simp only [csr_write, csr_read, call, asm, goto_user_mode, sim_irq_trigger,
      io_set_bit, io_clear_bit, emit_trace, test_ok_trace, test_fail_trace, count_trace,
      foldl_run_handler_trace, hpm_events, hpm_configure, List.foldl_cons, List.foldl_nil,
      List.nil_append, List.append_assoc, List.cons_append]) <;>
    first
      | rfl
      | (intro _; rfl)

theorem case_csr_user_cause (h : Neorv32H) (caps : Caps) (r : Resp) (s : State) :
    cause_spec (case_csr_user h caps r) s := by
  simp only [cause_spec, added, case_csr_user]
  split_ifs <;> refine ⟨?_, ?_, ?_, ?_⟩ <;>
    (try simp only [csr_write, csr_read, call, asm, goto_user_mode, sim_irq_trigger,
      io_set_bit, io_clear_bit, emit_trace, test_ok_trace, test_fail_trace, count_trace,
      foldl_run_handler_trace, hpm_events, hpm_configure, List.foldl_cons, List.foldl_nil,
      List.nil_append, List.append_assoc, List.cons_append]) <;>
    first
      | rfl
      | (intro _; rfl)

theorem case_rte_debug_cause (b : Build) (h : Neorv32H) (r : Resp) (s : State) :
    cause_spec (case_rte_debug b h r) s := by
  simp only [cause_spec, added, case_rte_debug]
  split_ifs <;> refine ⟨?_, ?_, ?_, ?_⟩ <;>
    (try simp only [csr_write, csr_read, call, asm, goto_user_mode, sim_irq_trigger,
      io_set_bit, io_clear_bit, emit_trace, test_ok_trace, test_fail_trace, count_trace,
      foldl_run_handler_trace, hpm_events, hpm_configure, List.foldl_cons, List.foldl_nil,
      List.nil_append, List.append_assoc, List.cons_append]) <;>
    first
      | rfl
      | (intro _; rfl)

theorem case_lrsc_ok_cause (b : Build) (h : Neorv32H) (caps : Caps) (r : Resp) (s : State) :
    cause_spec (case_lrsc_ok b h caps r) s := by
  simp only [cause_spec, added, case_lrsc_ok]
  split_ifs <;> refine ⟨?_, ?_, ?_, ?_⟩ <;>
    (try simp only [csr_write, csr_read, call, asm, goto_user_mode, sim_irq_trigger,
      io_set_bit, io_clear_bit, emit_trace, test_ok_trace, test_fail_trace, count_trace,
      foldl_run_handler_trace, hpm_events, hpm_configure, List.foldl_cons, List.foldl_nil,
      List.nil_append, List.append_assoc, List.cons_append]) <;>
    first
      | rfl
      | (intro _; rfl)

theorem case_lrsc_fail1_cause (b : Build) (h : Neorv32H) (caps : Caps) (r : Resp) (s : State) :
    cause_spec (case_lrsc_fail1 b h caps r) s := by
  simp only [cause_spec, added, case_lrsc_fail1]
  split_ifs <;> refine ⟨?_, ?_, ?_, ?_⟩ <;>
    (try simp only [csr_write, csr_read, call, asm, goto_user_mode, sim_irq_trigger,
      io_set_bit, io_clear_bit, emit_trace, test_ok_trace, test_fail_trace, count_trace,
      foldl_run_handler_trace, hpm_events, hpm_configure, List.foldl_cons, List.foldl_nil,
      List.nil_append, List.append_assoc, List.cons_append]) <;>
    first
      | rfl
      | (intro _; rfl)

theorem case_lrsc_fail2_cause (b : Build) (h : Neorv32H) (caps : Caps) (r : Resp) (s : State) :
    cause_spec (case_lrsc_fail2 b h caps r) s := by
  simp only [cause_spec, added, case_lrsc_fail2]
  split_ifs <;> refine ⟨?_, ?_, ?_, ?_⟩ <;>
    (try simp only [csr_write, csr_read, call, asm, goto_user_mode, sim_irq_trigger,
      io_set_bit, io_clear_bit, emit_trace, test_ok_trace, test_fail_trace, count_trace,
      foldl_run_handler_trace, hpm_events, hpm_configure, List.foldl_cons, List.foldl_nil,
      List.nil_append, List.append_assoc, List.cons_append]) <;>
    first
      | rfl
      | (intro _; rfl)

theorem case_pmp_create_cause (caps : Caps) (r : Resp) (s : State) :
    cause_spec (fun s => (case_pmp_create caps r s).1) s := by
  simp only [cause_spec, added, case_pmp_create]
  split_ifs <;> refine ⟨?_, ?_, ?_, ?_⟩ <;>
    (try simp only [csr_write, csr_read, call, asm, goto_user_mode, sim_irq_trigger,
      io_set_bit, io_clear_bit, emit_trace, test_ok_trace, test_fail_trace, count_trace,
      foldl_run_handler_trace, hpm_events, hpm_configure, List.foldl_cons, List.foldl_nil,
      List.nil_append, List.append_assoc, List.cons_append]) <;>
    first
      | rfl
      | (intro _; rfl)

theorem case_pmp_execute_cause (r : Resp) (tmp_a : Nat) (s : State) :
    cause_spec (case_pmp_execute r tmp_a) s := by
  simp only [cause_spec, added, case_pmp_execute]
  split_ifs <;> refine ⟨?_, ?_, ?_, ?_⟩ <;>
    (try simp only [csr_write, csr_read, call, asm, goto_user_mode, sim_irq_trigger,
      io_set_bit, io_clear_bit, emit_trace, test_ok_trace, test_fail_trace, count_trace,
      foldl_run_handler_trace, hpm_events, hpm_configure, List.foldl_cons, List.foldl_nil,
      List.nil_append, List.append_assoc, List.cons_append]) <;>
    first
      | rfl
      | (intro _; rfl)

theorem case_pmp_read_cause (h : Neorv32H) (r : Resp) (tmp_a : Nat) (s : State) :
    cause_spec (case_pmp_read h r tmp_a) s := by
  simp only [cause_spec, added, case_pmp_read]
  split_ifs <;> refine ⟨?_, ?_, ?_, ?_⟩ <;>
    (try simp only [csr_write, csr_read, call, asm, goto_user_mode, sim_irq_trigger,
      io_set_bit, io_clear_bit, emit_trace, test_ok_trace, test_fail_trace, count_trace,
      foldl_run_handler_trace, hpm_events, hpm_configure, List.foldl_cons, List.foldl_nil,
      List.nil_append, List.append_assoc, List.cons_append]) <;>
    first
      | rfl
      | (intro _; rfl)

theorem case_pmp_write_cause (h : Neorv32H) (r : Resp) (tmp_a : Nat) (s : State) :
    cause_spec (case_pmp_write h r tmp_a) s := by
  simp only [cause_spec, added, case_pmp_write]
  split_ifs <;> refine ⟨?_, ?_, ?_, ?_⟩ <;>
    (try simp only [csr_write, csr_read, call, asm, goto_user_mode, sim_irq_trigger,
      io_set_bit, io_clear_bit, emit_trace, test_ok_trace, test_fail_trace, count_trace,
      foldl_run_handler_trace, hpm_events, hpm_configure, List.foldl_cons, List.foldl_nil,
      List.nil_append, List.append_assoc, List.cons_append]) <;>
    first
      | rfl
      | (intro _; rfl)

theorem case_pmp_lock_cause (r : Resp) (s : State) :
    cause_spec (case_pmp_lock r) s := by
  simp only [cause_spec, added, case_pmp_lock]
  split_ifs <;> refine ⟨?_, ?_, ?_, ?_⟩ <;>
    (try simp only [csr_write, csr_read, call, asm, goto_user_mode, sim_irq_trigger,
      io_set_bit, io_clear_bit, emit_trace, test_ok_trace, test_fail_trace, count_trace,
      foldl_run_handler_trace, hpm_events, hpm_configure, List.foldl_cons, List.foldl_nil,
      List.nil_append, List.append_assoc, List.cons_append]) <;>
    first
      | rfl
      | (intro _; rfl)

theorem case_firq8_cause (h : Neorv32H) (caps : Caps) (r : Resp) (s : State) :
    cause_spec (case_firq8 h caps r) s := by
  have hack : ∀ t : State, t.xirq_trap_handler_ack = 0 →
      (r.firq8_dispatch.foldl run_handler t).xirq_trap_handler_ack = firq8_ack r :=
    fun t ht => firq8_ack_eq r t ht
  simp only [cause_spec, added, case_firq8]
  simp only [csr_write, csr_read, call, asm, emit_ack, count_ack, hack, implies_true]
  split_ifs <;> refine ⟨?_, ?_, ?_, ?_⟩ <;>
    (try simp only [csr_write, csr_read, call, asm, goto_user_mode, sim_irq_trigger,
      io_set_bit, io_clear_bit, emit_trace, test_ok_trace, test_fail_trace, count_trace,
      foldl_run_handler_trace, hpm_events, hpm_configure, List.foldl_cons, List.foldl_nil,
      List.nil_append, List.append_assoc, List.cons_append]) <;>
    first
      | rfl
      | (intro _; rfl)

/-- C18.  Every case of `main`, started in any state: the entries it adds
to the trace contain no stimulus and no read of the cause before the case
itself has written 0 to `CSR_MCAUSE` (only availability queries and the
mark of `cnt_test++` come earlier), so the write comes after everything the
preceding case did and before the stimulus of this case; a case that is
counted does contain the write; and whatever value the cause register
holds on entry, for instance the one left by the `ecall` after the verdict
of a PMP case, every read of the cause in the case returns 0 when the
hardware delivers no trap during the case. -/
theorem C18_cause_cleared_before_stimulus (b : Build) (h : Neorv32H) (caps : Caps)
    (r : Resp) (c : CaseId) (s : State) :
    cause_spec (case_code b h caps r c) s := by
  cases c
  · exact case_cycle_cause h r s
  · exact case_instret_cause h r s
  · exact case_mcountinhibit_cy_cause h r s
  · exact case_mcounteren_cy_cause h caps r s
  · exact case_hpm_events_cause h caps r s
  · exact case_ext_mem_cause h caps r s
  · exact case_fence_i_cause r s
  · exact case_csr_nonexistent_cause h r s
  · exact case_csr_ro_write_cause h r s
  · exact case_csr_ro_no_write_cause r s
  · exact case_pending_irq_cause h r s
  · exact case_i_align_cause h caps r s
  · exact case_i_acc_cause h r s
  · exact case_i_illeg_cause h r s
  · exact case_ci_illeg_cause h caps r s
  · exact case_break_cause h r s
  · exact case_l_align_cause h r s
  · exact case_l_acc_cause h r s
  · exact case_s_align_cause h r s
  · exact case_s_acc_cause h r s
  · exact case_ecall_m_cause h r s
  · exact case_ecall_u_cause h caps r s
  · exact case_mti_cause h r s
  · exact case_msi_cause h r s
  · exact case_mei_cause h r s
  · exact case_nmi_cause h r s
  · exact case_firq0_cause h caps r s
  · exact case_firq2_cause h caps r s
  · exact case_firq3_cause h caps r s
  · exact case_firq4_cause h caps r s
  · exact case_firq5_cause h caps r s
  · exact case_firq6_cause h caps r s
  · exact case_firq7_cause h caps r s
  · exact case_firq8_cause h caps r s
  · exact case_firq10_11_cause h caps r s
  · exact case_wfi_cause h r s
  · exact case_csr_user_cause h caps r s
  · exact case_rte_debug_cause b h r s
  · exact case_pmp_create_cause caps r s
  · exact case_pmp_execute_cause r caps.SYSINFO_DSPACE_BASE s
  · exact case_pmp_read_cause h r caps.SYSINFO_DSPACE_BASE s
  · exact case_pmp_write_cause h r caps.SYSINFO_DSPACE_BASE s
  · exact case_pmp_lock_cause r s
  · exact case_lrsc_ok_cause b h caps r s
  · exact case_lrsc_fail1_cause b h caps r s
  · exact case_lrsc_fail2_cause b h caps r s

/-! ## Cases run in user mode (claim C17) -/

/-- The three cases whose applicability check is MISA.U, with user mode
absent: each is skipped and adds no switch to user mode to the trace. -/
theorem user_mode_cases_absent (h : Neorv32H) (caps : Caps) (r : Resp) (s : State)
    (hU : caps.misa &&& (1 <<< h.CSR_MISA_U) = 0) :
    switches_privilege (added (case_mcounteren_cy h caps r) s) = false ∧
    switches_privilege (added (case_ecall_u h caps r) s) = false ∧
    switches_privilege (added (case_csr_user h caps r) s) = false := by
  refine ⟨?_, ?_, ?_⟩
  · simp only [added, case_mcounteren_cy, hU, ne_eq, not_true_eq_false, if_false]
    rfl
  · simp only [added, case_ecall_u, hU, ne_eq, not_true_eq_false, if_false]
    rfl
  · simp only [added, case_csr_user, hU, ne_eq, not_true_eq_false, if_false]
    rfl

/-- The three cases whose applicability check is MISA.U, with user mode
present: each switches to user mode. -/
theorem user_mode_cases_present (h : Neorv32H) (caps : Caps) (r : Resp) (s : State)
    (hU : caps.misa &&& (1 <<< h.CSR_MISA_U) ≠ 0) :
    switches_privilege (added (case_mcounteren_cy h caps r) s) = true ∧
    switches_privilege (added (case_ecall_u h caps r) s) = true ∧
    switches_privilege (added (case_csr_user h caps r) s) = true := by
  refine ⟨?_, ?_, ?_⟩
  · simp only [added, case_mcounteren_cy, hU, ne_eq, not_false_eq_true, if_true]
    split_ifs <;>
      simp only [csr_write, csr_read, call, asm, goto_user_mode, emit_trace, test_ok_trace,
        test_fail_trace, count_trace, List.nil_append, List.append_assoc,
        List.cons_append] <;> rfl
  · simp only [added, case_ecall_u, hU, ne_eq, not_false_eq_true, if_true]
    split_ifs <;>
      simp only [csr_write, csr_read, call, asm, goto_user_mode, emit_trace, test_ok_trace,
        test_fail_trace, count_trace, List.nil_append, List.append_assoc,
        List.cons_append] <;> rfl
  · simp only [added, case_csr_user, hU, ne_eq, not_false_eq_true, if_true]
    split_ifs <;>
      simp only [csr_write, csr_read, call, asm, goto_user_mode, emit_trace, test_ok_trace,
        test_fail_trace, count_trace, List.nil_append, List.append_assoc,
        List.cons_append] <;> rfl

/-- The PMP user-mode execute case switches to user mode, whatever MISA
reports. -/
theorem case_pmp_execute_switches (r : Resp) (tmp_a : Nat) (s : State) :
    switches_privilege (added (case_pmp_execute r tmp_a) s) = true := by
  simp only [added, case_pmp_execute]
  split_ifs <;>
    simp only [csr_write, csr_read, call, asm, goto_user_mode, emit_trace, test_ok_trace,
      test_fail_trace, count_trace, List.nil_append, List.append_assoc,
      List.cons_append] <;> rfl

theorem switches_privilege_append (l₁ l₂ : List Event) :
    switches_privilege (l₁ ++ l₂) = (switches_privilege l₁ || switches_privilege l₂) := by
  simp [switches_privilege]

/-- With a PMP region the PMP block switches to user mode. -/
theorem case_pmp_switches (h : Neorv32H) (caps : Caps) (r : Resp) (s : State)
    (hp : caps.pmp_get_num_regions ≠ 0) :
    switches_privilege (added (case_pmp h caps r) s) = true := by
  obtain ⟨l1, _, _, _⟩ := case_pmp_lock_cause r
    (case_pmp_write h r caps.SYSINFO_DSPACE_BASE
      (case_pmp_read h r caps.SYSINFO_DSPACE_BASE
        (case_pmp_execute r caps.SYSINFO_DSPACE_BASE
          (case_pmp_create caps r
            (call LibFn.cpu_pmp_get_num_regions [] { s with trace := [] })).1)))
  obtain ⟨l2, _, _, _⟩ := case_pmp_write_cause h r caps.SYSINFO_DSPACE_BASE
    (case_pmp_read h r caps.SYSINFO_DSPACE_BASE
      (case_pmp_execute r caps.SYSINFO_DSPACE_BASE
        (case_pmp_create caps r
          (call LibFn.cpu_pmp_get_num_regions [] { s with trace := [] })).1))
  obtain ⟨l3, _, _, _⟩ := case_pmp_read_cause h r caps.SYSINFO_DSPACE_BASE
    (case_pmp_execute r caps.SYSINFO_DSPACE_BASE
      (case_pmp_create caps r
        (call LibFn.cpu_pmp_get_num_regions [] { s with trace := [] })).1)
  obtain ⟨l4, _, _, _⟩ := case_pmp_execute_cause r caps.SYSINFO_DSPACE_BASE
    (case_pmp_create caps r
      (call LibFn.cpu_pmp_get_num_regions [] { s with trace := [] })).1
  have l5 := case_pmp_execute_switches r caps.SYSINFO_DSPACE_BASE
    (case_pmp_create caps r
      (call LibFn.cpu_pmp_get_num_regions [] { s with trace := [] })).1
  unfold added at *
  rw [case_pmp_pos h caps r _ hp, l1, l2, l3, l4]
  simp only [switches_privilege_append, l5, Bool.or_true, Bool.true_or]

/-- Without a PMP region the PMP block does not switch to user mode. -/
theorem case_pmp_no_switch (h : Neorv32H) (caps : Caps) (r : Resp) (s : State)
    (hp : caps.pmp_get_num_regions = 0) :
    switches_privilege (added (case_pmp h caps r) s) = false := by
  unfold added
  rw [case_pmp_neg h caps r _ hp]
  rfl

/-- C17, as stated, fails.  On a machine without user mode (MISA.U clear)
that implements the PMP, the PMP block runs: its five cases are counted and
it switches to user mode.  The WFI case, which has no check at all, is
counted and switches to user mode as well. -/
theorem C17_counterexample_user_mode_absent :
    sample_caps_no_u.misa &&& (1 <<< sample_h.CSR_MISA_U) = 0 ∧
    (case_pmp sample_h sample_caps_no_u sample_resp State.init).cnt_test = 5 ∧
    counts (case_pmp sample_h sample_caps_no_u sample_resp State.init) =
      [CaseId.pmp_create, CaseId.pmp_execute, CaseId.pmp_read, CaseId.pmp_write,
        CaseId.pmp_lock] ∧
    switches_privilege (added (case_pmp sample_h sample_caps_no_u sample_resp) State.init)
      = true ∧
    (case_wfi sample_h sample_resp State.init).cnt_test = 1 ∧
    switches_privilege (added (case_wfi sample_h sample_resp) State.init) = true ∧
    CaseId.pmp_read ∈ counts (main sample_build sample_h sample_caps_no_u sample_resp).2 ∧
    CaseId.wfi ∈ counts (main sample_build sample_h sample_caps_no_u sample_resp).2 := by
  refine ⟨by decide, by decide, by decide, by decide, by decide, by decide, by decide,
    by decide⟩

/-- C17, amended.  The cases mcounteren.cy, environment call from U-mode
and invalid CSR access from user mode are run and counted only when MISA
reports user mode: with user mode absent each of them is skipped, moves no
counter and does not switch to user mode; with user mode present each is
counted once and switches to user mode.  The PMP user-mode execute, read
and write cases are behind the check of the PMP block: without a PMP region
the block is skipped, moves no counter and does not switch to user mode;
with a PMP region the cases are counted and the block switches to user
mode, whatever MISA reports. -/
theorem C17_user_mode_cases (b : Build) (h : Neorv32H) (caps : Caps) (r : Resp)
    (s : State) :
    (caps.misa &&& (1 <<< h.CSR_MISA_U) = 0 →
      (skipped s (case_mcounteren_cy h caps r s) ∧
        switches_privilege (added (case_mcounteren_cy h caps r) s) = false) ∧
      (skipped s (case_ecall_u h caps r s) ∧
        switches_privilege (added (case_ecall_u h caps r) s) = false) ∧
      (skipped s (case_csr_user h caps r s) ∧
        switches_privilege (added (case_csr_user h caps r) s) = false)) ∧
    (caps.misa &&& (1 <<< h.CSR_MISA_U) ≠ 0 →
      (ran_once CaseId.mcounteren_cy s (case_mcounteren_cy h caps r s) ∧
        switches_privilege (added (case_mcounteren_cy h caps r) s) = true) ∧
      (ran_once CaseId.ecall_u s (case_ecall_u h caps r s) ∧
        switches_privilege (added (case_ecall_u h caps r) s) = true) ∧
      (ran_once CaseId.csr_user s (case_csr_user h caps r s) ∧
        switches_privilege (added (case_csr_user h caps r) s) = true)) ∧
    (caps.pmp_get_num_regions = 0 →
      skipped s (case_pmp h caps r s) ∧
        switches_privilege (added (case_pmp h caps r) s) = false) ∧
    (caps.pmp_get_num_regions ≠ 0 →
      counts (case_pmp h caps r s) = counts s ++
        [CaseId.pmp_create, CaseId.pmp_execute, CaseId.pmp_read, CaseId.pmp_write,
          CaseId.pmp_lock] ∧
      switches_privilege (added (case_pmp h caps r) s) = true) := by
  refine ⟨?_, ?_, ?_, ?_⟩
  · intro hU
    obtain ⟨u1, u2, u3⟩ := user_mode_cases_absent h caps r s hU
    have hn : ∀ c, (c = CaseId.mcounteren_cy ∨ c = CaseId.ecall_u ∨ c = CaseId.csr_user) →
        ¬ applicable b h caps c := by
      intro c hc
      rcases hc with rfl | rfl | rfl <;> simp [applicable, hU]
    exact ⟨⟨(case_mcounteren_cy_spec b h caps r s).2 (hn _ (Or.inl rfl)), u1⟩,
      ⟨(case_ecall_u_spec b h caps r s).2 (hn _ (Or.inr (Or.inl rfl))), u2⟩,
      ⟨(case_csr_user_spec b h caps r s).2 (hn _ (Or.inr (Or.inr rfl))), u3⟩⟩
  · intro hU
    obtain ⟨u1, u2, u3⟩ := user_mode_cases_present h caps r s hU
    have hy : ∀ c, (c = CaseId.mcounteren_cy ∨ c = CaseId.ecall_u ∨ c = CaseId.csr_user) →
        applicable b h caps c := by
      intro c hc
      rcases hc with rfl | rfl | rfl <;> simpa [applicable] using hU
    exact ⟨⟨(case_mcounteren_cy_spec b h caps r s).1 (hy _ (Or.inl rfl)), u1⟩,
      ⟨(case_ecall_u_spec b h caps r s).1 (hy _ (Or.inr (Or.inl rfl))), u2⟩,
      ⟨(case_csr_user_spec b h caps r s).1 (hy _ (Or.inr (Or.inr rfl))), u3⟩⟩
  · intro hp
    obtain ⟨c1, c2, c3, c4⟩ := call_frame LibFn.cpu_pmp_get_num_regions [] s
    refine ⟨?_, case_pmp_no_switch h caps r s hp⟩
    rw [case_pmp_neg h caps r s hp]
    exact ⟨⟨c1, c2, c3⟩, c4⟩
  · intro hp
    obtain ⟨p1, _, _, _, _⟩ := case_pmp_block b h caps r s
    have ha : applicable_of b h caps
        [CaseId.pmp_create, CaseId.pmp_execute, CaseId.pmp_read, CaseId.pmp_write,
          CaseId.pmp_lock] =
        [CaseId.pmp_create, CaseId.pmp_execute, CaseId.pmp_read, CaseId.pmp_write,
          CaseId.pmp_lock] := by
      simp [applicable_of, applicable, hp]
    rw [ha] at p1
    exact ⟨p1, case_pmp_switches h caps r s hp⟩

/-! ## The configuration loop (claim C19) -/

theorem install_loop_trace_aux (r : Resp) (l : List Nat) (a : Int) (s : State) :
    (l.foldl (install_step r) (a, s)).2.trace =
      s.trace ++ l.map (fun id => Event.rte_exception_install id Handler.global_trap_handler) := by
  induction l generalizing a s with
  | nil => simp
  | cons id l ih =>
    simp only [List.foldl_cons, install_step, List.map_cons]
    rw [ih]
    simp

/-- The configuration loop installs the handler once for every vector id,
in increasing order, whatever the installations return. -/
theorem install_loop_trace (h : Neorv32H) (r : Resp) (s : State) :
    (install_loop h r s).2.trace = s.trace ++ install_attempts h :=
  install_loop_trace_aux r _ 0 s

/-- Adding non-negative codes whose sum fits in an `int` never wraps. -/
theorem foldl_wrap_eq_sum (f : Nat → Int) (l : List Nat) (a : Int) (ha : 0 ≤ a)
    (hf : ∀ id ∈ l, 0 ≤ f id) (hs : a + (l.map f).sum ≤ 2147483647) :
    l.foldl (fun acc id => wrap_int32 (acc + f id)) a = a + (l.map f).sum := by
  induction l generalizing a with
  | nil => simp
  | cons id l ih =>
    have h0 : 0 ≤ f id := hf id (List.mem_cons_self id l)
    have hl : ∀ x ∈ l, 0 ≤ f x := fun x hx => hf x (List.mem_cons_of_mem id hx)
    have hsum : 0 ≤ (l.map f).sum :=
      List.sum_nonneg (by
        intro x hx
        obtain ⟨y, hy, rfl⟩ := List.mem_map.mp hx
        exact hl y hy)
    simp only [List.map_cons, List.sum_cons] at hs
    have hw : wrap_int32 (a + f id) = a + f id := by
      unfold wrap_int32
      omega
    simp only [List.foldl_cons, List.map_cons, List.sum_cons, hw]
    rw [ih (a + f id) (by omega) hl (by omega)]
    omega

theorem install_err_eq_sum (h : Neorv32H) (r : Resp)
    (hnn : ∀ id, id < h.NEORV32_RTE_NUM_TRAPS.val → 0 ≤ r.install_rc id)
    (hsum : install_rc_sum h r ≤ 2147483647) :
    install_err h r = install_rc_sum h r := by
  unfold install_err install_rc_sum at *
  rw [foldl_wrap_eq_sum r.install_rc _ 0 (le_refl 0)
    (fun id hid => hnn id (List.mem_range.mp hid)) (by omega)]
  omega

/-- The sum of non-negative codes is 0 exactly when every code is 0. -/
theorem install_rc_sum_eq_zero_iff (h : Neorv32H) (r : Resp)
    (hnn : ∀ id, id < h.NEORV32_RTE_NUM_TRAPS.val → 0 ≤ r.install_rc id) :
    install_rc_sum h r = 0 ↔
      ∀ id, id < h.NEORV32_RTE_NUM_TRAPS.val → r.install_rc id = 0 := by
  unfold install_rc_sum
  have hpos : ∀ x ∈ (List.range h.NEORV32_RTE_NUM_TRAPS.val).map r.install_rc, 0 ≤ x := by
    intro x hx
    obtain ⟨y, hy, rfl⟩ := List.mem_map.mp hx
    exact hnn y (List.mem_range.mp hy)
  constructor
  · intro hz id hid
    have hmem : r.install_rc id ∈ (List.range h.NEORV32_RTE_NUM_TRAPS.val).map r.install_rc :=
      List.mem_map.mpr ⟨id, List.mem_range.mpr hid, rfl⟩
    have hle := List.single_le_sum hpos _ hmem
    have := hnn id hid
    omega
  · intro hz
    apply List.sum_eq_zero
    intro x hx
    obtain ⟨y, hy, rfl⟩ := List.mem_map.mp hx
    exact hz y (List.mem_range.mp hy)

/-- The first case of the catalog has no applicability check, so a run that
reaches the cases counts at least one case. -/
theorem applicable_of_catalog_pos (b : Build) (h : Neorv32H) (caps : Caps) :
    0 < (applicable_of b h caps catalog).length := by
  apply List.length_pos_of_mem (a := CaseId.cycle)
  simp [applicable_of, catalog, applicable]

/-- C19, as stated, fails, in both directions.  In a build without
`RUN_CHECK`, `main` returns 1 with the three counters at 0 although every
installation would return 0: it returns before the configuration loop, and
no installation is attempted.  In a build with `RUN_CHECK`, four
installations return the non-negative code 0x40000000; the `int` sum
`install_err` wraps to 0, `main` does not return early, runs all 45
applicable cases and returns 0. -/
theorem C19_counterexample_install_loop :
    (∀ id, sample_resp.install_rc id = 0) ∧
    (main sample_build_no_check sample_h sample_caps sample_resp).1 = 1 ∧
    (main sample_build_no_check sample_h sample_caps sample_resp).2.cnt_test = 0 ∧
    (main sample_build_no_check sample_h sample_caps sample_resp).2.cnt_ok = 0 ∧
    (main sample_build_no_check sample_h sample_caps sample_resp).2.cnt_fail = 0 ∧
    (∀ e ∈ install_attempts sample_h,
      e ∉ (main sample_build_no_check sample_h sample_caps sample_resp).2.trace) ∧
    (∀ id, 0 ≤ sample_resp_install_overflow.install_rc id) ∧
    sample_resp_install_overflow.install_rc 0 ≠ 0 ∧
    install_err sample_h sample_resp_install_overflow = 0 ∧
    (main sample_build sample_h sample_caps sample_resp_install_overflow).2.cnt_test = 45 ∧
    (main sample_build sample_h sample_caps sample_resp_install_overflow).1 = 0 := by
  refine ⟨fun _ => rfl, by decide, by decide, by decide, by decide, by decide, ?_, by decide,
    by decide, by decide, by decide⟩
  intro id
  simp only [sample_resp_install_overflow]
  split_ifs <;> omega

/-- C19, amended.  In a build with `RUN_CHECK`, assuming every
`neorv32_rte_exception_install` call returns a non-negative code and the sum
of the codes does not exceed the largest `int`: the configuration loop
installs `global_trap_handler` exactly once for every vector id
0 .. `NEORV32_RTE_NUM_TRAPS`-1, in this order and without stopping at a
failure; `install_err` is the sum of the codes; and `main` returns 1 before
running any case, with `cnt_test`, `cnt_ok` and `cnt_fail` still 0, if and
only if at least one installation returned a non-zero code. -/
theorem C19_install_loop (b : Build) (h : Neorv32H) (caps : Caps) (r : Resp) (s : State)
    (hb : b.RUN_CHECK = true)
    (hnn : ∀ id, id < h.NEORV32_RTE_NUM_TRAPS.val → 0 ≤ r.install_rc id)
    (hsum : install_rc_sum h r ≤ 2147483647) :
    (install_loop h r s).2.trace = s.trace ++ install_attempts h ∧
    (install_loop h r s).1 = install_rc_sum h r ∧
    (((main b h caps r).1 = 1 ∧ counts (main b h caps r).2 = [] ∧
        (main b h caps r).2.cnt_test = 0 ∧ (main b h caps r).2.cnt_ok = 0 ∧
        (main b h caps r).2.cnt_fail = 0) ↔
      ∃ id, id < h.NEORV32_RTE_NUM_TRAPS.val ∧ r.install_rc id ≠ 0) := by
  have he := install_err_eq_sum h r hnn hsum
  have hz := install_rc_sum_eq_zero_iff h r hnn
  refine ⟨install_loop_trace h r s, (install_loop_fst h r s).trans he, ?_⟩
  constructor
  · rintro ⟨_, _, ht, _, _⟩
    by_contra hne
    have hall : ∀ id, id < h.NEORV32_RTE_NUM_TRAPS.val → r.install_rc id = 0 := by
      intro id hid
      by_contra hc
      exact hne ⟨id, hid, hc⟩
    have hi : install_err h r = 0 := by rw [he]; exact hz.mpr hall
    obtain ⟨m1, _, _, _, _⟩ := main_run_frame b h caps r hb hi
    obtain ⟨i1, _, _, _⟩ := main_before_cases_init b h r
    obtain ⟨_, c2, _, _, _⟩ := main_cases_block b h caps r (main_before_cases b h r)
    have hpos := applicable_of_catalog_pos b h caps
    unfold main_after_cases at m1
    omega
  · rintro ⟨id, hid, hc⟩
    have hi : install_err h r ≠ 0 := by
      rw [he]
      intro h0
      exact hc (hz.mp h0 id hid)
    obtain ⟨e0, e1, e2, e3, e4⟩ := main_early_frame b h caps r (fun hh => hi hh.2)
    exact ⟨e0, e4, e1, e2, e3⟩

/-- Witness for C19: the installation for vector id 3 returns 1, all others
return 0; `main` returns 1 with nothing counted. -/
theorem C19_install_loop_witness :
    sample_build.RUN_CHECK = true ∧
    (∀ id, id < sample_h.NEORV32_RTE_NUM_TRAPS.val →
      0 ≤ sample_resp_install_error.install_rc id) ∧
    install_rc_sum sample_h sample_resp_install_error ≤ 2147483647 ∧
    (main sample_build sample_h sample_caps sample_resp_install_error).1 = 1 ∧
    (main sample_build sample_h sample_caps sample_resp_install_error).2.cnt_test = 0 :=
  have hnn : ∀ id, id < sample_h.NEORV32_RTE_NUM_TRAPS.val →
      0 ≤ sample_resp_install_error.install_rc id := by
    intro id _
    simp only [sample_resp_install_error]
    split_ifs <;> omega
  have hw := ((C19_install_loop sample_build sample_h sample_caps sample_resp_install_error
    State.init rfl hnn (by decide)).2.2).mpr ⟨3, by decide, by decide⟩
  ⟨rfl, hnn, by decide, hw.1, hw.2.2.1⟩

/-! ## The interrupt trigger of the testbench (claim C20) -/

theorem u32_one_shiftLeft (n : Nat) (hn : n < 32) : u32 (1 <<< n) = 1 <<< n := by
  unfold u32
  rw [Nat.one_shiftLeft]
  exact Nat.mod_eq_of_lt (Nat.pow_lt_pow_right (by decide) hn)

/-- C20.  For every mask `sel`, `sim_irq_trigger(sel)` adds exactly one
entry to the trace, the 32-bit store of the value `sel` itself to address
0xFF000000, and changes nothing else of the program state: the three
counters, the XIRQ accumulator and the HPM count are as before.  With the
bits MSIE and MEIE inside the 32-bit interrupt-enable register, the MSI case
calls it with the single-bit mask `1 << CSR_MIE_MSIE` and the MEI case with
`1 << CSR_MIE_MEIE`, right after clearing the cause and counting the
case. -/
theorem C20_sim_irq_trigger (h : Neorv32H) (r : Resp) (s : State) (sel : Nat)
    (hS : h.CSR_MIE_MSIE < 32) (hE : h.CSR_MIE_MEIE < 32) :
    (sim_irq_trigger sel s).trace = s.trace ++ [Event.io_store32 0xFF000000 sel] ∧
    { sim_irq_trigger sel s with trace := s.trace } = s ∧
    (sim_irq_trigger sel s).cnt_test = s.cnt_test ∧
    (sim_irq_trigger sel s).cnt_ok = s.cnt_ok ∧
    (sim_irq_trigger sel s).cnt_fail = s.cnt_fail ∧
    (sim_irq_trigger sel s).xirq_trap_handler_ack = s.xirq_trap_handler_ack ∧
    (s.trace ++
      [ Event.csr_write Csr.MCAUSE 0, Event.count CaseId.msi,
        Event.io_store32 0xFF000000 (1 <<< h.CSR_MIE_MSIE) ] <+: (case_msi h r s).trace) ∧
    (s.trace ++
      [ Event.csr_write Csr.MCAUSE 0, Event.count CaseId.mei,
        Event.io_store32 0xFF000000 (1 <<< h.CSR_MIE_MEIE) ] <+: (case_mei h r s).trace) := by
  refine ⟨rfl, rfl, rfl, rfl, rfl, rfl, ?_, ?_⟩
  · simp only [case_msi, u32_one_shiftLeft _ hS]
    split_ifs <;>
      simp [csr_write, csr_read, asm, sim_irq_trigger, List.prefix_append_right_inj,
        List.cons_prefix_cons, List.nil_prefix]
  · simp only [case_mei, u32_one_shiftLeft _ hE]
    split_ifs <;>
      simp [csr_write, csr_read, asm, sim_irq_trigger, List.prefix_append_right_inj,
        List.cons_prefix_cons, List.nil_prefix]

/-- Witness for C20: the sample header has MSIE at bit 3 and MEIE at bit
11; the trigger called with the mask 8 stores 8. -/
theorem C20_sim_irq_trigger_witness :
    sample_h.CSR_MIE_MSIE < 32 ∧ sample_h.CSR_MIE_MEIE < 32 ∧
    (sim_irq_trigger 8 State.init).trace = [Event.io_store32 0xFF000000 8] :=
  ⟨by decide, by decide,
    (C20_sim_irq_trigger sample_h sample_resp State.init 8 (by decide) (by decide)).1⟩

/-! ## Instances of the claims C11, C17 and C18 on the sample machine -/

/-- Witness for C11: the reverse order is a permutation of the two handlers
and does not end with 4. -/
theorem C11_xirq_handler_order_witness :
    [Handler.xirq_trap_handler1, Handler.xirq_trap_handler0].Perm
      [Handler.xirq_trap_handler0, Handler.xirq_trap_handler1] ∧
    ([Handler.xirq_trap_handler1, Handler.xirq_trap_handler0].foldl run_handler
      { State.init with xirq_trap_handler_ack := 0 }).xirq_trap_handler_ack ≠ 4 :=
  ⟨List.Perm.swap _ _ _, fun h4 =>
    absurd (((C11_xirq_handler_order State.init).2.2.2 _ (List.Perm.swap _ _ _)).mp h4)
      (by decide)⟩

/-- Witness for C18: the PMP user-mode read case on the sample machine,
entered with the cause register holding 11 (the `ecall` of the preceding
case): the read of the cause returns 0 when no trap is delivered. -/
theorem C18_cause_cleared_before_stimulus_witness :
    cause_reads 11
      (added (case_code sample_build sample_h sample_caps sample_resp CaseId.pmp_read)
        State.init) = [0] ∧
    all_zero (cause_reads 11
      (added (case_code sample_build sample_h sample_caps sample_resp CaseId.pmp_read)
        State.init)) = true :=
  ⟨by decide,
    (C18_cause_cleared_before_stimulus sample_build sample_h sample_caps sample_resp
      CaseId.pmp_read State.init).2.2.2 11⟩

/-- Witness for C17: on the sample machine without user mode the case
environment call from U-mode is skipped, and the PMP block, whose check
succeeds, switches to user mode. -/
theorem C17_user_mode_cases_witness :
    sample_caps_no_u.misa &&& (1 <<< sample_h.CSR_MISA_U) = 0 ∧
    sample_caps_no_u.pmp_get_num_regions ≠ 0 ∧
    skipped State.init (case_ecall_u sample_h sample_caps_no_u sample_resp State.init) ∧
    switches_privilege
      (added (case_pmp sample_h sample_caps_no_u sample_resp) State.init) = true :=
  ⟨by decide, by decide,
    ((C17_user_mode_cases sample_build sample_h sample_caps_no_u sample_resp
      State.init).1 (by decide)).2.1.1,
    ((C17_user_mode_cases sample_build sample_h sample_caps_no_u sample_resp
      State.init).2.2.2 (by decide)).2⟩

/-! ## The counters never decrease (claim C21) -/

theorem counters_le_refl (s : State) : counters_le s s :=
  ⟨le_refl _, le_refl _, le_refl _⟩

theorem counters_le_trans (s t u : State) (h1 : counters_le s t) (h2 : counters_le t u) :
    counters_le s u :=
  ⟨le_trans h1.1 h2.1, le_trans h1.2.1 h2.2.1, le_trans h1.2.2 h2.2.2⟩

/-- A block decreases no counter. -/
theorem block_spec_mono (b : Build) (h : Neorv32H) (caps : Caps) (ids : List CaseId)
    (f : State → State) (hf : block_spec b h caps ids f) (s : State) :
    counters_le s (f s) := by
  obtain ⟨_, f2, _, f4, f5⟩ := hf s
  exact ⟨by omega, f4, f5⟩

theorem forall₂_block_mono (b : Build) (h : Neorv32H) (caps : Caps)
    (idss : List (List CaseId)) (cs : List (State → State))
    (hl : List.Forall₂ (block_spec b h caps) idss cs) :
    ∀ c ∈ cs, ∀ s, counters_le s (c s) := by
  induction hl with
  | nil => intro c hc; simp at hc
  | cons hd _ ih =>
    intro c hc s
    rcases List.mem_cons.mp hc with rfl | hc
    · exact block_spec_mono b h caps _ _ hd s
    · exact ih c hc s

/-- A case that is counted adds 1 to `cnt_test` and 1 to one of `cnt_ok`,
`cnt_fail`; a case that is skipped moves no counter. -/
theorem ran_once_step (c : CaseId) (s s' : State) (hr : ran_once c s s') :
    s'.cnt_test = s.cnt_test + 1 ∧ (s'.cnt_ok = s.cnt_ok ∨ s'.cnt_ok = s.cnt_ok + 1) ∧
      (s'.cnt_fail = s.cnt_fail ∨ s'.cnt_fail = s.cnt_fail + 1) := by
  obtain ⟨h1, _, h3⟩ := hr
  rcases h3 with ⟨ho, hf⟩ | ⟨ho, hf⟩
  · exact ⟨h1, Or.inr ho, Or.inl hf⟩
  · exact ⟨h1, Or.inl ho, Or.inr hf⟩

theorem ran_once_mono (c : CaseId) (s s' : State) (hr : ran_once c s s') :
    counters_le s s' := by
  obtain ⟨h1, h2, h3⟩ := ran_once_step c s s' hr
  refine ⟨by omega, ?_, ?_⟩
  · rcases h2 with h2 | h2 <;> omega
  · rcases h3 with h3 | h3 <;> omega

/-- Every step of the PMP block decreases no counter. -/
theorem pmp_steps_mono (h : Neorv32H) (caps : Caps) (r : Resp) :
    ∀ c ∈ pmp_steps h caps r, ∀ s, counters_le s (c s) := by
  intro c hc s
  have hq : counters_le s (call LibFn.cpu_pmp_get_num_regions [] s) := by
    obtain ⟨c1, c2, c3, _⟩ := call_frame LibFn.cpu_pmp_get_num_regions [] s
    exact ⟨by omega, by omega, by omega⟩
  by_cases hp : caps.pmp_get_num_regions = 0
  · simp only [pmp_steps, hp, ne_eq, not_true_eq_false, if_false, List.mem_singleton] at hc
    subst hc
    exact hq
  · simp only [pmp_steps, hp, ne_eq, not_false_eq_true, if_true, List.mem_cons,
      List.mem_singleton, List.not_mem_nil, or_false] at hc
    rcases hc with rfl | rfl | rfl | rfl | rfl
    · exact counters_le_trans _ _ _ hq (ran_once_mono _ _ _ (case_pmp_create_spec caps r _))
    · exact ran_once_mono _ _ _ (case_pmp_execute_spec r _ s)
    · exact ran_once_mono _ _ _ (case_pmp_read_spec h r _ s)
    · exact ran_once_mono _ _ _ (case_pmp_write_spec h r _ s)
    · exact ran_once_mono _ _ _ (case_pmp_lock_spec r s)

/-- Every step of `main` decreases no counter. -/
theorem main_case_steps_mono (b : Build) (h : Neorv32H) (caps : Caps) (r : Resp) :
    ∀ c ∈ main_case_steps b h caps r, ∀ s, counters_le s (c s) := by
  have hm := forall₂_block_mono b h caps _ _ (main_cases_blocks b h caps r)
  intro c hc s
  simp only [main_case_steps, List.mem_append] at hc
  rcases hc with (hc | hc) | hc
  · exact hm c (List.mem_of_mem_take hc) s
  · exact pmp_steps_mono h caps r c hc s
  · exact hm c (List.mem_of_mem_drop hc) s

/-- Running steps that decrease no counter decreases no counter. -/
theorem run_cases_mono (cs : List (State → State))
    (hcs : ∀ c ∈ cs, ∀ s, counters_le s (c s)) (s : State) :
    counters_le s (run_cases cs s) := by
  induction cs generalizing s with
  | nil => exact counters_le_refl s
  | cons c cs ih =>
    rw [run_cases_cons]
    exact counters_le_trans _ _ _ (hcs c (List.mem_cons_self c cs) s)
      (ih (fun d hd => hcs d (List.mem_cons_of_mem c hd)) (c s))

/-- The state after `m` leading steps is reached from the state after
`n ≤ m` leading steps by running the steps in between. -/
theorem run_cases_take_le (cs : List (State → State)) (n m : Nat) (hnm : n ≤ m)
    (s : State) :
    run_cases (cs.take m) s =
      run_cases ((cs.take m).drop n) (run_cases (cs.take n) s) := by
  have h1 : cs.take n = (cs.take m).take n := by
    rw [List.take_take, Nat.min_eq_left hnm]
  rw [h1, ← run_cases_append, List.take_append_drop]

theorem run_cases_take_mono (cs : List (State → State))
    (hcs : ∀ c ∈ cs, ∀ s, counters_le s (c s)) (n m : Nat) (hnm : n ≤ m) (s : State) :
    counters_le (run_cases (cs.take n) s) (run_cases (cs.take m) s) := by
  rw [run_cases_take_le cs n m hnm s]
  apply run_cases_mono
  intro c hc t
  exact hcs c (List.mem_of_mem_take (List.mem_of_mem_drop hc)) t

/-- The number of cases counted in a run is at most 46, the length of the
catalog, so the `int` counters stay far below their largest value. -/
theorem main_after_cases_bound (b : Build) (h : Neorv32H) (caps : Caps) (r : Resp) :
    (main_after_cases b h caps r).cnt_test ≤ 46 := by
  obtain ⟨i1, _, _, _⟩ := main_before_cases_init b h r
  obtain ⟨_, c2, _, _, _⟩ := main_cases_block b h caps r (main_before_cases b h r)
  have hl : (applicable_of b h caps catalog).length ≤ catalog.length := by
    unfold applicable_of
    exact List.length_filter_le _ _
  have hc : catalog.length = 46 := rfl
  unfold main_after_cases
  omega

/-- C21.  The three counters start at 0.  The statements of the program
that modify a counter add exactly 1 to it: `test_ok` adds 1 to `cnt_ok` and
leaves `cnt_fail` and `cnt_test` as they are, `test_fail` adds 1 to
`cnt_fail` and leaves `cnt_ok` and `cnt_test` as they are, `cnt_test++` adds
1 to `cnt_test` only; a hardware access and a handler the hardware
dispatches move no counter.  Every case leaves each counter as it is or 1
higher.  Along the run of `main` the counters never decrease: they are 0
when the first case is entered, the state after `n` cases has no counter
above the state after `m ≥ n` cases, no counter exceeds 46, and the state
`main` returns has the counters of the state after the last case, or all
three at 0 on the two paths that return early. -/
theorem C21_counters_never_decrease (b : Build) (h : Neorv32H) (caps : Caps) (r : Resp) :
    (State.init.cnt_test = 0 ∧ State.init.cnt_ok = 0 ∧ State.init.cnt_fail = 0) ∧
    (∀ s, (test_ok s).cnt_ok = s.cnt_ok + 1 ∧ (test_ok s).cnt_fail = s.cnt_fail ∧
      (test_ok s).cnt_test = s.cnt_test) ∧
    (∀ s, (test_fail s).cnt_fail = s.cnt_fail + 1 ∧ (test_fail s).cnt_ok = s.cnt_ok ∧
      (test_fail s).cnt_test = s.cnt_test) ∧
    (∀ c s, (count c s).cnt_test = s.cnt_test + 1 ∧ (count c s).cnt_ok = s.cnt_ok ∧
      (count c s).cnt_fail = s.cnt_fail) ∧
    (∀ e s, (emit e s).cnt_test = s.cnt_test ∧ (emit e s).cnt_ok = s.cnt_ok ∧
      (emit e s).cnt_fail = s.cnt_fail) ∧
    (∀ s f, (run_handler s f).cnt_test = s.cnt_test ∧ (run_handler s f).cnt_ok = s.cnt_ok ∧
      (run_handler s f).cnt_fail = s.cnt_fail) ∧
    (∀ c s,
      ((case_code b h caps r c s).cnt_test = s.cnt_test ∨
        (case_code b h caps r c s).cnt_test = s.cnt_test + 1) ∧
      ((case_code b h caps r c s).cnt_ok = s.cnt_ok ∨
        (case_code b h caps r c s).cnt_ok = s.cnt_ok + 1) ∧
      ((case_code b h caps r c s).cnt_fail = s.cnt_fail ∨
        (case_code b h caps r c s).cnt_fail = s.cnt_fail + 1)) ∧
    ((main_before_cases b h r).cnt_test = 0 ∧ (main_before_cases b h r).cnt_ok = 0 ∧
      (main_before_cases b h r).cnt_fail = 0) ∧
    (∀ n m, n ≤ m →
      counters_le
        (run_cases ((main_case_steps b h caps r).take n) (main_before_cases b h r))
        (run_cases ((main_case_steps b h caps r).take m) (main_before_cases b h r))) ∧
    (∀ n, counters_le
      (run_cases ((main_case_steps b h caps r).take n) (main_before_cases b h r))
      (main_after_cases b h caps r)) ∧
    ((main_after_cases b h caps r).cnt_test ≤ 46 ∧
      (main_after_cases b h caps r).cnt_ok ≤ 46 ∧
      (main_after_cases b h caps r).cnt_fail ≤ 46) ∧
    (((main b h caps r).2.cnt_test = (main_after_cases b h caps r).cnt_test ∧
        (main b h caps r).2.cnt_ok = (main_after_cases b h caps r).cnt_ok ∧
        (main b h caps r).2.cnt_fail = (main_after_cases b h caps r).cnt_fail) ∨
      ((main b h caps r).2.cnt_test = 0 ∧ (main b h caps r).2.cnt_ok = 0 ∧
        (main b h caps r).2.cnt_fail = 0)) := by
  obtain ⟨i1, i2, i3, _⟩ := main_before_cases_init b h r
  have hmono := main_case_steps_mono b h caps r
  have hbound := main_after_cases_bound b h caps r
  have hledger : ledger_ok (main_after_cases b h caps r) := by
    have h0 : ledger_ok (main_before_cases b h r) := by
      unfold ledger_ok; omega
    exact block_spec_ledger b h caps _ _ (main_cases_block b h caps r) _ h0
  refine ⟨⟨rfl, rfl, rfl⟩, fun s => ⟨rfl, rfl, rfl⟩, fun s => ⟨rfl, rfl, rfl⟩,
    fun c s => ⟨rfl, rfl, rfl⟩, fun e s => ⟨rfl, rfl, rfl⟩, ?_, ?_, ⟨i1, i2, i3⟩, ?_, ?_, ?_, ?_⟩
  · intro s f
    obtain ⟨f1, f2, f3, _⟩ := run_handler_frame s f
    exact ⟨f1, f2, f3⟩
  · intro c s
    have hcase : ran_once c s (case_code b h caps r c s) ∨
        skipped s (case_code b h caps r c s) := by
      by_cases hp : c.is_pmp = true
      · exact Or.inl (case_code_pmp_spec b h caps r c hp s)
      · have hp' : c.is_pmp = false := by simpa using hp
        by_cases ha : applicable b h caps c
        · exact Or.inl ((case_code_spec b h caps r c hp' s).1 ha)
        · exact Or.inr ((case_code_spec b h caps r c hp' s).2 ha)
    rcases hcase with hr | ⟨⟨k1, k2, k3⟩, _⟩
    · obtain ⟨h1, h2, h3⟩ := ran_once_step c s _ hr
      exact ⟨Or.inr h1, h2, h3⟩
    · exact ⟨Or.inl k1, Or.inl k2, Or.inl k3⟩
  · intro n m hnm
    exact run_cases_take_mono _ hmono n m hnm _
  · intro n
    have hall : main_after_cases b h caps r =
        run_cases ((main_case_steps b h caps r).take (main_case_steps b h caps r).length)
          (main_before_cases b h r) := by
      rw [List.take_length, run_main_case_steps]
      rfl
    rw [hall]
    by_cases hn : n ≤ (main_case_steps b h caps r).length
    · exact run_cases_take_mono _ hmono n _ hn _
    · have hn' : (main_case_steps b h caps r).length ≤ n := by omega
      rw [List.take_of_length_le hn', List.take_length]
      exact counters_le_refl _
  · unfold ledger_ok at hledger
    exact ⟨hbound, by omega, by omega⟩
  · by_cases he : b.RUN_CHECK = true ∧ install_err h r = 0
    · obtain ⟨m1, m2, m3, _, _⟩ := main_run_frame b h caps r he.1 he.2
      exact Or.inl ⟨m1, m2, m3⟩
    · obtain ⟨_, e1, e2, e3, _⟩ := main_early_frame b h caps r he
      exact Or.inr ⟨e1, e2, e3⟩

/-- Witness for C21: on the sample machine on which seven cases fail, the
state after 10 cases has no counter above the state after 30 cases, and the
run ends with 45 cases counted, 38 passed and 7 failed. -/
theorem C21_counters_never_decrease_witness :
    counters_le
      (run_cases ((main_case_steps sample_build sample_h sample_caps sample_resp_failing).take 10)
        (main_before_cases sample_build sample_h sample_resp_failing))
      (run_cases ((main_case_steps sample_build sample_h sample_caps sample_resp_failing).take 30)
        (main_before_cases sample_build sample_h sample_resp_failing)) ∧
    (main sample_build sample_h sample_caps sample_resp_failing).2.cnt_test = 45 ∧
    (main sample_build sample_h sample_caps sample_resp_failing).2.cnt_ok = 38 ∧
    (main sample_build sample_h sample_caps sample_resp_failing).2.cnt_fail = 7 :=
  ⟨(C21_counters_never_decrease sample_build sample_h sample_caps
      sample_resp_failing).2.2.2.2.2.2.2.2.1 10 30 (by decide),
    by decide, by decide, by decide⟩

/-! ## What the accumulator value 4 proves (claim C22) -/

/-- From accumulator 0, as long as `xirq_trap_handler0` does not run the
accumulator stays 0. -/
theorem foldl_run_handler_without_handler0 (l : List Handler) (s : State)
    (hs : s.xirq_trap_handler_ack = 0) (hl : Handler.xirq_trap_handler0 ∉ l) :
    (l.foldl run_handler s).xirq_trap_handler_ack = 0 := by
  induction l generalizing s with
  | nil => simpa using hs
  | cons f l ih =>
    simp only [List.foldl_cons]
    apply ih
    · cases f
      · simpa [run_handler] using hs
      · exact absurd (List.mem_cons_self _ _) hl
      · simp [run_handler, xirq_trap_handler1, hs, u32]
    · exact fun hm => hl (List.mem_cons_of_mem _ hm)

/-- C22, as stated, fails.  The sequence channel 1, channel 0, channel 1
runs both handlers, starts with `xirq_trap_handler1` and ends with the
accumulator at 4 (0*2 = 0, 0+2 = 2, 2*2 = 4); so does the sequence channel
1, channel 0, channel 0.  With the first sequence dispatched by the
hardware the FIRQ8 case is recorded as passed. -/
theorem C22_counterexample_handler1_first :
    Handler.xirq_trap_handler0 ∈ sample_resp_xirq_one_zero_one.firq8_dispatch ∧
    Handler.xirq_trap_handler1 ∈ sample_resp_xirq_one_zero_one.firq8_dispatch ∧
    sample_resp_xirq_one_zero_one.firq8_dispatch.head? = some Handler.xirq_trap_handler1 ∧
    (sample_resp_xirq_one_zero_one.firq8_dispatch.foldl run_handler
      { State.init with xirq_trap_handler_ack := 0 }).xirq_trap_handler_ack = 4 ∧
    ([Handler.xirq_trap_handler1, Handler.xirq_trap_handler0,
      Handler.xirq_trap_handler0].foldl run_handler
      { State.init with xirq_trap_handler_ack := 0 }).xirq_trap_handler_ack = 4 ∧
    recorded_passed State.init
      (case_firq8 sample_h sample_caps sample_resp_xirq_one_zero_one State.init) := by
  refine ⟨by decide, by decide, rfl, by decide, by decide, ⟨by decide, by decide⟩⟩

/-- C22, amended.  Starting from the accumulator at 0: for every sequence
in which each of the two handlers runs exactly once, a final value of 4
implies that the first handler to run was `xirq_trap_handler0`; and for
every finite sequence of handler invocations whatever, a final value of 4
implies that `xirq_trap_handler0` ran at least once. -/
theorem C22_accumulator_four (s : State) (l : List Handler) :
    (l.Perm [Handler.xirq_trap_handler0, Handler.xirq_trap_handler1] →
      (l.foldl run_handler { s with xirq_trap_handler_ack := 0 }).xirq_trap_handler_ack = 4 →
      l.head? = some Handler.xirq_trap_handler0) ∧
    ((l.foldl run_handler { s with xirq_trap_handler_ack := 0 }).xirq_trap_handler_ack = 4 →
      Handler.xirq_trap_handler0 ∈ l) := by
  constructor
  · intro hl h4
    have hlen := hl.length_eq
    match l, hl, hlen, h4 with
    | [a, b], hl, _, h4 =>
      cases a <;> cases b <;>
        first
        | rfl
        | exact absurd hl (by decide)
        | (simp [run_handler, xirq_trap_handler0, xirq_trap_handler1, u32] at h4)
  · intro h4
    by_contra hn
    have h0 := foldl_run_handler_without_handler0 l { s with xirq_trap_handler_ack := 0 }
      rfl hn
    omega

/-- Witness for C22: channel 0 then channel 1 ends at 4 and starts with
`xirq_trap_handler0`. -/
theorem C22_accumulator_four_witness :
    [Handler.xirq_trap_handler0, Handler.xirq_trap_handler1].Perm
      [Handler.xirq_trap_handler0, Handler.xirq_trap_handler1] ∧
    ([Handler.xirq_trap_handler0, Handler.xirq_trap_handler1].foldl run_handler
      { State.init with xirq_trap_handler_ack := 0 }).xirq_trap_handler_ack = 4 ∧
    [Handler.xirq_trap_handler0, Handler.xirq_trap_handler1].head? =
      some Handler.xirq_trap_handler0 :=
  ⟨List.Perm.refl _, by decide,
    (C22_accumulator_four State.init
      [Handler.xirq_trap_handler0, Handler.xirq_trap_handler1]).1 (List.Perm.refl _)
      (by decide)⟩

/-! ## The illegal-instruction case (claim C23) -/

/-- C23.  The illegal-instruction case clears the cause, is counted,
executes `csrrw zero, 0xfff, zero` and is recorded as passed if and only if
the cause read back is `TRAP_CODE_I_ILLEGAL` and `mtval` reads 0xfff01073;
in every other situation it is recorded as failed.  The word 0xfff01073 is
the encoding of `csrrw zero, 0xfff, zero`: CSR address 0xfff in bits 31:20,
rs1 = 0 in bits 19:15, funct3 = 001 in bits 14:12, rd = 0 in bits 11:7 and
opcode 0x73 in bits 6:0. -/
theorem C23_i_illeg_verdict (h : Neorv32H) (r : Resp) (s : State) :
    (s.trace ++
      [ Event.csr_write Csr.MCAUSE 0, Event.count CaseId.i_illeg,
        Event.asm Instr.csrrw_zero_fff_zero, Event.csr_read Csr.MCAUSE ]
      <+: (case_i_illeg h r s).trace) ∧
    (recorded_passed s (case_i_illeg h r s) ↔
      r.i_illeg_mcause = h.TRAP_CODE_I_ILLEGAL ∧ r.i_illeg_mtval = encode_csrrw 0xfff 0 0) ∧
    (recorded_failed s (case_i_illeg h r s) ↔
      ¬ (r.i_illeg_mcause = h.TRAP_CODE_I_ILLEGAL ∧
        r.i_illeg_mtval = encode_csrrw 0xfff 0 0)) ∧
    encode_csrrw 0xfff 0 0 = 0xfff01073 ∧
    (0xfff01073 >>> 20 = 0xfff ∧ (0xfff01073 >>> 15) % 2 ^ 5 = 0 ∧
      (0xfff01073 >>> 12) % 2 ^ 3 = 0b001 ∧ (0xfff01073 >>> 7) % 2 ^ 5 = 0 ∧
      0xfff01073 % 2 ^ 7 = 0x73) := by
  have he : encode_csrrw 0xfff 0 0 = 0xfff01073 := by decide
  rw [he]
  refine ⟨?_, ?_, ?_, rfl, by decide⟩
  all_goals
    simp only [case_i_illeg]
    split_ifs <;>
      simp_all [recorded_passed, recorded_failed, csr_write, csr_read, call, asm,
        List.prefix_append_right_inj, List.cons_prefix_cons, List.nil_prefix]

/-! ## The constants of the PMP cases (claims C24 and C25) -/

/-- C24.  The configuration byte of the protected region, 0b00011000, has
the read, write and execute bits (bits 0, 1, 2) clear, the lock bit (bit 7)
clear and the mode field (bits 4:3) equal to 0b11, NAPOT.  The create case
clears the cause, is counted, queries the granularity, reads
`SYSINFO_DSPACE_BASE` and configures region 0 with that base, the queried
granularity as size and this byte; it hands the base on in `tmp_a`.  With a
PMP region the block passes this `tmp_a` to the execute, read and write
cases, and each of them, after its switch to user mode, jumps to, loads
from, or stores to the address it is given. -/
theorem C24_pmp_region (h : Neorv32H) (caps : Caps) (r : Resp) (s : State)
    (hp : caps.pmp_get_num_regions ≠ 0) :
    ((0b00011000 : Nat).testBit 0 = false ∧ (0b00011000 : Nat).testBit 1 = false ∧
      (0b00011000 : Nat).testBit 2 = false ∧ (0b00011000 : Nat).testBit 7 = false ∧
      (0b00011000 >>> 3) % 2 ^ 2 = 0b11) ∧
    (s.trace ++
      [ Event.csr_write Csr.MCAUSE 0, Event.count CaseId.pmp_create,
        Event.call LibFn.cpu_pmp_get_granularity [],
        Event.io_read IoReg.SYSINFO_DSPACE_BASE,
        Event.call LibFn.cpu_pmp_configure_region
          [0, caps.SYSINFO_DSPACE_BASE, caps.pmp_get_granularity, 0b00011000] ]
      <+: (case_pmp_create caps r s).1.trace) ∧
    (case_pmp_create caps r s).2.1 = caps.SYSINFO_DSPACE_BASE ∧
    case_pmp h caps r s =
      case_pmp_lock r
        (case_pmp_write h r caps.SYSINFO_DSPACE_BASE
          (case_pmp_read h r caps.SYSINFO_DSPACE_BASE
            (case_pmp_execute r caps.SYSINFO_DSPACE_BASE
              (case_pmp_create caps r (call LibFn.cpu_pmp_get_num_regions [] s)).1))) ∧
    (∀ tmp_a t, t.trace ++
      [ Event.count CaseId.pmp_execute, Event.csr_write Csr.MCAUSE 0,
        Event.call LibFn.cpu_goto_user_mode [], Event.asm (Instr.jalr_ra tmp_a) ]
      <+: (case_pmp_execute r tmp_a t).trace) ∧
    (∀ tmp_a t, t.trace ++
      [ Event.count CaseId.pmp_read, Event.csr_write Csr.MCAUSE 0,
        Event.call LibFn.cpu_goto_user_mode [],
        Event.call LibFn.cpu_load_unsigned_word [tmp_a] ]
      <+: (case_pmp_read h r tmp_a t).trace) ∧
    (∀ tmp_a t, t.trace ++
      [ Event.count CaseId.pmp_write, Event.csr_write Csr.MCAUSE 0,
        Event.call LibFn.cpu_goto_user_mode [],
        Event.call LibFn.cpu_store_unsigned_word [tmp_a, 0] ]
      <+: (case_pmp_write h r tmp_a t).trace) := by
  refine ⟨by decide, ?_, rfl, case_pmp_pos h caps r s hp, ?_, ?_, ?_⟩
  · simp only [case_pmp_create]
    split_ifs <;>
      simp [csr_write, csr_read, call, asm, goto_user_mode,
        List.prefix_append_right_inj, List.cons_prefix_cons, List.nil_prefix]
  · intro tmp_a t
    simp only [case_pmp_execute]
    split_ifs <;>
      simp [csr_write, csr_read, call, asm, goto_user_mode,
        List.prefix_append_right_inj, List.cons_prefix_cons, List.nil_prefix]
  · intro tmp_a t
    simp only [case_pmp_read]
    split_ifs <;>
      simp [csr_write, csr_read, call, asm, goto_user_mode,
        List.prefix_append_right_inj, List.cons_prefix_cons, List.nil_prefix]
  · intro tmp_a t
    simp only [case_pmp_write]
    split_ifs <;>
      simp [csr_write, csr_read, call, asm, goto_user_mode,
        List.prefix_append_right_inj, List.cons_prefix_cons, List.nil_prefix]

/-- Witness for C24: the sample machine has two PMP regions; the region is
created at 0x80000000 with 8 bytes. -/
theorem C24_pmp_region_witness :
    sample_caps.pmp_get_num_regions ≠ 0 ∧
    Event.call LibFn.cpu_pmp_configure_region [0, 0x80000000, 8, 0b00011000] ∈
      (case_pmp_create sample_caps sample_resp State.init).1.trace ∧
    (State.init.trace ++
      [ Event.count CaseId.pmp_read, Event.csr_write Csr.MCAUSE 0,
        Event.call LibFn.cpu_goto_user_mode [],
        Event.call LibFn.cpu_load_unsigned_word [0x80000000] ]
      <+: (case_pmp_read sample_h sample_resp 0x80000000 State.init).trace) :=
  ⟨by decide, by decide,
    (C24_pmp_region sample_h sample_caps sample_resp State.init (by decide)).2.2.2.2.2.1
      0x80000000 State.init⟩

/-- The two values the lock case writes to `pmpcfg0`, and the value it
writes to `pmpaddr0`, whatever the hardware answers. -/
theorem case_pmp_lock_writes (r : Resp) (s : State) :
    csr_writes Csr.PMPCFG0 (added (case_pmp_lock r) s) = [0b10000001, 0b00011001] ∧
    csr_writes Csr.PMPADDR0 (added (case_pmp_lock r) s) = [0xABABCDCD] := by
  simp only [added, case_pmp_lock]
  split_ifs <;> refine ⟨?_, ?_⟩ <;>
    simp only [csr_write, csr_read, emit_trace, test_ok_trace, test_fail_trace, count_trace,
      List.nil_append, List.append_assoc, List.cons_append] <;> rfl

/-- C25, as stated, fails.  The value of the rewrite attempt, 0b00011001,
the second value the lock case writes to `pmpcfg0`, has the write bit (bit
1) and the execute bit (bit 2) clear: it does not set all three permission
bits. -/
theorem C25_counterexample_rewrite_value :
    csr_writes Csr.PMPCFG0 (added (case_pmp_lock sample_resp) State.init) =
      [0b10000001, 0b00011001] ∧
    (0b00011001 : Nat).testBit 1 = false ∧ (0b00011001 : Nat).testBit 2 = false := by
  refine ⟨by decide, by decide, by decide⟩

/-- C25, amended.  The lock case writes two values to `pmpcfg0`.  The
first, 0b10000001, locks the entry in deactivated state: lock bit 7 set,
mode field (bits 4:3) 0, off; of the permission bits read (bit 0) is set,
write and execute are clear.  The second, 0b00011001, is the rewrite
attempt: it differs from the first in the lock bit, which it clears, and in
the mode field, which it sets to 0b11 (NAPOT), and has the same permission
bits, read set, write and execute clear. -/
theorem C25_pmp_lock_values (r : Resp) (s : State) :
    csr_writes Csr.PMPCFG0 (added (case_pmp_lock r) s) = [0b10000001, 0b00011001] ∧
    ((0b10000001 : Nat).testBit 7 = true ∧ (0b10000001 >>> 3) % 2 ^ 2 = 0 ∧
      (0b10000001 : Nat).testBit 0 = true ∧ (0b10000001 : Nat).testBit 1 = false ∧
      (0b10000001 : Nat).testBit 2 = false) ∧
    ((0b00011001 : Nat).testBit 7 = false ∧ (0b00011001 >>> 3) % 2 ^ 2 = 0b11 ∧
      (0b00011001 : Nat).testBit 0 = true ∧ (0b00011001 : Nat).testBit 1 = false ∧
      (0b00011001 : Nat).testBit 2 = false) ∧
    (0b00011001 : Nat) ≠ 0b10000001 :=
  ⟨(case_pmp_lock_writes r s).1, by decide, by decide, by decide⟩

/-! ## The check of the FIRQ2 case (claim C26) -/

/-- C26, the code at the failing inputs.  On a machine with UART0 and
without UART1 the FIRQ2 case is skipped, although UART0 is available, while
the FIRQ3 case is counted.  On a machine with UART1 and without UART0 the
FIRQ2 case is counted and sends a character on UART0, although UART0 is not
available, while the FIRQ3 case is skipped. -/
theorem C26_firq2_checks_uart1 :
    sample_caps_no_uart1.uart0_available ≠ 0 ∧
    skipped State.init (case_firq2 sample_h sample_caps_no_uart1 sample_resp State.init) ∧
    CaseId.firq2 ∉ counts (main sample_build sample_h sample_caps_no_uart1 sample_resp).2 ∧
    CaseId.firq3 ∈ counts (main sample_build sample_h sample_caps_no_uart1 sample_resp).2 ∧
    sample_caps_no_uart0.uart0_available = 0 ∧
    ran_once CaseId.firq2 State.init
      (case_firq2 sample_h sample_caps_no_uart0 sample_resp State.init) ∧
    Event.call LibFn.uart0_putc [0] ∈
      (case_firq2 sample_h sample_caps_no_uart0 sample_resp State.init).trace ∧
    CaseId.firq2 ∈ counts (main sample_build sample_h sample_caps_no_uart0 sample_resp).2 ∧
    CaseId.firq3 ∉ counts (main sample_build sample_h sample_caps_no_uart0 sample_resp).2 := by
  refine ⟨by decide, ⟨⟨rfl, rfl, rfl⟩, rfl⟩, by decide, by decide, rfl,
    ⟨rfl, by decide, Or.inl ⟨rfl, rfl⟩⟩, by decide, by decide, by decide⟩

/-! ## The two cases that depend on the C extension (claim C27) -/

/-- On the path where the cases run, the cases counted by `main` are the
applicable cases of the catalog. -/
theorem main_counts (b : Build) (h : Neorv32H) (caps : Caps) (r : Resp)
    (hb : b.RUN_CHECK = true) (hi : install_err h r = 0) :
    counts (main b h caps r).2 = applicable_of b h caps catalog := by
  obtain ⟨_, _, _, m4, _⟩ := main_run_frame b h caps r hb hi
  obtain ⟨_, _, _, i4⟩ := main_before_cases_init b h r
  obtain ⟨c1, _, _, _, _⟩ := main_cases_block b h caps r (main_before_cases b h r)
  rw [m4]
  unfold main_after_cases
  rw [c1, i4, List.nil_append]

/-- C27.  For every value of MISA exactly one of the cases I_ALIGN and
CI_ILLEG is run and counted: with the C bit clear I_ALIGN is counted once
and CI_ILLEG is skipped, with the C bit set CI_ILLEG is counted once and
I_ALIGN is skipped; whatever the states in which the two cases are entered,
together they add exactly 1 to `cnt_test`; and in a run of `main` that
reaches the cases, I_ALIGN is among the cases counted if and only if the C
bit is clear, CI_ILLEG if and only if it is set. -/
theorem C27_align_or_compressed (b : Build) (h : Neorv32H) (caps : Caps) (r : Resp)
    (s s' : State) :
    (caps.misa &&& (1 <<< h.CSR_MISA_C) = 0 →
      ran_once CaseId.i_align s (case_i_align h caps r s) ∧
        skipped s' (case_ci_illeg h caps r s')) ∧
    (caps.misa &&& (1 <<< h.CSR_MISA_C) ≠ 0 →
      skipped s (case_i_align h caps r s) ∧
        ran_once CaseId.ci_illeg s' (case_ci_illeg h caps r s')) ∧
    (case_i_align h caps r s).cnt_test + (case_ci_illeg h caps r s').cnt_test =
      s.cnt_test + s'.cnt_test + 1 ∧
    (b.RUN_CHECK = true → install_err h r = 0 →
      (CaseId.i_align ∈ counts (main b h caps r).2 ↔
        caps.misa &&& (1 <<< h.CSR_MISA_C) = 0) ∧
      (CaseId.ci_illeg ∈ counts (main b h caps r).2 ↔
        caps.misa &&& (1 <<< h.CSR_MISA_C) ≠ 0)) := by
  have ha := case_i_align_spec b h caps r s
  have hc := case_ci_illeg_spec b h caps r s'
  have h1 : caps.misa &&& (1 <<< h.CSR_MISA_C) = 0 →
      ran_once CaseId.i_align s (case_i_align h caps r s) ∧
        skipped s' (case_ci_illeg h caps r s') := by
    intro hC
    exact ⟨ha.1 hC, hc.2 (fun hn => hn hC)⟩
  have h2 : caps.misa &&& (1 <<< h.CSR_MISA_C) ≠ 0 →
      skipped s (case_i_align h caps r s) ∧
        ran_once CaseId.ci_illeg s' (case_ci_illeg h caps r s') := by
    intro hC
    exact ⟨ha.2 hC, hc.1 hC⟩
  refine ⟨h1, h2, ?_, ?_⟩
  · by_cases hC : caps.misa &&& (1 <<< h.CSR_MISA_C) = 0
    · obtain ⟨⟨a1, _, _⟩, ⟨⟨c1, _, _⟩, _⟩⟩ := h1 hC
      omega
    · obtain ⟨⟨⟨a1, _, _⟩, _⟩, ⟨c1, _, _⟩⟩ := h2 hC
      omega
  · intro hb hi
    rw [main_counts b h caps r hb hi]
    unfold applicable_of
    constructor
    · rw [List.mem_filter]
      simp only [decide_eq_true_eq]
      exact ⟨fun hm => hm.2, fun hC => ⟨by decide, hC⟩⟩
    · rw [List.mem_filter]
      simp only [decide_eq_true_eq]
      exact ⟨fun hm => hm.2, fun hC => ⟨by decide, hC⟩⟩

/-- Witness for C27: the sample machine has the C extension; CI_ILLEG is
counted and I_ALIGN is not. -/
theorem C27_align_or_compressed_witness :
    sample_caps.misa &&& (1 <<< sample_h.CSR_MISA_C) ≠ 0 ∧
    sample_build.RUN_CHECK = true ∧ install_err sample_h sample_resp = 0 ∧
    CaseId.ci_illeg ∈ counts (main sample_build sample_h sample_caps sample_resp).2 ∧
    CaseId.i_align ∉ counts (main sample_build sample_h sample_caps sample_resp).2 :=
  have hw := (C27_align_or_compressed sample_build sample_h sample_caps sample_resp
    State.init State.init).2.2.2 rfl (by decide)
  ⟨by decide, rfl, by decide, hw.2.mpr (by decide),
    fun hm => absurd (hw.1.mp hm) (by decide)⟩

/-! ## The frame of the trap handler (claim C28) -/

/-- The bits of a value converted to `uint32_t`. -/
theorem testBit_u32_eq (x i : Nat) :
    (u32 x).testBit i = (decide (i < 32) && x.testBit i) := by
  unfold u32
  rw [Nat.testBit_mod_two_pow]

/-- C28.  The effect of `global_trap_handler` on `mstatus` is
`mstatus := mstatus | mask` with the `uint32_t` mask
`(1<<CSR_MSTATUS_MPP_H) | (1<<CSR_MSTATUS_MPP_L)`: every bit of `mstatus`
other than the two MPP bits keeps its value and a 32-bit value stays a
32-bit value.  The handler changes no variable of the program: the three
counters, the XIRQ accumulator and all the rest of the state are as before.
It is idempotent: running it twice leaves what running it once leaves. -/
theorem C28_global_trap_handler_frame (h : Neorv32H) (mstatus : Nat) (s : State) :
    global_trap_handler h mstatus =
      mstatus ||| u32 ((1 <<< h.CSR_MSTATUS_MPP_H) ||| (1 <<< h.CSR_MSTATUS_MPP_L)) ∧
    (∀ i, i ≠ h.CSR_MSTATUS_MPP_L → i ≠ h.CSR_MSTATUS_MPP_H →
      (global_trap_handler h mstatus).testBit i = mstatus.testBit i) ∧
    (mstatus < 2 ^ 32 → global_trap_handler h mstatus < 2 ^ 32) ∧
    run_handler s Handler.global_trap_handler = s ∧
    ((run_handler s Handler.global_trap_handler).cnt_test = s.cnt_test ∧
      (run_handler s Handler.global_trap_handler).cnt_ok = s.cnt_ok ∧
      (run_handler s Handler.global_trap_handler).cnt_fail = s.cnt_fail ∧
      (run_handler s Handler.global_trap_handler).xirq_trap_handler_ack =
        s.xirq_trap_handler_ack) ∧
    global_trap_handler h (global_trap_handler h mstatus) = global_trap_handler h mstatus ∧
    run_handler (run_handler s Handler.global_trap_handler) Handler.global_trap_handler =
      run_handler s Handler.global_trap_handler := by
  refine ⟨rfl, ?_, ?_, rfl, ⟨rfl, rfl, rfl, rfl⟩, ?_, rfl⟩
  · intro i hL hH
    simp only [global_trap_handler, csrrs, Nat.testBit_or, testBit_u32_eq,
      Nat.one_shiftLeft, Nat.testBit_two_pow]
    have hL' : decide (h.CSR_MSTATUS_MPP_L = i) = false := by
      simpa using fun hc => hL hc.symm
    have hH' : decide (h.CSR_MSTATUS_MPP_H = i) = false := by
      simpa using fun hc => hH hc.symm
    simp [hL', hH']
  · intro hm
    simp only [global_trap_handler, csrrs]
    apply Nat.or_lt_two_pow hm
    unfold u32
    exact Nat.mod_lt _ (by decide)
  · simp only [global_trap_handler, csrrs, Nat.or_assoc, Nat.or_self]

/-- Witness for C28: with `mstatus` holding 0x00200088 on entry, the
handler leaves 0x00201888; bit 21 (TW) is still set and a second run
changes nothing. -/
theorem C28_global_trap_handler_frame_witness :
    global_trap_handler sample_h 0x00200088 = 0x00201888 ∧
    (21 ≠ sample_h.CSR_MSTATUS_MPP_L ∧ 21 ≠ sample_h.CSR_MSTATUS_MPP_H ∧
      (global_trap_handler sample_h 0x00200088).testBit 21 =
        (0x00200088 : Nat).testBit 21) ∧
    global_trap_handler sample_h (global_trap_handler sample_h 0x00200088) =
      global_trap_handler sample_h 0x00200088 :=
  ⟨by decide, ⟨by decide, by decide,
    (C28_global_trap_handler_frame sample_h 0x00200088 State.init).2.1 21
      (by decide) (by decide)⟩,
    (C28_global_trap_handler_frame sample_h 0x00200088 State.init).2.2.2.2.2.1⟩

/-! ## The counter-control registers are restored (claim C29) -/

/-- The bits of a 32-bit complement. -/
theorem testBit_not32 (x i : Nat) :
    (not32 x).testBit i = (decide (i < 32) && !x.testBit i) := by
  have hx : u32 x < 2 ^ 32 := Nat.mod_lt _ (by decide)
  have he : not32 x = 2 ^ 32 - (u32 x + 1) := by
    unfold not32
    omega
  rw [he, Nat.testBit_two_pow_sub_succ hx, testBit_u32_eq]
  by_cases hi : i < 32 <;> simp [hi]

/-- A 32-bit value has no bit at position 32 or above. -/
theorem testBit_high (v i : Nat) (hv : v < 2 ^ 32) (hi : 32 ≤ i) : v.testBit i = false :=
  Nat.testBit_lt_two_pow (lt_of_lt_of_le hv (Nat.pow_le_pow_right (by decide) hi))

/-- Setting a bit that was clear and clearing it again gives the value
back. -/
theorem set_then_clear_bit (v k : Nat) (hv : v < 2 ^ 32) (hk : v.testBit k = false) :
    u32 (v ||| (1 <<< k)) &&& not32 (1 <<< k) = v := by
  apply Nat.eq_of_testBit_eq
  intro i
  simp only [Nat.testBit_and, Nat.testBit_or, testBit_u32_eq, testBit_not32,
    Nat.one_shiftLeft, Nat.testBit_two_pow]
  by_cases hi : i < 32
  · by_cases hki : k = i
    · subst hki
      simp [hk]
    · simp [hi, hki]
  · have := testBit_high v i hv (by omega)
    simp [hi, this]

/-- Clearing a bit that was set and setting it again gives the value
back. -/
theorem clear_then_set_bit (v k : Nat) (hv : v < 2 ^ 32) (hk : v.testBit k = true) :
    u32 ((v &&& not32 (1 <<< k)) ||| (1 <<< k)) = v := by
  apply Nat.eq_of_testBit_eq
  intro i
  simp only [Nat.testBit_and, Nat.testBit_or, testBit_u32_eq, testBit_not32,
    Nat.one_shiftLeft, Nat.testBit_two_pow]
  by_cases hi : i < 32
  · by_cases hki : k = i
    · subst hki
      simp [hk, hi]
    · simp [hi, hki]
  · have := testBit_high v i hv (by omega)
    simp [hi, this]

/-- Setting a bit that is set changes nothing. -/
theorem set_bit_of_set (v k : Nat) (hv : v < 2 ^ 32) (hk : v.testBit k = true) :
    u32 (v ||| (1 <<< k)) = v := by
  apply Nat.eq_of_testBit_eq
  intro i
  simp only [Nat.testBit_or, testBit_u32_eq, Nat.one_shiftLeft, Nat.testBit_two_pow]
  by_cases hi : i < 32
  · by_cases hki : k = i
    · subst hki
      simp [hk, hi]
    · simp [hi, hki]
  · have := testBit_high v i hv (by omega)
    simp [hi, this]

/-- Setting bit `k` of a 32-bit value changes no other bit. -/
theorem testBit_set_bit (v k i : Nat) (hv : v < 2 ^ 32) (hki : i ≠ k) :
    (u32 (v ||| (1 <<< k))).testBit i = v.testBit i := by
  simp only [Nat.testBit_or, testBit_u32_eq, Nat.one_shiftLeft, Nat.testBit_two_pow]
  have hki' : ¬ k = i := fun hc => hki hc.symm
  by_cases hi : i < 32
  · simp [hi, hki']
  · have := testBit_high v i hv (by omega)
    simp [hi, this]

/-- Clearing bit `k` of a 32-bit value changes no other bit. -/
theorem testBit_clear_bit (v k i : Nat) (hv : v < 2 ^ 32) (hki : i ≠ k) :
    (v &&& not32 (1 <<< k)).testBit i = v.testBit i := by
  simp only [Nat.testBit_and, testBit_not32, Nat.one_shiftLeft, Nat.testBit_two_pow]
  have hki' : ¬ k = i := fun hc => hki hc.symm
  by_cases hi : i < 32
  · simp [hi, hki']
  · have := testBit_high v i hv (by omega)
    simp [hi, this]

/-- The register `CSR_MCOUNTINHIBIT` during the mcountinhibit.cy case, when
it holds `w0` on entry and holds what is stored: the two reads return `w0`
and the value of the first write; the register ends with the value of the
second write; at every point it holds `w0` or one of the two values
written. -/
theorem case_mcountinhibit_cy_storage (h : Neorv32H) (r : Resp) (s : State) (w0 : Nat) :
    stored_reads Csr.MCOUNTINHIBIT w0 (added (case_mcountinhibit_cy h r) s) =
      [w0, u32 (r.mcountinhibit_rd ||| (1 <<< h.CSR_MCOUNTINHIBIT_CY))] ∧
    csr_after Csr.MCOUNTINHIBIT w0 (added (case_mcountinhibit_cy h r) s) =
      r.mcountinhibit_rd2 &&& not32 (1 <<< h.CSR_MCOUNTINHIBIT_CY) ∧
    (∀ w ∈ csr_history Csr.MCOUNTINHIBIT w0 (added (case_mcountinhibit_cy h r) s),
      w = w0 ∨ w = u32 (r.mcountinhibit_rd ||| (1 <<< h.CSR_MCOUNTINHIBIT_CY)) ∨
        w = r.mcountinhibit_rd2 &&& not32 (1 <<< h.CSR_MCOUNTINHIBIT_CY)) := by
  simp only [added, case_mcountinhibit_cy]
  split_ifs <;>
    simp only [csr_write, csr_read, asm, emit_trace, test_ok_trace, test_fail_trace,
      count_trace, List.nil_append, List.append_assoc, List.cons_append] <;>
    simp [stored_reads, csr_after, csr_history, Event.csr_effect, Event.is_read_of,
      Instr.csr_effect]

/-- The register `CSR_MCOUNTEREN` during the mcounteren.cy block when the
case runs. -/
theorem case_mcounteren_cy_storage_run (h : Neorv32H) (caps : Caps) (r : Resp) (s : State)
    (v0 : Nat) (hU : caps.misa &&& (1 <<< h.CSR_MISA_U) ≠ 0) :
    stored_reads Csr.MCOUNTEREN v0 (added (case_mcounteren_cy h caps r) s) =
      [v0, r.mcounteren_rd &&& not32 (1 <<< h.CSR_MCOUNTEREN_CY)] ∧
    csr_after Csr.MCOUNTEREN v0 (added (case_mcounteren_cy h caps r) s) =
      u32 (r.mcounteren_rd2 ||| (1 <<< h.CSR_MCOUNTEREN_CY)) ∧
    (∀ w ∈ csr_history Csr.MCOUNTEREN v0 (added (case_mcounteren_cy h caps r) s),
      w = v0 ∨ w = r.mcounteren_rd &&& not32 (1 <<< h.CSR_MCOUNTEREN_CY) ∨
        w = u32 (r.mcounteren_rd2 ||| (1 <<< h.CSR_MCOUNTEREN_CY))) := by
  simp only [added, case_mcounteren_cy, hU, ne_eq, not_false_eq_true, if_true]
  split_ifs <;>
    simp only [csr_write, csr_read, asm, call, goto_user_mode, emit_trace, test_ok_trace,
      test_fail_trace, count_trace, List.nil_append, List.append_assoc,
      List.cons_append] <;>
    simp [stored_reads, csr_after, csr_history, Event.csr_effect, Event.is_read_of,
      Instr.csr_effect]

/-- The register `CSR_MCOUNTEREN` during the mcounteren.cy block when the
case is skipped: only the re-allow statements run. -/
theorem case_mcounteren_cy_storage_skip (h : Neorv32H) (caps : Caps) (r : Resp)
    (s : State) (v0 : Nat) (hU : caps.misa &&& (1 <<< h.CSR_MISA_U) = 0) :
    stored_reads Csr.MCOUNTEREN v0 (added (case_mcounteren_cy h caps r) s) = [v0] ∧
    csr_after Csr.MCOUNTEREN v0 (added (case_mcounteren_cy h caps r) s) =
      u32 (r.mcounteren_rd2 ||| (1 <<< h.CSR_MCOUNTEREN_CY)) ∧
    (∀ w ∈ csr_history Csr.MCOUNTEREN v0 (added (case_mcounteren_cy h caps r) s),
      w = v0 ∨ w = u32 (r.mcounteren_rd2 ||| (1 <<< h.CSR_MCOUNTEREN_CY))) := by
  simp only [added, case_mcounteren_cy, hU, ne_eq, not_true_eq_false, if_false]
  simp only [csr_write, csr_read, emit_trace, List.nil_append, List.append_assoc,
    List.cons_append]
  simp [stored_reads, csr_after, csr_history, Event.csr_effect, Event.is_read_of,
    Instr.csr_effect]

/-- The set-up of `main` leaves 7 in `CSR_MCOUNTEREN` and 0 in
`CSR_MCOUNTINHIBIT`. -/
theorem main_setup_storage (x : Nat) (s : State) :
    csr_after Csr.MCOUNTEREN x (added main_setup s) = 7 ∧
    csr_after Csr.MCOUNTINHIBIT x (added main_setup s) = 0 := by
  simp only [added, main_setup]
  simp only [csr_write, call, emit_trace, List.nil_append, List.append_assoc,
    List.cons_append]
  simp [csr_after, Event.csr_effect]

/-- C29.  The registers are 32 bits wide and hold what is written to them:
`CSR_MCOUNTEREN` holds `v0` when the mcounteren.cy block is entered,
`CSR_MCOUNTINHIBIT` holds `w0` when the mcountinhibit.cy case is entered,
and the values the two pieces of code read from their register are the
values stored.  Then the mcounteren.cy block, whether its case runs or is
skipped, leaves `CSR_MCOUNTEREN` at `v0` whenever the CY bit of `v0` is set,
and the mcountinhibit.cy case leaves `CSR_MCOUNTINHIBIT` at `w0` whenever
the CY bit of `w0` is clear; at every point of either piece of code the
register differs from its value on entry in no bit other than CY.  The
set-up of `main` leaves 7 in `CSR_MCOUNTEREN` and 0 in
`CSR_MCOUNTINHIBIT`. -/
theorem C29_counter_control_restored (h : Neorv32H) (caps : Caps) (r : Resp)
    (s t : State) (v0 w0 : Nat) (hv : v0 < 2 ^ 32) (hw : w0 < 2 ^ 32)
    (hre : stored_reads Csr.MCOUNTEREN v0 (added (case_mcounteren_cy h caps r) t) =
      mcounteren_cy_reads h caps r)
    (hri : stored_reads Csr.MCOUNTINHIBIT w0 (added (case_mcountinhibit_cy h r) s) =
      mcountinhibit_cy_reads r) :
    (v0.testBit h.CSR_MCOUNTEREN_CY = true →
      csr_after Csr.MCOUNTEREN v0 (added (case_mcounteren_cy h caps r) t) = v0) ∧
    (∀ w ∈ csr_history Csr.MCOUNTEREN v0 (added (case_mcounteren_cy h caps r) t),
      ∀ i, i ≠ h.CSR_MCOUNTEREN_CY → w.testBit i = v0.testBit i) ∧
    (w0.testBit h.CSR_MCOUNTINHIBIT_CY = false →
      csr_after Csr.MCOUNTINHIBIT w0 (added (case_mcountinhibit_cy h r) s) = w0) ∧
    (∀ w ∈ csr_history Csr.MCOUNTINHIBIT w0 (added (case_mcountinhibit_cy h r) s),
      ∀ i, i ≠ h.CSR_MCOUNTINHIBIT_CY → w.testBit i = w0.testBit i) ∧
    (∀ x u, csr_after Csr.MCOUNTEREN x (added main_setup u) = 7 ∧
      csr_after Csr.MCOUNTINHIBIT x (added main_setup u) = 0) := by
  have hcl : ∀ v k, v < 2 ^ 32 → v &&& not32 (1 <<< k) < 2 ^ 32 :=
    fun v k hv' => lt_of_le_of_lt Nat.and_le_left hv'
  have hst : ∀ v k, u32 (v ||| (1 <<< k)) < 2 ^ 32 :=
    fun v k => Nat.mod_lt _ (by decide)
  refine ⟨?_, ?_, ?_, ?_, main_setup_storage⟩
  · intro hbit
    by_cases hU : caps.misa &&& (1 <<< h.CSR_MISA_U) = 0
    · obtain ⟨k1, k2, _⟩ := case_mcounteren_cy_storage_skip h caps r t v0 hU
      rw [k1] at hre
      simp only [mcounteren_cy_reads, hU, ne_eq, not_true_eq_false, if_false,
        List.cons.injEq, and_true] at hre
      rw [k2, ← hre]
      exact set_bit_of_set v0 _ hv hbit
    · obtain ⟨k1, k2, _⟩ := case_mcounteren_cy_storage_run h caps r t v0 hU
      rw [k1] at hre
      simp only [mcounteren_cy_reads, hU, ne_eq, not_false_eq_true, if_true,
        List.cons.injEq, and_true] at hre
      rw [k2, ← hre.2, ← hre.1]
      exact clear_then_set_bit v0 _ hv hbit
  · intro w hmem i hi
    by_cases hU : caps.misa &&& (1 <<< h.CSR_MISA_U) = 0
    · obtain ⟨k1, _, k3⟩ := case_mcounteren_cy_storage_skip h caps r t v0 hU
      rw [k1] at hre
      simp only [mcounteren_cy_reads, hU, ne_eq, not_true_eq_false, if_false,
        List.cons.injEq, and_true] at hre
      rcases k3 w hmem with rfl | rfl
      · rfl
      · rw [← hre]
        exact testBit_set_bit v0 _ i hv hi
    · obtain ⟨k1, _, k3⟩ := case_mcounteren_cy_storage_run h caps r t v0 hU
      rw [k1] at hre
      simp only [mcounteren_cy_reads, hU, ne_eq, not_false_eq_true, if_true,
        List.cons.injEq, and_true] at hre
      rcases k3 w hmem with rfl | rfl | rfl
      · rfl
      · rw [← hre.1]
        exact testBit_clear_bit v0 _ i hv hi
      · rw [← hre.2, ← hre.1, testBit_set_bit _ _ i (hcl v0 _ hv) hi]
        exact testBit_clear_bit v0 _ i hv hi
  · intro hbit
    obtain ⟨k1, k2, _⟩ := case_mcountinhibit_cy_storage h r s w0
    rw [k1] at hri
    simp only [mcountinhibit_cy_reads, List.cons.injEq, and_true] at hri
    rw [k2, ← hri.2, ← hri.1]
    exact set_then_clear_bit w0 _ hw hbit
  · intro w hmem i hi
    obtain ⟨k1, _, k3⟩ := case_mcountinhibit_cy_storage h r s w0
    rw [k1] at hri
    simp only [mcountinhibit_cy_reads, List.cons.injEq, and_true] at hri
    rcases k3 w hmem with rfl | rfl | rfl
    · rfl
    · rw [← hri.1]
      exact testBit_set_bit w0 _ i hw hi
    · rw [← hri.2, ← hri.1, testBit_clear_bit _ _ i (hst w0 _) hi]
      exact testBit_set_bit w0 _ i hw hi

/-- Witness for C29: the sample machine, with 7 in `CSR_MCOUNTEREN` and 0
in `CSR_MCOUNTINHIBIT` as the set-up of `main` leaves them; the values read
in the two cases are the values stored, the CY bit of 7 is set, that of 0 is
clear, and both registers end with the value they had. -/
theorem C29_counter_control_restored_witness :
    (7 : Nat) < 2 ^ 32 ∧ (0 : Nat) < 2 ^ 32 ∧
    stored_reads Csr.MCOUNTEREN 7
      (added (case_mcounteren_cy sample_h sample_caps sample_resp) State.init) =
      mcounteren_cy_reads sample_h sample_caps sample_resp ∧
    stored_reads Csr.MCOUNTINHIBIT 0
      (added (case_mcountinhibit_cy sample_h sample_resp) State.init) =
      mcountinhibit_cy_reads sample_resp ∧
    (7 : Nat).testBit sample_h.CSR_MCOUNTEREN_CY = true ∧
    (0 : Nat).testBit sample_h.CSR_MCOUNTINHIBIT_CY = false ∧
    csr_after Csr.MCOUNTEREN 7
      (added (case_mcounteren_cy sample_h sample_caps sample_resp) State.init) = 7 ∧
    csr_after Csr.MCOUNTINHIBIT 0
      (added (case_mcountinhibit_cy sample_h sample_resp) State.init) = 0 :=
  have hw := C29_counter_control_restored sample_h sample_caps sample_resp State.init
    State.init 7 0 (by decide) (by decide) (by decide) (by decide)
  ⟨by decide, by decide, by decide, by decide, by decide, by decide,
    hw.1 (by decide), hw.2.2.1 (by decide)⟩

end ProcessorCheck
